import Mathlib

/-!
# Tiling parameters of the forward implicit-GEMM v4r5 xdlops solver

A shallow embedding of `src/solver/conv_hip_implicit_gemm_fwd_v4r5_xdlops.cpp`
(the performance config `PerformanceImplicitGemmForwardV4R5Xdlops`, its derived-resource
calculators, its validators, the heuristic initialiser and the enumerator), followed by
theorems about it.

Number model.
* C++ `int` is a 32 bit two's complement integer.  A value of type `int` is an `Int`; the
  result of every `int` multiplication and addition of the source is reduced to the range
  `[-2 ^ 31, 2 ^ 31)` by `wrapInt` (signed overflow wraps around in the compiled code); `/` and
  `%` are the truncating `Int.tdiv` and `Int.tmod`.
* A division or remainder of `int`s traps when the divisor is zero and when `INT_MIN` is
  divided by `-1` (`divTraps`); a trap ends the program, and the quotient of the model has no
  meaning there.  For a problem with at least one group (`CalculateGemmSize` divides by the
  group count) `IsReallyValid` and `HeuristicInit` never reach such a division: a config that
  fails `IsValidValue` is refused before any arithmetic, and the matmul-unit predicate accepts
  no config whose wave tile exceeds the block tile along N (`wave_within_block`).
  `CalculateBlockSize_traps` and `CalculateGridSize_traps` tell when a call of these two
  functions on an arbitrary config traps.  On a config that satisfies `IsValidValue` (and a
  problem with at least one group) the block-copy calculations and `IsFastToBeUsedForTuning`
  divide by non-zero numbers only; the theorems about their results on other configs assume
  that the function has returned.
* C++ `std::size_t` is `Nat` reduced modulo `2 ^ 64`; the conversions `int -> std::size_t` and
  `std::size_t -> int` are `toSizeT` and `toInt32`.
* `try { ... MIOPEN_THROW ... } catch(...) { return failure; }` is an early return of the
  failure tuple.
-/

namespace miopen
namespace solver

/-! ## Machine integers -/

/-- The value of an `int` expression: the two's complement reduction of the exact result to
`[-2 ^ 31, 2 ^ 31)`. -/
def wrapInt (x : Int) : Int := (x + 2 ^ 31) % 2 ^ 32 - 2 ^ 31

/-- The `int` operations `a / b` and `a % b` trap: the divisor is zero, or the quotient
`INT_MIN / -1` is not an `int`. -/
def divTraps (a b : Int) : Bool :=
  decide (b = 0) || (decide (a = -2 ^ 31) && decide (b = -1))

/-- Conversion of an `int` to `std::size_t` (value modulo `2 ^ 64`). -/
def toSizeT (x : Int) : Nat := (x % (2 ^ 64 : Int)).toNat

/-- Conversion of a `std::size_t` to `int` (two's complement value of the low 32 bits). -/
def toInt32 (n : Nat) : Int :=
  if n % 2 ^ 32 < 2 ^ 31 then ((n % 2 ^ 32 : Nat) : Int) else ((n % 2 ^ 32 : Nat) : Int) - 2 ^ 32

/-! ## Helpers declared in `implicitgemm_util.hpp` (not part of the source tree) -/

/-- Modelled from the spec: the `gcd` helper of `implicitgemm_util.hpp` is absent from the source
tree; it is the greatest common divisor (of the absolute values), returned as an `int`. -/
def gcd (x y : Int) : Int := (Int.gcd x y : Nat)

/-- Modelled from the spec: the `lcm` helper of `implicitgemm_util.hpp` is absent from the source
tree; it is the least common multiple, returned as an `int`. -/
def lcm (x y : Int) : Int := (Int.lcm x y : Nat)

/-- Test that an `int` is a power of two, that is one of `2 ^ 0, ..., 2 ^ 30` (the powers of
two of a 32 bit signed integer). -/
def isPowerOfTwo (v : Int) : Bool :=
  (List.range 31).any (fun k => decide (v = 2 ^ k))

/-- Modelled from the spec: the template `IsTwoPower<L, H>` of `implicitgemm_util.hpp` is absent
from the source tree; by the spec it holds iff `v` is a power of two within the inclusive
bounds `[L, H]`. -/
def IsTwoPower (L H v : Int) : Bool :=
  isPowerOfTwo v && decide (L ≤ v) && decide (v ≤ H)

/-- Modelled from the spec: the template `NextTwoPower<L, H>` of `implicitgemm_util.hpp` is absent
from the source tree.  By the spec, "next" for a numeric field is the next larger power of two
within bounds, wrapping to the minimum; as `SetNextValue` stops at the first call that returns
`false`, the returned flag is `true` exactly on a wrap.  Result: (new value, wrapped). -/
def NextTwoPower (L H v : Int) : Int × Bool :=
  if v = H then (L, true) else (v * 2, false)

/-- Modelled from the spec: the template `PreviousTwoPower<L, H>` of `implicitgemm_util.hpp` is
absent from the source tree.  It is the mirror image of `NextTwoPower`: the field shrinks to the
next smaller power of two within its bounds; a field that is exhausted (already at `L`) restarts
at `H` and reports `true`, which lets `HeuristicInit` move on to the next field and detect
`all_visited` once every field has wrapped (the seeds of `HeuristicInit` start
`GemmBThreadDataPerRead_GemmN` at its lower bound `1`, so that its first shrink is the restart
at `8`).  A helper that stayed at `L` would let the loop test a single chain of 27 configs, none
of which is valid for Scenario A of the spec, which `HeuristicInit` has to solve.
Result: (new value, wrapped). -/
def PreviousTwoPower (L H v : Int) : Int × Bool :=
  if v = L then (H, true) else (v.tdiv 2, false)

/-- Modelled from the spec: the template `NextFlag<L, H>` of `implicitgemm_util.hpp` is absent from
the source tree.  By the spec, "next" for a boolean field is a toggle from `L` to `H`, wrapping
back to `L`; the returned flag is `true` exactly on a wrap.  Result: (new value, wrapped). -/
def NextFlag (L H v : Bool) : Bool × Bool :=
  if v = H then (L, true) else (H, false)

/-! ## Problem shape and external collaborators -/

/-- Numeric precision of the problem (`IsFp32`, `IsFp16`, `IsBfp16`; anything else is `other`). -/
inductive DataType where
  | fp32
  | fp16
  | bfp16
  | other
  deriving DecidableEq, Repr

/-- The values `ProblemInterpreter` reads off a `ProblemDescription`.  Extents are natural
numbers; strides, dilations and paddings are `int`s (an adjusted right padding may be
negative). -/
structure ProblemDescription where
  GroupCountG : Nat
  BatchN : Nat
  OutputChannelK : Nat
  InputChannelC : Nat
  OutputHeightHo : Nat
  OutputWidthWo : Nat
  FilterHeightY : Nat
  FilterWidthX : Nat
  AdjustedConvolutionStrideH : Int
  AdjustedConvolutionStrideW : Int
  AdjustedConvolutionDilationW : Int
  InputLeftPadH : Int
  InputLeftPadW : Int
  AdjustedInputRightPadH : Int
  AdjustedInputRightPadW : Int
  dataType : DataType
  deriving DecidableEq, Repr

namespace ProblemDescription

def IsFp32 (p : ProblemDescription) : Bool := decide (p.dataType = DataType.fp32)

def IsFp16 (p : ProblemDescription) : Bool := decide (p.dataType = DataType.fp16)

def IsBfp16 (p : ProblemDescription) : Bool := decide (p.dataType = DataType.bfp16)

end ProblemDescription

/-- Constants, the matmul-unit predicate and the process-wide toggle that the solver reads from
headers and from the environment.  None of them is defined in the source file, so they are
parameters of the model.
* `buffer_load_max_length_float`, `buffer_load_max_length_half`:
  `amd_buffer_load_max_length<float>()` and `amd_buffer_load_max_length<half_float::half>()`;
* `lds_write_max_length_float`, `lds_write_max_length_half`: `amd_lds_write_max_length<T>()`;
* `lds_max_number_of_byte`: `get_lds_max_number_of_byte()`;
* `IsValidBlockwiseGemmXdlops`: the predicate of that name, with the arguments
  `(problem, GemmMPerBlock, GemmNPerBlock, GemmKPerBlock, GemmMPerWave, GemmNPerWave, GemmKPack)`;
* `MaxComputeUnits`: `ctx.GetStream().GetMaxComputeUnits()`;
* `ADD_VECTOR_LOAD_GEMMN_TUNE_PARAM`: whether
  `MIOPEN_DEBUG_CONV_IMPLICIT_GEMM_FWD_V4R5_XDLOPS_ADD_VECTOR_LOAD_GEMMN_TUNE_PARAM` is enabled;
* `wave_within_block`: the predicate accepts no config of positive sizes whose wave tile is
  larger than the block tile along N.  `IsReallyValid` relies on it: right after the predicate
  has accepted a config it divides the batch size by `GemmNPerBlock / GemmNPerWave` without a
  test for zero. -/
structure ConvolutionContext where
  buffer_load_max_length_float : Int
  buffer_load_max_length_half : Int
  lds_write_max_length_float : Int
  lds_write_max_length_half : Int
  lds_max_number_of_byte : Nat
  IsValidBlockwiseGemmXdlops : ProblemDescription → Int → Int → Int → Int → Int → Int → Bool
  MaxComputeUnits : Nat
  ADD_VECTOR_LOAD_GEMMN_TUNE_PARAM : Bool
  wave_within_block : ∀ p bm bn bk wm wn kp,
    IsValidBlockwiseGemmXdlops p bm bn bk wm wn kp = true → 0 < wn → 0 < bn → wn ≤ bn

/-- `CalculateGemmSize`: the batched GEMM `(gemm_g, gemm_m, gemm_n, gemm_k_total)` equivalent to
the convolution; computed in `std::size_t`, returned as `int`s.  The two divisions by the group
count trap for a problem without groups (`GroupCountG = 0`). -/
def CalculateGemmSize (p : ProblemDescription) : Int × Int × Int × Int :=
  let g := p.GroupCountG
  let n := p.BatchN
  let k := p.OutputChannelK
  let c := p.InputChannelC
  let ho := p.OutputHeightHo
  let wo := p.OutputWidthWo
  let y := p.FilterHeightY
  let x := p.FilterWidthX
  let k_per_group := k / g
  let c_per_group := c / g
  let gemm_g := g
  let gemm_m := k_per_group
  let gemm_n := n * ho * wo % 2 ^ 64
  let gemm_k_total := c_per_group * y * x % 2 ^ 64
  (toInt32 gemm_g, toInt32 gemm_m, toInt32 gemm_n, toInt32 gemm_k_total)

/-! ## The performance config -/

/-- The tunable parameters (`PerformanceImplicitGemmForwardV4R5Xdlops`). -/
structure PerformanceImplicitGemmForwardV4R5Xdlops where
  GemmMPerBlock : Int
  GemmNPerBlock : Int
  GemmKPerBlock : Int
  GemmMPerWave : Int
  GemmNPerWave : Int
  GemmKPack : Int
  GemmAThreadCopyMoreGemmK : Bool
  GemmBThreadCopyMoreGemmKPack : Bool
  GemmBThreadDataPerRead_GemmN : Int
  use_spare_set : Bool
  deriving DecidableEq, Repr

/-- The six values returned by the two block-copy calculations, in the order of the returned
tuple: three cluster lengths, source vector width, destination vector width, validity. -/
structure BlockCopyPerformanceParameters where
  ClusterLengths_GemmK : Int
  ClusterLengths_GemmMOrB : Int
  ClusterLengths_GemmKPack : Int
  SrcDataPerRead : Int
  DstDataPerWrite_GemmKPack : Int
  valid : Bool
  deriving DecidableEq, Repr

/-- The tuple `(-1, -1, -1, -1, -1, false)` returned from the `catch` block. -/
def BlockCopyPerformanceParameters.failure : BlockCopyPerformanceParameters :=
  ⟨-1, -1, -1, -1, -1, false⟩

namespace PerformanceImplicitGemmForwardV4R5Xdlops

/-- The default constructor: `(4, 4, 1, 4, 4, 1, false, false, 1, false)`. -/
def default : PerformanceImplicitGemmForwardV4R5Xdlops :=
  ⟨4, 4, 1, 4, 4, 1, false, false, 1, false⟩

/-- `CalculateBlockSize`: the returned pair when the call does not trap (see
`CalculateBlockSize_traps`). -/
def CalculateBlockSize (c : PerformanceImplicitGemmForwardV4R5Xdlops) : Int × Bool :=
  if ¬ (c.GemmMPerBlock.tmod c.GemmMPerWave = 0 ∧ c.GemmNPerBlock.tmod c.GemmNPerWave = 0) then
    (-1, false)
  else
    let WaveSize : Int := 64
    let block_size :=
      wrapInt ((wrapInt (c.GemmNPerBlock * c.GemmMPerBlock)).tdiv
        (wrapInt (c.GemmMPerWave * c.GemmNPerWave)) * WaveSize)
    (block_size, true)

/-- `CalculateBlockSize` traps: at the first remainder, at the second remainder (evaluated
when the first is zero), or at the division (evaluated when both remainders are zero). -/
def CalculateBlockSize_traps (c : PerformanceImplicitGemmForwardV4R5Xdlops) : Bool :=
  divTraps c.GemmMPerBlock c.GemmMPerWave ||
    (decide (c.GemmMPerBlock.tmod c.GemmMPerWave = 0) &&
      (divTraps c.GemmNPerBlock c.GemmNPerWave ||
        (decide (c.GemmNPerBlock.tmod c.GemmNPerWave = 0) &&
          divTraps (wrapInt (c.GemmNPerBlock * c.GemmMPerBlock))
            (wrapInt (c.GemmMPerWave * c.GemmNPerWave)))))

/-- `CalculateGridSize`: the returned pair when the call does not trap (see
`CalculateGridSize_traps`). -/
def CalculateGridSize (c : PerformanceImplicitGemmForwardV4R5Xdlops) (p : ProblemDescription) :
    Int × Bool :=
  let gemm_g := (CalculateGemmSize p).1
  let gemm_m := (CalculateGemmSize p).2.1
  let gemm_n := (CalculateGemmSize p).2.2.1
  if ¬ (gemm_m.tmod c.GemmMPerBlock = 0 ∧ gemm_n.tmod c.GemmNPerBlock = 0) then
    (-1, false)
  else
    let GridSize :=
      wrapInt (wrapInt (gemm_g * gemm_m.tdiv c.GemmMPerBlock) * gemm_n.tdiv c.GemmNPerBlock)
    (GridSize, true)

/-- `CalculateGridSize` traps: in `CalculateGemmSize` (no group), at the first remainder, at
the second remainder (evaluated when the first is zero), or at one of the two divisions, which
have the divisors of the remainders (evaluated when both remainders are zero). -/
def CalculateGridSize_traps (c : PerformanceImplicitGemmForwardV4R5Xdlops)
    (p : ProblemDescription) : Bool :=
  decide (p.GroupCountG = 0) ||
    divTraps (CalculateGemmSize p).2.1 c.GemmMPerBlock ||
    (decide ((CalculateGemmSize p).2.1.tmod c.GemmMPerBlock = 0) &&
      divTraps (CalculateGemmSize p).2.2.1 c.GemmNPerBlock)

/-- `CalculateLdsNumberOfByte`: the two block spaces and their sum are `int`s, the product with
`sizeof` is taken in `std::size_t`. -/
def CalculateLdsNumberOfByte (c : PerformanceImplicitGemmForwardV4R5Xdlops)
    (p : ProblemDescription) : Nat × Bool :=
  let a_block_space := wrapInt (wrapInt (c.GemmKPerBlock * c.GemmMPerBlock) * c.GemmKPack)
  let b_block_space := wrapInt (wrapInt (c.GemmKPerBlock * c.GemmNPerBlock) * c.GemmKPack)
  let lds_size :=
    toSizeT (wrapInt (a_block_space + b_block_space)) * (if p.IsFp32 then 4 else 2) % 2 ^ 64
  (lds_size, true)

/-- `IsValidValue`. -/
def IsValidValue (c : PerformanceImplicitGemmForwardV4R5Xdlops) : Bool :=
  IsTwoPower 4 256 c.GemmMPerBlock
    && IsTwoPower 4 256 c.GemmNPerBlock
    && IsTwoPower 1 8 c.GemmKPerBlock
    && IsTwoPower 4 128 c.GemmMPerWave
    && IsTwoPower 4 128 c.GemmNPerWave
    && IsTwoPower 1 8 c.GemmKPack
    && IsTwoPower 1 8 c.GemmBThreadDataPerRead_GemmN

/-! ### Operand A block copy

Every local variable of `CalculateGemmABlockCopyPerformanceParameters` is a definition of its
own, named after the variable; the function itself is the chain of `MIOPEN_THROW` checks. -/

namespace GemmABlockCopy

/-- `SrcDataPerRead_GemmKPack` after `gcd(SrcDataPerRead_GemmKPack, GemmKPack)`; it is also
`data_per_thread_copy_gemmkpack`. -/
def SrcDataPerRead_GemmKPack (ctx : ConvolutionContext)
    (c : PerformanceImplicitGemmForwardV4R5Xdlops) (p : ProblemDescription) : Int :=
  gcd (if p.IsFp32 then ctx.buffer_load_max_length_float else ctx.buffer_load_max_length_half)
    c.GemmKPack

/-- `data_per_thread_copy`. -/
def data_per_thread_copy (c : PerformanceImplicitGemmForwardV4R5Xdlops) : Int :=
  max 1 ((wrapInt (wrapInt (c.GemmKPerBlock * c.GemmMPerBlock) * c.GemmKPack)).tdiv
    c.CalculateBlockSize.1)

/-- `tmp`. -/
def tmp (ctx : ConvolutionContext) (c : PerformanceImplicitGemmForwardV4R5Xdlops)
    (p : ProblemDescription) : Int :=
  (data_per_thread_copy c).tdiv (SrcDataPerRead_GemmKPack ctx c p)

/-- `data_per_thread_copy_gemmk`. -/
def data_per_thread_copy_gemmk (ctx : ConvolutionContext)
    (c : PerformanceImplicitGemmForwardV4R5Xdlops) (p : ProblemDescription) : Int :=
  if c.GemmAThreadCopyMoreGemmK then gcd c.GemmKPerBlock (tmp ctx c p)
  else (tmp ctx c p).tdiv (gcd c.GemmMPerBlock (tmp ctx c p))

/-- `data_per_thread_copy_gemmm`. -/
def data_per_thread_copy_gemmm (ctx : ConvolutionContext)
    (c : PerformanceImplicitGemmForwardV4R5Xdlops) (p : ProblemDescription) : Int :=
  if c.GemmAThreadCopyMoreGemmK then (tmp ctx c p).tdiv (gcd c.GemmKPerBlock (tmp ctx c p))
  else gcd c.GemmMPerBlock (tmp ctx c p)

/-- `DstDataPerWrite_GemmKPack` after the `gcd` with `data_per_thread_copy_gemmkpack`. -/
def DstDataPerWrite_GemmKPack (ctx : ConvolutionContext)
    (c : PerformanceImplicitGemmForwardV4R5Xdlops) (p : ProblemDescription) : Int :=
  gcd (if p.IsFp32 then ctx.lds_write_max_length_float else ctx.lds_write_max_length_half)
    (SrcDataPerRead_GemmKPack ctx c p)

/-- `ClusterLengths_GemmK`. -/
def ClusterLengths_GemmK (ctx : ConvolutionContext)
    (c : PerformanceImplicitGemmForwardV4R5Xdlops) (p : ProblemDescription) : Int :=
  c.GemmKPerBlock.tdiv (data_per_thread_copy_gemmk ctx c p)

/-- `ClusterLengths_GemmM`. -/
def ClusterLengths_GemmM (ctx : ConvolutionContext)
    (c : PerformanceImplicitGemmForwardV4R5Xdlops) (p : ProblemDescription) : Int :=
  c.GemmMPerBlock.tdiv (data_per_thread_copy_gemmm ctx c p)

/-- `ClusterLengths_GemmKPack`. -/
def ClusterLengths_GemmKPack (ctx : ConvolutionContext)
    (c : PerformanceImplicitGemmForwardV4R5Xdlops) (p : ProblemDescription) : Int :=
  c.GemmKPack.tdiv (SrcDataPerRead_GemmKPack ctx c p)

end GemmABlockCopy

/-- `CalculateGemmABlockCopyPerformanceParameters` (A tensor shape
`[GemmG, GemmK, GemmM, GemmKPack]`). -/
def CalculateGemmABlockCopyPerformanceParameters (ctx : ConvolutionContext)
    (c : PerformanceImplicitGemmForwardV4R5Xdlops) (p : ProblemDescription) :
    BlockCopyPerformanceParameters :=
  if ¬ c.CalculateBlockSize.2 then BlockCopyPerformanceParameters.failure
  else if GemmABlockCopy.tmp ctx c p = 0 then BlockCopyPerformanceParameters.failure
  else if ¬ (c.GemmKPerBlock.tmod (GemmABlockCopy.data_per_thread_copy_gemmk ctx c p) = 0 ∧
      c.GemmMPerBlock.tmod (GemmABlockCopy.data_per_thread_copy_gemmm ctx c p) = 0 ∧
      c.GemmKPack.tmod (GemmABlockCopy.SrcDataPerRead_GemmKPack ctx c p) = 0) then
    BlockCopyPerformanceParameters.failure
  else if c.CalculateBlockSize.1 ≠
      wrapInt (wrapInt (GemmABlockCopy.ClusterLengths_GemmK ctx c p *
          GemmABlockCopy.ClusterLengths_GemmM ctx c p) *
        GemmABlockCopy.ClusterLengths_GemmKPack ctx c p) then
    BlockCopyPerformanceParameters.failure
  else
    ⟨GemmABlockCopy.ClusterLengths_GemmK ctx c p, GemmABlockCopy.ClusterLengths_GemmM ctx c p,
      GemmABlockCopy.ClusterLengths_GemmKPack ctx c p,
      GemmABlockCopy.SrcDataPerRead_GemmKPack ctx c p,
      GemmABlockCopy.DstDataPerWrite_GemmKPack ctx c p, true⟩

/-! ### Operand B block copy

As for operand A, every local variable of `CalculateGemmBBlockCopyPerformanceParameters` is a
definition of its own. -/

namespace GemmBBlockCopy

/-- `NWaves`. -/
def NWaves (c : PerformanceImplicitGemmForwardV4R5Xdlops) : Int :=
  c.GemmNPerBlock.tdiv c.GemmNPerWave

/-- `BPerBlock`. -/
def BPerBlock (c : PerformanceImplicitGemmForwardV4R5Xdlops) : Int :=
  c.GemmNPerBlock.tdiv (NWaves c)

/-- `SrcDataPerRead_B` after the four-way case distinction on the layout of the input tensor
(filter size, strides and paddings). -/
def SrcDataPerRead_B_layout (ctx : ConvolutionContext) (p : ProblemDescription) : Int :=
  let SrcDataPerRead_B :=
    if p.IsFp32 then ctx.buffer_load_max_length_float else ctx.buffer_load_max_length_half
  let y : Int := p.FilterHeightY
  let x : Int := p.FilterWidthX
  let ho : Int := p.OutputHeightHo
  let wo : Int := p.OutputWidthWo
  let conv_stride_h := p.AdjustedConvolutionStrideH
  let conv_stride_w := p.AdjustedConvolutionStrideW
  let conv_dilation_w := p.AdjustedConvolutionDilationW
  let in_left_pad_h := p.InputLeftPadH
  let in_left_pad_w := p.InputLeftPadW
  let in_right_pad_h := p.AdjustedInputRightPadH
  let in_right_pad_w := p.AdjustedInputRightPadW
  if y = 1 ∧ x = 1 ∧ conv_stride_h = 1 ∧ conv_stride_w = 1 ∧ in_left_pad_h = 0 ∧
      in_left_pad_w = 0 ∧ in_right_pad_h = 0 ∧ in_right_pad_w = 0 then
    gcd SrcDataPerRead_B (ho * wo)
  else if conv_stride_w = 1 ∧ in_left_pad_w = 0 ∧ in_right_pad_w = 0 then
    gcd SrcDataPerRead_B wo
  else if conv_stride_w = 1 then
    gcd SrcDataPerRead_B (gcd wo (gcd in_left_pad_w (gcd in_right_pad_w conv_dilation_w)))
  else 1

/-- `SrcDataPerRead_B` after `gcd(SrcDataPerRead_B, BPerBlock)`. -/
def SrcDataPerRead_B_bounded (ctx : ConvolutionContext)
    (c : PerformanceImplicitGemmForwardV4R5Xdlops) (p : ProblemDescription) : Int :=
  gcd (SrcDataPerRead_B_layout ctx p) (BPerBlock c)

/-- The condition under which the block guarded by the tuning toggle throws: for fp16 the
width is below `GemmBThreadDataPerRead_GemmN`, for the other precisions it differs from it. -/
def tuneParamMismatch (ctx : ConvolutionContext)
    (c : PerformanceImplicitGemmForwardV4R5Xdlops) (p : ProblemDescription) : Bool :=
  ctx.ADD_VECTOR_LOAD_GEMMN_TUNE_PARAM &&
    (if p.IsFp16 then
      decide (¬ (SrcDataPerRead_B_bounded ctx c p ≥ c.GemmBThreadDataPerRead_GemmN))
     else decide (SrcDataPerRead_B_bounded ctx c p ≠ c.GemmBThreadDataPerRead_GemmN))

/-- `SrcDataPerRead_B` after the block guarded by the tuning toggle; it is also
`data_per_thread_copy_b`. -/
def SrcDataPerRead_B (ctx : ConvolutionContext)
    (c : PerformanceImplicitGemmForwardV4R5Xdlops) (p : ProblemDescription) : Int :=
  if ctx.ADD_VECTOR_LOAD_GEMMN_TUNE_PARAM ∧ p.IsFp16 then c.GemmBThreadDataPerRead_GemmN
  else SrcDataPerRead_B_bounded ctx c p

/-- `data_per_thread_copy` after the `lcm` with `SrcDataPerRead_B`. -/
def data_per_thread_copy (ctx : ConvolutionContext)
    (c : PerformanceImplicitGemmForwardV4R5Xdlops) (p : ProblemDescription) : Int :=
  lcm (max 1 ((wrapInt (wrapInt (wrapInt (c.GemmKPerBlock * NWaves c) * BPerBlock c) *
      c.GemmKPack)).tdiv c.CalculateBlockSize.1))
    (SrcDataPerRead_B ctx c p)

/-- `tmp`. -/
def tmp (ctx : ConvolutionContext) (c : PerformanceImplicitGemmForwardV4R5Xdlops)
    (p : ProblemDescription) : Int :=
  (data_per_thread_copy ctx c p).tdiv (wrapInt (SrcDataPerRead_B ctx c p * NWaves c))

/-- `data_per_thread_copy_gemmkpack`. -/
def data_per_thread_copy_gemmkpack (ctx : ConvolutionContext)
    (c : PerformanceImplicitGemmForwardV4R5Xdlops) (p : ProblemDescription) : Int :=
  if c.GemmBThreadCopyMoreGemmKPack then gcd c.GemmKPack (tmp ctx c p)
  else (tmp ctx c p).tdiv (gcd c.GemmKPerBlock (tmp ctx c p))

/-- `data_per_thread_copy_gemmk`. -/
def data_per_thread_copy_gemmk (ctx : ConvolutionContext)
    (c : PerformanceImplicitGemmForwardV4R5Xdlops) (p : ProblemDescription) : Int :=
  if c.GemmBThreadCopyMoreGemmKPack then (tmp ctx c p).tdiv (gcd c.GemmKPack (tmp ctx c p))
  else gcd c.GemmKPerBlock (tmp ctx c p)

/-- `DstDataPerWrite_GemmKPack` after the `gcd` with `data_per_thread_copy_gemmkpack`. -/
def DstDataPerWrite_GemmKPack (ctx : ConvolutionContext)
    (c : PerformanceImplicitGemmForwardV4R5Xdlops) (p : ProblemDescription) : Int :=
  gcd (if p.IsFp32 then ctx.lds_write_max_length_float else ctx.lds_write_max_length_half)
    (data_per_thread_copy_gemmkpack ctx c p)

/-- `ClusterLengths_GemmK`. -/
def ClusterLengths_GemmK (ctx : ConvolutionContext)
    (c : PerformanceImplicitGemmForwardV4R5Xdlops) (p : ProblemDescription) : Int :=
  c.GemmKPerBlock.tdiv (data_per_thread_copy_gemmk ctx c p)

/-- `ClusterLengths_B`. -/
def ClusterLengths_B (ctx : ConvolutionContext)
    (c : PerformanceImplicitGemmForwardV4R5Xdlops) (p : ProblemDescription) : Int :=
  (BPerBlock c).tdiv (SrcDataPerRead_B ctx c p)

/-- `ClusterLengths_GemmKPack`. -/
def ClusterLengths_GemmKPack (ctx : ConvolutionContext)
    (c : PerformanceImplicitGemmForwardV4R5Xdlops) (p : ProblemDescription) : Int :=
  c.GemmKPack.tdiv (data_per_thread_copy_gemmkpack ctx c p)

end GemmBBlockCopy

/-- `CalculateGemmBBlockCopyPerformanceParameters` (B tensor shape
`[GemmG, GemmK, GemmN, GemmKPack]`). -/
def CalculateGemmBBlockCopyPerformanceParameters (ctx : ConvolutionContext)
    (c : PerformanceImplicitGemmForwardV4R5Xdlops) (p : ProblemDescription) :
    BlockCopyPerformanceParameters :=
  if ¬ c.CalculateBlockSize.2 then BlockCopyPerformanceParameters.failure
  else if GemmBBlockCopy.tuneParamMismatch ctx c p then BlockCopyPerformanceParameters.failure
  else if wrapInt (GemmBBlockCopy.SrcDataPerRead_B ctx c p * GemmBBlockCopy.NWaves c) = 0 ∨
      (GemmBBlockCopy.data_per_thread_copy ctx c p).tmod
        (wrapInt (GemmBBlockCopy.SrcDataPerRead_B ctx c p * GemmBBlockCopy.NWaves c)) ≠ 0 then
    BlockCopyPerformanceParameters.failure
  else if ¬ (GemmBBlockCopy.data_per_thread_copy_gemmkpack ctx c p > 0 ∧
      GemmBBlockCopy.data_per_thread_copy_gemmk ctx c p > 0 ∧
      GemmBBlockCopy.SrcDataPerRead_B ctx c p > 0) then
    BlockCopyPerformanceParameters.failure
  else if ¬ (c.GemmKPerBlock.tmod (GemmBBlockCopy.data_per_thread_copy_gemmk ctx c p) = 0 ∧
      (GemmBBlockCopy.BPerBlock c).tmod (GemmBBlockCopy.SrcDataPerRead_B ctx c p) = 0 ∧
      c.GemmKPack.tmod (GemmBBlockCopy.data_per_thread_copy_gemmkpack ctx c p) = 0) then
    BlockCopyPerformanceParameters.failure
  else if c.CalculateBlockSize.1 ≠
      wrapInt (wrapInt (GemmBBlockCopy.ClusterLengths_GemmK ctx c p *
          GemmBBlockCopy.ClusterLengths_B ctx c p) *
        GemmBBlockCopy.ClusterLengths_GemmKPack ctx c p) then
    BlockCopyPerformanceParameters.failure
  else
    ⟨GemmBBlockCopy.ClusterLengths_GemmK ctx c p, GemmBBlockCopy.ClusterLengths_B ctx c p,
      GemmBBlockCopy.ClusterLengths_GemmKPack ctx c p, GemmBBlockCopy.SrcDataPerRead_B ctx c p,
      GemmBBlockCopy.DstDataPerWrite_GemmKPack ctx c p, true⟩

/-- `IsReallyValid`.  For a problem with at least one group no division of the function traps:
the divisors are fields of a config that has passed `IsValidValue`, or quantities that the two
block-copy calculations have tested before, or the `std::size_t` value of `NWaves`, which is at
least one for a config that the matmul-unit predicate has accepted
(`ConvolutionContext.wave_within_block`). -/
def IsReallyValid (ctx : ConvolutionContext) (c : PerformanceImplicitGemmForwardV4R5Xdlops)
    (p : ProblemDescription) : Bool :=
  if ¬ c.IsValidValue then false
  else if ¬ ctx.IsValidBlockwiseGemmXdlops p c.GemmMPerBlock c.GemmNPerBlock c.GemmKPerBlock
      c.GemmMPerWave c.GemmNPerWave c.GemmKPack then false
  else
    let n := p.BatchN
    let NWaves := c.GemmNPerBlock.tdiv c.GemmNPerWave
    if n % toSizeT NWaves ≠ 0 then false
    else
      let gemm_m := (CalculateGemmSize p).2.1
      let gemm_n := (CalculateGemmSize p).2.2.1
      let gemm_k_total := (CalculateGemmSize p).2.2.2
      if gemm_k_total.tmod c.GemmKPack ≠ 0 then false
      else
        let gemm_k := gemm_k_total.tdiv c.GemmKPack
        if ¬ (gemm_m.tmod c.GemmMPerBlock = 0 ∧ gemm_n.tmod c.GemmNPerBlock = 0 ∧
              gemm_k.tmod c.GemmKPerBlock = 0) then false
        else if ¬ (CalculateGemmABlockCopyPerformanceParameters ctx c p).valid then false
        else if ¬ (CalculateGemmBBlockCopyPerformanceParameters ctx c p).valid then false
        else
          let lds_size := (c.CalculateLdsNumberOfByte p).1
          let valid := (c.CalculateLdsNumberOfByte p).2
          valid && decide (lds_size ≤ ctx.lds_max_number_of_byte)

/-! ### Single precision floating point, for the occupancy guard -/

/-- Nearest integer, ties to even. -/
def roundHalfEven (q : ℚ) : Int :=
  let f := ⌊q⌋
  let r := q - f
  if r < 1 / 2 then f else if 1 / 2 < r then f + 1 else if f % 2 = 0 then f else f + 1

/-- Rounding of a rational to the nearest IEEE binary32 value (24 bit significand, ties to
even), with the exponent range taken to be unbounded: every value rounded by the solver is an
`int`, a `std::size_t` or a quotient of two such values, and lies in the normal range. -/
def roundToFloat (q : ℚ) : ℚ :=
  if q = 0 then 0
  else
    let e := Int.log 2 |q|
    let ulp : ℚ := 2 ^ (e - 23)
    (roundHalfEven (|q| / ulp) : ℚ) * ulp * (if q < 0 then -1 else 1)

/-- The occupancy guard of `IsFastToBeUsedForTuning` ("don't need too many blocks"): `true` when
the config is rejected.  `ratio` is `float(grid_size) / grid_size_max_blockwise_gemm` evaluated
in binary32; it is compared with the decimal thresholds, which are not binary32 values, so the
comparison in `double` agrees with the comparison of the exact values.  `ratio` is only
inspected when `grid_size_max_blockwise_gemm > num_cu`, hence only when the divisor is
non-zero. -/
def tooManyBlocks (ctx : ConvolutionContext) (c : PerformanceImplicitGemmForwardV4R5Xdlops)
    (p : ProblemDescription) : Bool :=
  let gemm_m := (CalculateGemmSize p).2.1
  let gemm_n := (CalculateGemmSize p).2.2.1
  let grid_size : Int :=
    (wrapInt (gemm_m * gemm_n)).tdiv (wrapInt (c.GemmMPerBlock * c.GemmNPerBlock))
  let max_blockwise_gemm_size : Int :=
    max (wrapInt (gcd 256 gemm_m * gcd 128 gemm_n)) (wrapInt (gcd 128 gemm_m * gcd 256 gemm_n))
  let grid_size_max_blockwise_gemm : Nat :=
    (toSizeT gemm_m * toSizeT gemm_n % 2 ^ 64) / toSizeT max_blockwise_gemm_size
  let ratio : ℚ :=
    roundToFloat (roundToFloat grid_size / roundToFloat grid_size_max_blockwise_gemm)
  let num_cu := ctx.MaxComputeUnits
  if grid_size_max_blockwise_gemm > 5 * num_cu % 2 ^ 64 then decide (ratio > 281 / 100)
  else if grid_size_max_blockwise_gemm > 4 * num_cu % 2 ^ 64 then decide (ratio > 361 / 100)
  else if grid_size_max_blockwise_gemm > 3 * num_cu % 2 ^ 64 then decide (ratio > 441 / 100)
  else if grid_size_max_blockwise_gemm > 2 * num_cu % 2 ^ 64 then decide (ratio > 641 / 100)
  else if grid_size_max_blockwise_gemm > num_cu then decide (ratio > 1241 / 100)
  else false

/-- `IsFastToBeUsedForTuning`: the returned value when the call does not trap.  For a config
that satisfies `IsValidValue` and a problem with at least one group no division traps: the
wave sizes and the products of the block sizes are positive, and `block_size` is computed after
`wave_per_block > 1` has been tested. -/
def IsFastToBeUsedForTuning (ctx : ConvolutionContext)
    (c : PerformanceImplicitGemmForwardV4R5Xdlops) (p : ProblemDescription) : Bool :=
  if c.use_spare_set then true
  else if wrapInt (c.GemmMPerWave * c.GemmNPerWave) > 64 * 128 then false
  else if tooManyBlocks ctx c p then false
  else
    let wave_per_block :=
      wrapInt (c.GemmMPerBlock.tdiv c.GemmMPerWave * c.GemmNPerBlock.tdiv c.GemmNPerWave)
    if ¬ (wave_per_block > 1 ∧ wave_per_block ≤ 4) then false
    else
      let gemm_m := (CalculateGemmSize p).2.1
      let gemm_n := (CalculateGemmSize p).2.2.1
      if c.GemmMPerBlock > wrapInt (2 * c.GemmNPerBlock) ∧
          gemm_n.tmod (wrapInt (2 * c.GemmNPerBlock)) = 0 then false
      else if c.GemmNPerBlock > wrapInt (2 * c.GemmMPerBlock) ∧
          gemm_m.tmod (wrapInt (2 * c.GemmMPerBlock)) = 0 then false
      else if c.GemmMPerWave > wrapInt (2 * c.GemmNPerWave) ∧
          c.GemmNPerBlock.tmod (wrapInt (2 * c.GemmNPerWave)) = 0 then false
      else if c.GemmNPerWave > wrapInt (2 * c.GemmMPerWave) ∧
          c.GemmMPerBlock.tmod (wrapInt (2 * c.GemmMPerWave)) = 0 then false
      else
        let block_size :=
          wrapInt (wrapInt (c.GemmMPerBlock.tdiv c.GemmMPerWave *
            c.GemmNPerBlock.tdiv c.GemmNPerWave) * 64)
        let a_data_per_thread_copy :=
          (wrapInt (wrapInt (c.GemmKPerBlock * c.GemmMPerBlock) * c.GemmKPack)).tdiv block_size
        let b_data_per_thread_copy :=
          (wrapInt (wrapInt (c.GemmKPerBlock * c.GemmNPerBlock) * c.GemmKPack)).tdiv block_size
        if p.IsFp32 ∧ (a_data_per_thread_copy > 16 ∨ b_data_per_thread_copy > 16) then false
        else if ¬ p.IsFp32 ∧ (p.IsFp16 ∨ p.IsBfp16) ∧
            (a_data_per_thread_copy > 32 ∨ b_data_per_thread_copy > 32) then false
        else if p.IsFp32 ∧ c.GemmKPack > 4 then false
        else if p.IsFp32 ∧ wrapInt (c.GemmKPerBlock * c.GemmKPack) < 8 then false
        else if ¬ p.IsFp32 ∧ (p.IsFp16 ∨ p.IsBfp16) ∧
            wrapInt (c.GemmKPerBlock * c.GemmKPack) < 16 then
          false
        else
          let b := CalculateGemmBBlockCopyPerformanceParameters ctx c p
          if ctx.ADD_VECTOR_LOAD_GEMMN_TUNE_PARAM ∧ p.IsFp16 ∧ b.valid ∧ b.SrcDataPerRead > 1 ∧
              (b.DstDataPerWrite_GemmKPack = 1 ∨ b.DstDataPerWrite_GemmKPack = 2) then false
          else true

/-- `IsValid`. -/
def IsValid (ctx : ConvolutionContext) (c : PerformanceImplicitGemmForwardV4R5Xdlops)
    (p : ProblemDescription) : Bool :=
  IsReallyValid ctx c p && IsFastToBeUsedForTuning ctx c p

/-! ### The enumerator -/

/-- `SetNextValue`: the advanced config and the returned flag.  The body of the
`do { ... } while(false)` is a chain of field advances which is left at the first advance that
does not wrap. -/
def SetNextValue (ctx : ConvolutionContext) (c : PerformanceImplicitGemmForwardV4R5Xdlops) :
    PerformanceImplicitGemmForwardV4R5Xdlops × Bool :=
  let r :=
    if ctx.ADD_VECTOR_LOAD_GEMMN_TUNE_PARAM then NextTwoPower 1 8 c.GemmBThreadDataPerRead_GemmN
    else (c.GemmBThreadDataPerRead_GemmN, true)
  let c := { c with GemmBThreadDataPerRead_GemmN := r.1 }
  if ¬ r.2 then (c, true)
  else
    let r := NextFlag false true c.GemmBThreadCopyMoreGemmKPack
    let c := { c with GemmBThreadCopyMoreGemmKPack := r.1 }
    if ¬ r.2 then (c, true)
    else
      let r := NextFlag false false c.GemmAThreadCopyMoreGemmK
      let c := { c with GemmAThreadCopyMoreGemmK := r.1 }
      if ¬ r.2 then (c, true)
      else
        let r := NextTwoPower 1 8 c.GemmKPack
        let c := { c with GemmKPack := r.1 }
        if ¬ r.2 then (c, true)
        else
          let r := NextTwoPower 4 128 c.GemmNPerWave
          let c := { c with GemmNPerWave := r.1 }
          if ¬ r.2 then (c, true)
          else
            let r := NextTwoPower 4 128 c.GemmMPerWave
            let c := { c with GemmMPerWave := r.1 }
            if ¬ r.2 then (c, true)
            else
              let r := NextTwoPower 1 8 c.GemmKPerBlock
              let c := { c with GemmKPerBlock := r.1 }
              if ¬ r.2 then (c, true)
              else
                let r := NextTwoPower 4 256 c.GemmNPerBlock
                let c := { c with GemmNPerBlock := r.1 }
                if ¬ r.2 then (c, true)
                else
                  let r := NextTwoPower 4 256 c.GemmMPerBlock
                  let c := { c with GemmMPerBlock := r.1 }
                  if ¬ r.2 then (c, true)
                  else (c, false)

/-! ### The heuristic initialiser -/

/-- One pass through the inner `do { ... } while(false)` of `get_euristic_config`: the fields are
shrunk in reverse order of importance, the chain is left at the first field that does not wrap,
and `all_visited` is set when every field has wrapped.  The three precisions differ only in the
bounds `kL`, `kH` of `GemmKPack`.  Result: (`tmp`, `all_visited`). -/
def get_euristic_config_step (kL kH : Int) (tmp : PerformanceImplicitGemmForwardV4R5Xdlops) :
    PerformanceImplicitGemmForwardV4R5Xdlops × Bool :=
  let r := PreviousTwoPower 1 8 tmp.GemmBThreadDataPerRead_GemmN
  let tmp := { tmp with GemmBThreadDataPerRead_GemmN := r.1 }
  if ¬ r.2 then (tmp, false)
  else
    let r := PreviousTwoPower 1 8 tmp.GemmKPerBlock
    let tmp := { tmp with GemmKPerBlock := r.1 }
    if ¬ r.2 then (tmp, false)
    else
      let r := PreviousTwoPower kL kH tmp.GemmKPack
      let tmp := { tmp with GemmKPack := r.1 }
      if ¬ r.2 then (tmp, false)
      else
        let r := PreviousTwoPower 4 128 tmp.GemmNPerWave
        let tmp := { tmp with GemmNPerWave := r.1 }
        if ¬ r.2 then (tmp, false)
        else
          let r := PreviousTwoPower 4 128 tmp.GemmMPerWave
          let tmp := { tmp with GemmMPerWave := r.1 }
          if ¬ r.2 then (tmp, false)
          else
            let r := PreviousTwoPower 4 256 tmp.GemmNPerBlock
            let tmp := { tmp with GemmNPerBlock := r.1 }
            if ¬ r.2 then (tmp, false)
            else
              let r := PreviousTwoPower 4 256 tmp.GemmMPerBlock
              let tmp := { tmp with GemmMPerBlock := r.1 }
              if ¬ r.2 then (tmp, false)
              else (tmp, true)

/-- The outer `do { ... } while(!all_visited)` of `get_euristic_config`, with a bound `fuel` on
the number of iterations (`none` when the bound is reached). -/
def get_euristic_config_loop (kL kH : Int)
    (is_valid_func : PerformanceImplicitGemmForwardV4R5Xdlops → Bool) :
    Nat → PerformanceImplicitGemmForwardV4R5Xdlops → Option PerformanceImplicitGemmForwardV4R5Xdlops
  | 0, _ => none
  | fuel + 1, tmp =>
    let r := get_euristic_config_step kL kH tmp
    if is_valid_func r.1 then some r.1
    else if r.2 then some r.1
    else get_euristic_config_loop kL kH is_valid_func fuel r.1

/-- Bound on the number of iterations of one descent, larger than the number of configs of any
of the three descents. -/
def descentFuel : Nat := 100000

/-- The lambda `get_euristic_config` of `HeuristicInit`: the value of `tmp` when it returns.
The nine-argument initialisers leave `use_spare_set` at `false`.  An unsupported precision runs
into `assert(false)` and gives `none`. -/
def get_euristic_config (p : ProblemDescription)
    (is_valid_func : PerformanceImplicitGemmForwardV4R5Xdlops → Bool) :
    Option PerformanceImplicitGemmForwardV4R5Xdlops :=
  if p.IsFp32 then
    get_euristic_config_loop 1 4 is_valid_func descentFuel
      ⟨256, 256, 8, 128, 128, 4, false, true, 1, false⟩
  else if p.IsFp16 then
    get_euristic_config_loop 4 8 is_valid_func descentFuel
      ⟨256, 256, 8, 128, 128, 8, false, true, 1, false⟩
  else if p.IsBfp16 then
    get_euristic_config_loop 2 8 is_valid_func descentFuel
      ⟨256, 256, 8, 128, 128, 8, false, true, 1, false⟩
  else none

/-- `HeuristicInit`: the config assigned to `*this`.  The receiver is overwritten, so it is not
an input. -/
def HeuristicInit (ctx : ConvolutionContext) (p : ProblemDescription) :
    Option PerformanceImplicitGemmForwardV4R5Xdlops :=
  match get_euristic_config p
      (fun config => IsReallyValid ctx config p && IsFastToBeUsedForTuning ctx config p) with
  | none => none
  | some tmp =>
    if ¬ IsReallyValid ctx tmp p then
      get_euristic_config p (fun config => IsReallyValid ctx config p)
    else some tmp

end PerformanceImplicitGemmForwardV4R5Xdlops

/-! ## Sample inputs

A context with the usual hardware constants (vector loads and LDS writes of 4 floats or 8 halves,
64 KiB of LDS, 120 compute units) and a matmul-unit predicate that asks for whole waves per
block; the problem of Scenario A of the spec; a config for it. -/

/-- A context: the tuning toggle is the argument. -/
def sampleContext (tune : Bool) : ConvolutionContext :=
  ⟨4, 8, 4, 8, 65536,
    fun _ bm bn _ wm wn _ => decide (bm.tmod wm = 0 ∧ bn.tmod wn = 0), 120, tune,
    fun _ _ _ _ _ _ _ h _ hbn =>
      Int.le_of_dvd hbn (Int.dvd_of_tmod_eq_zero (of_decide_eq_true h).2)⟩

/-- Scenario A: fp32, G=1, N=64, K=64, C=64, Ho=Wo=56, Y=X=3, unit stride, no padding. -/
def sampleProblem : ProblemDescription :=
  ⟨1, 64, 64, 64, 56, 56, 3, 3, 1, 1, 1, 0, 0, 0, 0, DataType.fp32⟩

/-- A config that is valid for `sampleProblem`. -/
def sampleConfig : PerformanceImplicitGemmForwardV4R5Xdlops :=
  ⟨64, 256, 2, 64, 128, 4, false, true, 8, false⟩

/-! ## Mixed-radix counters

`SetNextValue` and the descent of `HeuristicInit` are mixed-radix counters (odometers).  The
counter below works on lists of digits, least significant digit first; it is only used to
state and prove facts about the two functions. -/

namespace Odometer

/-- Advance a mixed-radix counter by one: (digits, wrapped). -/
def step : List Nat → List Nat → List Nat × Bool
  | r :: rs, d :: ds =>
    if d + 1 < r then ((d + 1) :: ds, false) else (0 :: (step rs ds).1, (step rs ds).2)
  | _, _ => ([], true)

/-- The number denoted by a list of digits. -/
def value : List Nat → List Nat → Nat
  | r :: rs, d :: ds => d + r * value rs ds
  | _, _ => 0

/-- The digits of a number. -/
def digits : List Nat → Nat → List Nat
  | [], _ => []
  | r :: rs, n => (n % r) :: digits rs (n / r)

/-- Every digit is below its radix. -/
def WellFormed : List Nat → List Nat → Prop
  | [], [] => True
  | r :: rs, d :: ds => d < r ∧ WellFormed rs ds
  | _, _ => False

end Odometer

/-! ## The lattice enumerated by `SetNextValue` -/

/-- Base-two logarithm of a positive `int`. -/
def ilog2 (v : Int) : Nat := Nat.log2 v.toNat

/-- The radices of the fields advanced by `SetNextValue`, least significant first:
`GemmBThreadDataPerRead_GemmN` (advanced only when the tuning toggle is on), the B flag, the A
flag, `GemmKPack`, `GemmNPerWave`, `GemmMPerWave`, `GemmKPerBlock`, `GemmNPerBlock`,
`GemmMPerBlock`. -/
def searchRadices (tune : Bool) : List Nat := [if tune then 4 else 1, 2, 1, 4, 6, 6, 4, 7, 7]

/-- The config denoted by a list of digits: a numeric field with lower bound `2 ^ a` and digit
`d` has the value `2 ^ (a + d)`. -/
def searchConfig : List Nat → PerformanceImplicitGemmForwardV4R5Xdlops
  | [t, b, _, kp, wn, wm, bk, bn, bm] =>
    ⟨2 ^ (2 + bm), 2 ^ (2 + bn), 2 ^ bk, 2 ^ (2 + wm), 2 ^ (2 + wn), 2 ^ kp, false,
      decide (b ≠ 0), 2 ^ t, false⟩
  | _ => PerformanceImplicitGemmForwardV4R5Xdlops.default

/-- The digits of a config. -/
def searchDigits (c : PerformanceImplicitGemmForwardV4R5Xdlops) : List Nat :=
  [ilog2 c.GemmBThreadDataPerRead_GemmN, if c.GemmBThreadCopyMoreGemmKPack then 1 else 0, 0,
    ilog2 c.GemmKPack, ilog2 c.GemmNPerWave - 2, ilog2 c.GemmMPerWave - 2,
    ilog2 c.GemmKPerBlock, ilog2 c.GemmNPerBlock - 2, ilog2 c.GemmMPerBlock - 2]

/-- The lattice of `SetNextValue`: every enumerated numeric field is a power of two within the
bounds of its `NextTwoPower`, the A flag is `false`, and the fields that are never advanced
(the spare flag, and `GemmBThreadDataPerRead_GemmN` when the tuning toggle is off) have the
values of the default config. -/
def inSearchLattice (tune : Bool) (c : PerformanceImplicitGemmForwardV4R5Xdlops) : Bool :=
  IsTwoPower 4 256 c.GemmMPerBlock && IsTwoPower 4 256 c.GemmNPerBlock &&
    IsTwoPower 1 8 c.GemmKPerBlock && IsTwoPower 4 128 c.GemmMPerWave &&
    IsTwoPower 4 128 c.GemmNPerWave && IsTwoPower 1 8 c.GemmKPack &&
    !c.GemmAThreadCopyMoreGemmK &&
    (if tune then IsTwoPower 1 8 c.GemmBThreadDataPerRead_GemmN
     else decide (c.GemmBThreadDataPerRead_GemmN = 1)) &&
    !c.use_spare_set

/-- The config held after `k` calls of `SetNextValue`, starting from `c`. -/
def SetNextValue_iterate (ctx : ConvolutionContext) (k : Nat)
    (c : PerformanceImplicitGemmForwardV4R5Xdlops) : PerformanceImplicitGemmForwardV4R5Xdlops :=
  (fun x => (PerformanceImplicitGemmForwardV4R5Xdlops.SetNextValue ctx x).1)^[k] c


/-- The number of points of the lattice of `SetNextValue`: the product of the range sizes of the
B flag (2), the A flag (1), `GemmKPack` (4), `GemmNPerWave` (6), `GemmMPerWave` (6),
`GemmKPerBlock` (4), `GemmNPerBlock` (7) and `GemmMPerBlock` (7), times 4 for
`GemmBThreadDataPerRead_GemmN` when the tuning toggle is on. -/
def searchSpaceSize (tune : Bool) : Nat :=
  2 * 1 * 4 * 6 * 6 * 4 * 7 * 7 * (if tune then 4 else 1)

/-! ## The lattice of the descent of `HeuristicInit` -/

/-- Exponent of the lower bound of `GemmKPack` in the descent of a precision (`1`, `4`, `2`). -/
def descentKPackLow : DataType → Nat
  | DataType.fp32 => 0
  | DataType.fp16 => 2
  | DataType.bfp16 => 1
  | DataType.other => 0

/-- Number of halvings between the upper and the lower bound of `GemmKPack` in the descent of a
precision (`4 → 1`, `8 → 4`, `8 → 2`). -/
def descentKPackSpan : DataType → Nat
  | DataType.fp32 => 2
  | DataType.fp16 => 1
  | DataType.bfp16 => 2
  | DataType.other => 0

/-- The descent lattice of a precision: `block_m`, `block_n` in `{4..256}`, `block_k` in `{1..8}`,
`k_pack` in the range of the precision, `wave_m`, `wave_n` in `{4..128}`,
`GemmBThreadDataPerRead_GemmN` in `{1..8}`, all powers of two, A flag false, B flag true. -/
def inDescentLattice (p : ProblemDescription) (c : PerformanceImplicitGemmForwardV4R5Xdlops) :
    Bool :=
  IsTwoPower 4 256 c.GemmMPerBlock && IsTwoPower 4 256 c.GemmNPerBlock &&
    IsTwoPower 1 8 c.GemmKPerBlock && IsTwoPower 4 128 c.GemmMPerWave &&
    IsTwoPower 4 128 c.GemmNPerWave &&
    IsTwoPower (2 ^ descentKPackLow p.dataType)
      (2 ^ (descentKPackLow p.dataType + descentKPackSpan p.dataType)) c.GemmKPack &&
    IsTwoPower 1 8 c.GemmBThreadDataPerRead_GemmN &&
    !c.GemmAThreadCopyMoreGemmK && c.GemmBThreadCopyMoreGemmKPack

/-- The configs of the descent lattice that the descent never tests: every field shrunk by the
descent is at its upper bound, except `GemmBThreadDataPerRead_GemmN`, which is not `8` (the seed
and its two siblings). -/
def descentSkips (p : ProblemDescription) (c : PerformanceImplicitGemmForwardV4R5Xdlops) : Bool :=
  decide (c.GemmMPerBlock = 256) && decide (c.GemmNPerBlock = 256) &&
    decide (c.GemmKPerBlock = 8) && decide (c.GemmMPerWave = 128) &&
    decide (c.GemmNPerWave = 128) &&
    decide (c.GemmKPack = 2 ^ (descentKPackLow p.dataType + descentKPackSpan p.dataType)) &&
    decide (c.GemmBThreadDataPerRead_GemmN ≠ 8)

/-- The radices of the fields shrunk by the descent, least significant first:
`GemmBThreadDataPerRead_GemmN`, `GemmKPerBlock`, `GemmKPack` (`n + 1` values), `GemmNPerWave`,
`GemmMPerWave`, `GemmNPerBlock`, `GemmMPerBlock`. -/
def descentRadices (n : Nat) : List Nat := [4, 4, n + 1, 6, 6, 7, 7]

/-- The config denoted by a list of digits of the descent: a numeric field with upper bound
`2 ^ b` and digit `d` has the value `2 ^ (b - d)`; `GemmKPack` has the upper bound
`2 ^ (a + n)`. -/
def descentConfig (a n : Nat) : List Nat → PerformanceImplicitGemmForwardV4R5Xdlops
  | [t, bk, kp, wn, wm, bn, bm] =>
    ⟨2 ^ (8 - bm), 2 ^ (8 - bn), 2 ^ (3 - bk), 2 ^ (7 - wm), 2 ^ (7 - wn), 2 ^ (a + n - kp),
      false, true, 2 ^ (3 - t), false⟩
  | _ => PerformanceImplicitGemmForwardV4R5Xdlops.default

/-- The digits of a config of the descent lattice. -/
def descentDigits (a n : Nat) (c : PerformanceImplicitGemmForwardV4R5Xdlops) : List Nat :=
  [3 - ilog2 c.GemmBThreadDataPerRead_GemmN, 3 - ilog2 c.GemmKPerBlock,
    a + n - ilog2 c.GemmKPack, 7 - ilog2 c.GemmNPerWave, 7 - ilog2 c.GemmMPerWave,
    8 - ilog2 c.GemmNPerBlock, 8 - ilog2 c.GemmMPerBlock]

/-- The config number `i` of the descent: the config reached from the all-maximum config by
`i` passes through the inner loop. -/
def descentAt (a n i : Nat) : PerformanceImplicitGemmForwardV4R5Xdlops :=
  descentConfig a n (Odometer.digits (descentRadices n) i)

/-! ## A context in which the descent misses the only valid config -/

/-- A context with the tuning toggle on whose matmul unit supports only the largest tile:
`IsValidBlockwiseGemmXdlops` accepts `(256, 256, 8, 128, 128, 4)` and nothing else. -/
def largestTileContext : ConvolutionContext :=
  ⟨4, 8, 4, 8, 65536,
    fun _ bm bn bk wm wn kp =>
      decide (bm = 256 ∧ bn = 256 ∧ bk = 8 ∧ wm = 128 ∧ wn = 128 ∧ kp = 4),
    120, true,
    fun _ _ _ _ _ _ _ h _ _ => by
      have h2 := of_decide_eq_true h
      omega⟩

/-- An fp32 problem: G=1, N=4, K=256, C=32, Ho=Wo=56, Y=X=3, unit stride, no padding
(`gemm_m = 256`, `gemm_n = 12544 = 49 * 256`, `gemm_k_total = 288 = 4 * 8 * 9`). -/
def largestTileProblem : ProblemDescription :=
  ⟨1, 4, 256, 32, 56, 56, 3, 3, 1, 1, 1, 0, 0, 0, 0, DataType.fp32⟩

/-! ## The descent of `HeuristicInit`, test by test -/

/-- The seed of the descent of a precision: the value assigned to `tmp` before the loop (the
nine-argument initialisers leave `use_spare_set` at `false`).  An unsupported precision leaves
`tmp` default-constructed. -/
def heuristicSeed : DataType → PerformanceImplicitGemmForwardV4R5Xdlops
  | DataType.fp32 => ⟨256, 256, 8, 128, 128, 4, false, true, 1, false⟩
  | DataType.fp16 => ⟨256, 256, 8, 128, 128, 8, false, true, 1, false⟩
  | DataType.bfp16 => ⟨256, 256, 8, 128, 128, 8, false, true, 1, false⟩
  | DataType.other => PerformanceImplicitGemmForwardV4R5Xdlops.default

/-- The bounds of `GemmKPack` in the descent of a precision: the template arguments of the
third `PreviousTwoPower` of the inner loop (`<1, 4>`, `<4, 8>`, `<2, 8>`). -/
def heuristicKPackBounds : DataType → Int × Int
  | DataType.fp32 => (1, 4)
  | DataType.fp16 => (4, 8)
  | DataType.bfp16 => (2, 8)
  | DataType.other => (1, 1)

/-- The config tested by the iteration number `m` (`m ≥ 1`) of the outer loop of
`get_euristic_config`, as long as the loop has not stopped before: the seed after `m` passes
through the inner loop. -/
def descentVisit (d : DataType) (m : Nat) : PerformanceImplicitGemmForwardV4R5Xdlops :=
  (fun tmp => (PerformanceImplicitGemmForwardV4R5Xdlops.get_euristic_config_step
    (heuristicKPackBounds d).1 (heuristicKPackBounds d).2 tmp).1)^[m] (heuristicSeed d)

/-- The number of points of the descent lattice of a precision: 7 values of `block_m` and of
`block_n`, 6 of `wave_m` and of `wave_n`, 3 or 2 of `k_pack`, 4 of `block_k` and of
`GemmBThreadDataPerRead_GemmN`. -/
def descentLatticeSize (d : DataType) : Nat :=
  7 * 7 * 6 * 6 * (descentKPackSpan d + 1) * 4 * 4

/-- The number of iterations of the outer loop of `get_euristic_config` when no config passes
the test: `all_visited` is set by the iteration of this number. -/
def descentTests (d : DataType) : Nat := descentLatticeSize d - 3

/-- `HeuristicInit` as the member function it is, a transformer of the receiver: the body works
on the local `tmp`, reads no field of the receiver, and ends with `*this = tmp`, which copies
the ten fields. -/
def HeuristicInit_receiver (ctx : ConvolutionContext) (p : ProblemDescription)
    (self : PerformanceImplicitGemmForwardV4R5Xdlops) :
    Option PerformanceImplicitGemmForwardV4R5Xdlops :=
  match PerformanceImplicitGemmForwardV4R5Xdlops.HeuristicInit ctx p with
  | none => none
  | some tmp =>
    some { self with
      GemmMPerBlock := tmp.GemmMPerBlock
      GemmNPerBlock := tmp.GemmNPerBlock
      GemmKPerBlock := tmp.GemmKPerBlock
      GemmMPerWave := tmp.GemmMPerWave
      GemmNPerWave := tmp.GemmNPerWave
      GemmKPack := tmp.GemmKPack
      GemmAThreadCopyMoreGemmK := tmp.GemmAThreadCopyMoreGemmK
      GemmBThreadCopyMoreGemmKPack := tmp.GemmBThreadCopyMoreGemmKPack
      GemmBThreadDataPerRead_GemmN := tmp.GemmBThreadDataPerRead_GemmN
      use_spare_set := tmp.use_spare_set }

/-! ## Contexts in which no config is both valid and fast -/

/-- The sample context with a shared-memory budget of `lds` bytes (tuning toggle off). -/
def ldsContext (lds : Nat) : ConvolutionContext :=
  { sampleContext false with lds_max_number_of_byte := lds }

/-! ## A pointwise convolution in half precision -/

/-- An fp16 problem of the kind of Scenario B: G=1, N=64, K=64, C=64, Ho=Wo=8, Y=X=1, unit
strides, no padding (`gemm_m = 64`, `gemm_n = 4096`, `gemm_k_total = 64`). -/
def pointwiseProblem : ProblemDescription :=
  ⟨1, 64, 64, 64, 8, 8, 1, 1, 1, 1, 1, 0, 0, 0, 0, DataType.fp16⟩

/-- A config with one wave of 64 x 4 per block: `NWaves = 1`, `BPerBlock = 4`. -/
def narrowWaveConfig : PerformanceImplicitGemmForwardV4R5Xdlops :=
  ⟨64, 4, 8, 64, 4, 8, false, true, 1, false⟩

/-! ## Sample inputs for the pruning heuristic and the block copies -/

/-- A config that is valid and fast for `largestTileProblem` in the sample context: two waves
of 128 x 64 along each of M and N (block size 256). -/
def fastConfig : PerformanceImplicitGemmForwardV4R5Xdlops :=
  ⟨256, 128, 4, 128, 64, 4, false, true, 8, false⟩

/-- An fp16 pointwise problem whose `gemm_n = N * Ho * Wo = 2 ^ 32 - 64` does not fit an `int`:
G=1, N=67108863, K=64, C=64, Ho=Wo=8, Y=X=1, unit strides, no padding.  `CalculateGemmSize`
returns `gemm_n = -64`. -/
def overflowProblem : ProblemDescription :=
  ⟨1, 67108863, 64, 64, 8, 8, 1, 1, 1, 1, 1, 0, 0, 0, 0, DataType.fp16⟩

/-- A config with one wave of 64 x 64 per block. -/
def squareWaveConfig : PerformanceImplicitGemmForwardV4R5Xdlops :=
  ⟨64, 64, 2, 64, 64, 4, false, true, 1, false⟩

/-- An fp32 pointwise problem whose GEMM sizes are `int`s while the number of its 4 x 4 tiles is
not: G=3, N=4, K=60, C=192, Ho=4369, Wo=65537, Y=X=1, unit strides, no padding
(`gemm_g = 3`, `gemm_m = 20`, `gemm_n = 1145324612`, `gemm_k_total = 64`; the grid of 4 x 4
tiles has `3 * 5 * 286331153 = 2 ^ 32 - 1` blocks). -/
def gridOverflowProblem : ProblemDescription :=
  ⟨3, 4, 60, 192, 4369, 65537, 1, 1, 1, 1, 1, 0, 0, 0, 0, DataType.fp32⟩

/-- A config with one wave of 4 x 4 per block. -/
def smallTileConfig : PerformanceImplicitGemmForwardV4R5Xdlops :=
  ⟨4, 4, 8, 4, 4, 8, false, true, 1, false⟩

/-- A tiny fp32 pointwise problem: G=1, N=4, K=4, C=4, Ho=Wo=1, Y=X=1, unit strides, no padding
(`gemm_m = 4`, `gemm_n = 4`, `gemm_k_total = 4`). -/
def tinyProblem : ProblemDescription :=
  ⟨1, 4, 4, 4, 1, 1, 1, 1, 1, 1, 1, 0, 0, 0, 0, DataType.fp32⟩

/-- Reference definition of the outputs of the operand-A block-copy calculation, following the
words of the spec: source width `s = gcd(maxLoad, k_pack)`, destination width
`gcd(maxStore, s)`, per-thread volume along K and M `v = max(1, block_k * block_m * k_pack /
BlockSize) / s`, split as `(dk, dm) = (gcd(block_k, v), v / gcd(block_k, v))` when the A
copy-priority flag is set and `(v / gcd(block_m, v), gcd(block_m, v))` otherwise, cluster
extents `(block_k / dk, block_m / dm, k_pack / s)`.  Result: (cluster K, cluster M,
cluster KPack, source width, destination width). -/
def referenceGemmABlockCopy (maxLoad maxStore BlockSize : Int)
    (c : PerformanceImplicitGemmForwardV4R5Xdlops) : Int × Int × Int × Int × Int :=
  let s := gcd maxLoad c.GemmKPack
  let v := (max 1 ((c.GemmKPerBlock * c.GemmMPerBlock * c.GemmKPack).tdiv BlockSize)).tdiv s
  let dk := if c.GemmAThreadCopyMoreGemmK then gcd c.GemmKPerBlock v
    else v.tdiv (gcd c.GemmMPerBlock v)
  let dm := if c.GemmAThreadCopyMoreGemmK then v.tdiv (gcd c.GemmKPerBlock v)
    else gcd c.GemmMPerBlock v
  (c.GemmKPerBlock.tdiv dk, c.GemmMPerBlock.tdiv dm, c.GemmKPack.tdiv s, s, gcd maxStore s)

/-! ## The locals of the occupancy guard of `IsFastToBeUsedForTuning` -/

namespace PerformanceImplicitGemmForwardV4R5Xdlops

/-- `grid_size`: the grid size using the current blockwise GEMM (an `int`). -/
def tooManyBlocks.grid_size (c : PerformanceImplicitGemmForwardV4R5Xdlops)
    (p : ProblemDescription) : Int :=
  (wrapInt ((CalculateGemmSize p).2.1 * (CalculateGemmSize p).2.2.1)).tdiv
    (wrapInt (c.GemmMPerBlock * c.GemmNPerBlock))

/-- `max_blockwise_gemm_size`: the biggest blockwise GEMM (an `int`). -/
def tooManyBlocks.max_blockwise_gemm_size (p : ProblemDescription) : Int :=
  max (wrapInt (gcd 256 (CalculateGemmSize p).2.1 * gcd 128 (CalculateGemmSize p).2.2.1))
    (wrapInt (gcd 128 (CalculateGemmSize p).2.1 * gcd 256 (CalculateGemmSize p).2.2.1))

/-- `grid_size_max_blockwise_gemm`: the grid size using the biggest blockwise GEMM, computed in
`std::size_t`. -/
def tooManyBlocks.grid_size_max_blockwise_gemm (p : ProblemDescription) : Nat :=
  (toSizeT (CalculateGemmSize p).2.1 * toSizeT (CalculateGemmSize p).2.2.1 % 2 ^ 64) /
    toSizeT (tooManyBlocks.max_blockwise_gemm_size p)

/-- `ratio`: `float(grid_size) / grid_size_max_blockwise_gemm`, a binary32 value. -/
def tooManyBlocks.ratio (c : PerformanceImplicitGemmForwardV4R5Xdlops)
    (p : ProblemDescription) : ℚ :=
  roundToFloat (roundToFloat (tooManyBlocks.grid_size c p) /
    roundToFloat (tooManyBlocks.grid_size_max_blockwise_gemm p))

end PerformanceImplicitGemmForwardV4R5Xdlops

/-! # Theorems -/

open PerformanceImplicitGemmForwardV4R5Xdlops

/-! ## Machine integers and the helpers -/

/-- An `int` value is not changed by the reduction. -/
theorem wrapInt_of_range {x : Int} (h1 : -2 ^ 31 ≤ x) (h2 : x < 2 ^ 31) : wrapInt x = x := by
  unfold wrapInt
  omega

theorem wrapInt_range (x : Int) : -2 ^ 31 ≤ wrapInt x ∧ wrapInt x < 2 ^ 31 := by
  unfold wrapInt
  omega

/-- The reduction differs from the exact value by a multiple of `2 ^ 32`. -/
theorem wrapInt_eq_sub (x : Int) : wrapInt x = x - (x + 2 ^ 31) / 2 ^ 32 * 2 ^ 32 := by
  unfold wrapInt
  omega

theorem wrapInt_congr {x y : Int} (h : (2 : Int) ^ 32 ∣ x - y) : wrapInt x = wrapInt y := by
  obtain ⟨k, hk⟩ := h
  have e : x = y + 2 ^ 32 * k := by omega
  unfold wrapInt
  rw [e, show y + 2 ^ 32 * k + 2 ^ 31 = y + 2 ^ 31 + 2 ^ 32 * k by ring,
    Int.add_mul_emod_self_left]

/-- Reducing after every multiplication gives the reduction of the exact product. -/
theorem wrapInt_mul_left (a b : Int) : wrapInt (wrapInt a * b) = wrapInt (a * b) := by
  apply wrapInt_congr
  rw [wrapInt_eq_sub a]
  exact ⟨-((a + 2 ^ 31) / 2 ^ 32) * b, by ring⟩

theorem wrapInt_mul_right (a b : Int) : wrapInt (a * wrapInt b) = wrapInt (a * b) := by
  rw [mul_comm, wrapInt_mul_left, mul_comm]

theorem wrapInt_add (a b : Int) : wrapInt (wrapInt a + wrapInt b) = wrapInt (a + b) := by
  apply wrapInt_congr
  rw [wrapInt_eq_sub a, wrapInt_eq_sub b]
  exact ⟨-((a + 2 ^ 31) / 2 ^ 32) - (b + 2 ^ 31) / 2 ^ 32, by ring⟩

/-- A product of two `int`s with small absolute values is exact. -/
theorem wrapInt_mul_of_abs {a b : Int} {A B : Int} (ha : |a| ≤ A) (hb : |b| ≤ B)
    (h : A * B < 2 ^ 31) : wrapInt (a * b) = a * b := by
  have h0 : 0 ≤ A := le_trans (abs_nonneg a) ha
  have h1 : |a * b| ≤ A * B := by
    rw [abs_mul]
    exact mul_le_mul ha hb (abs_nonneg b) h0
  have h2 := abs_le.mp h1
  exact wrapInt_of_range (by omega) (by omega)

/-- The absolute value of a truncated quotient is at most that of the dividend. -/
theorem abs_tdiv_le (a b : Int) : |a.tdiv b| ≤ |a| := by
  rw [Int.abs_eq_natAbs, Int.abs_eq_natAbs, Int.natAbs_tdiv]
  exact Int.ofNat_le.mpr (Nat.div_le_self _ _)

theorem divTraps_eq_false {a b : Int} (hb : b ≠ 0) (ha : a ≠ -2 ^ 31 ∨ b ≠ -1) :
    divTraps a b = false := by
  unfold divTraps
  have h : ¬ (a = -2 ^ 31 ∧ b = -1) := fun h => ha.elim (fun x => x h.1) (fun x => x h.2)
  rw [Bool.or_eq_false_iff, decide_eq_false_iff_not, ← Bool.decide_and, decide_eq_false_iff_not]
  exact ⟨hb, h⟩

theorem toInt32_of_lt (n : Nat) (h : n < 2 ^ 31) : toInt32 n = n := by
  unfold toInt32
  have h1 : n % 2 ^ 32 = n := Nat.mod_eq_of_lt (by omega)
  rw [h1, if_pos h]

theorem toSizeT_of_nonneg (x : Int) (h0 : 0 ≤ x) (h1 : x < 2 ^ 64) : (toSizeT x : Int) = x := by
  unfold toSizeT
  rw [Int.emod_eq_of_lt h0 h1, Int.toNat_of_nonneg h0]

theorem toSizeT_mul_mod (x : Int) (s : Nat) :
    toSizeT x * s % 2 ^ 64 = toSizeT (x * s) := by
  unfold toSizeT
  have hM : (0 : Int) < 2 ^ 64 := by norm_num
  have h1 : 0 ≤ x % (2 ^ 64 : Int) := Int.emod_nonneg _ (ne_of_gt hM)
  have h2 : 0 ≤ (x * s) % (2 ^ 64 : Int) := Int.emod_nonneg _ (ne_of_gt hM)
  apply Int.ofNat_inj.mp
  push_cast
  norm_num at h1 h2
  rw [Int.toNat_of_nonneg h1, Int.toNat_of_nonneg h2]
  rw [Int.mul_emod, Int.emod_emod_of_dvd _ (dvd_refl _), ← Int.mul_emod]

theorem isPowerOfTwo_iff (v : Int) : isPowerOfTwo v = true ↔ ∃ k : Nat, k < 31 ∧ v = 2 ^ k := by
  unfold isPowerOfTwo
  simp only [List.any_eq_true, List.mem_range, decide_eq_true_eq]

theorem IsTwoPower_iff (L H v : Int) (hH : H < 2 ^ 31) :
    IsTwoPower L H v = true ↔ (∃ k : Nat, v = 2 ^ k) ∧ L ≤ v ∧ v ≤ H := by
  unfold IsTwoPower
  simp only [Bool.and_eq_true, decide_eq_true_eq, isPowerOfTwo_iff, and_assoc]
  constructor
  · rintro ⟨⟨k, -, hk⟩, h1, h2⟩
    exact ⟨⟨k, hk⟩, h1, h2⟩
  · rintro ⟨⟨k, hk⟩, h1, h2⟩
    refine ⟨⟨k, ?_, hk⟩, h1, h2⟩
    by_contra hge
    have h31 : (2 : Int) ^ 31 ≤ 2 ^ k := pow_le_pow_right₀ (by norm_num) (not_lt.mp hge)
    omega

theorem tdiv_mul_of_tmod_eq_zero {a b x y : Int} (hx : 0 < x) (hy : 0 < y)
    (ha : a.tmod x = 0) (hb : b.tmod y = 0) :
    (b * a).tdiv (x * y) = a.tdiv x * b.tdiv y := by
  have h1 : a.tdiv x * x = a := Int.tdiv_mul_cancel_of_tmod_eq_zero ha
  have h2 : b.tdiv y * y = b := Int.tdiv_mul_cancel_of_tmod_eq_zero hb
  have h3 : b * a = (a.tdiv x * b.tdiv y) * (x * y) := by
    conv_lhs => rw [← h1, ← h2]
    ring
  rw [h3, Int.mul_tdiv_cancel _ (ne_of_gt (mul_pos hx hy))]


/-- The numeric fields of a config that satisfies `IsValidValue` lie within their bounds. -/
theorem IsValidValue_bounds (c : PerformanceImplicitGemmForwardV4R5Xdlops)
    (h : c.IsValidValue = true) :
    (4 ≤ c.GemmMPerBlock ∧ c.GemmMPerBlock ≤ 256) ∧ (4 ≤ c.GemmNPerBlock ∧ c.GemmNPerBlock ≤ 256) ∧
    (1 ≤ c.GemmKPerBlock ∧ c.GemmKPerBlock ≤ 8) ∧ (4 ≤ c.GemmMPerWave ∧ c.GemmMPerWave ≤ 128) ∧
    (4 ≤ c.GemmNPerWave ∧ c.GemmNPerWave ≤ 128) ∧ (1 ≤ c.GemmKPack ∧ c.GemmKPack ≤ 8) ∧
    (1 ≤ c.GemmBThreadDataPerRead_GemmN ∧ c.GemmBThreadDataPerRead_GemmN ≤ 8) := by
  simp only [IsValidValue, IsTwoPower, Bool.and_eq_true, decide_eq_true_eq] at h
  obtain ⟨⟨⟨⟨⟨⟨⟨⟨-, a1⟩, a2⟩, ⟨⟨-, b1⟩, b2⟩⟩, ⟨⟨-, k1⟩, k2⟩⟩, ⟨⟨-, m1⟩, m2⟩⟩, ⟨⟨-, n1⟩, n2⟩⟩,
    ⟨⟨-, q1⟩, q2⟩⟩, ⟨⟨-, t1⟩, t2⟩⟩ := h
  exact ⟨⟨a1, a2⟩, ⟨b1, b2⟩, ⟨k1, k2⟩, ⟨m1, m2⟩, ⟨n1, n2⟩, ⟨q1, q2⟩, ⟨t1, t2⟩⟩

/-- The absolute values of the numeric fields of a config that satisfies `IsValidValue`. -/
theorem IsValidValue_abs (c : PerformanceImplicitGemmForwardV4R5Xdlops)
    (h : c.IsValidValue = true) :
    |c.GemmMPerBlock| ≤ 256 ∧ |c.GemmNPerBlock| ≤ 256 ∧ |c.GemmKPerBlock| ≤ 8 ∧
    |c.GemmMPerWave| ≤ 128 ∧ |c.GemmNPerWave| ≤ 128 ∧ |c.GemmKPack| ≤ 8 := by
  obtain ⟨⟨a1, a2⟩, ⟨b1, b2⟩, ⟨k1, k2⟩, ⟨m1, m2⟩, ⟨n1, n2⟩, ⟨q1, q2⟩, -⟩ := IsValidValue_bounds c h
  refine ⟨abs_le.mpr ⟨by omega, a2⟩, abs_le.mpr ⟨by omega, b2⟩, abs_le.mpr ⟨by omega, k2⟩,
    abs_le.mpr ⟨by omega, m2⟩, abs_le.mpr ⟨by omega, n2⟩, abs_le.mpr ⟨by omega, q2⟩⟩

/-- A product of three `int`s with small absolute values is exact. -/
theorem wrapInt_mul_mul_of_abs {a b d : Int} {A B D : Int} (ha : |a| ≤ A) (hb : |b| ≤ B)
    (hd : |d| ≤ D) (h : A * B * D < 2 ^ 31) : wrapInt (wrapInt (a * b) * d) = a * b * d := by
  have h0 : 0 ≤ A := le_trans (abs_nonneg a) ha
  have h1 : 0 ≤ B := le_trans (abs_nonneg b) hb
  have h2 : 0 ≤ D := le_trans (abs_nonneg d) hd
  have hab : |a * b| ≤ A * B := by
    rw [abs_mul]
    exact mul_le_mul ha hb (abs_nonneg b) h0
  rw [wrapInt_mul_left]
  exact wrapInt_mul_of_abs hab hd h

/-- For a config that satisfies `IsValidValue` the arithmetic of `CalculateBlockSize` is
exact. -/
theorem CalculateBlockSize_of_IsValidValue (c : PerformanceImplicitGemmForwardV4R5Xdlops)
    (hv : c.IsValidValue = true) :
    c.CalculateBlockSize =
      if ¬ (c.GemmMPerBlock.tmod c.GemmMPerWave = 0 ∧ c.GemmNPerBlock.tmod c.GemmNPerWave = 0)
      then (-1, false)
      else ((c.GemmNPerBlock * c.GemmMPerBlock).tdiv (c.GemmMPerWave * c.GemmNPerWave) * 64,
        true) := by
  obtain ⟨a1, a2, -, a4, a5, -⟩ := IsValidValue_abs c hv
  have e1 : wrapInt (c.GemmNPerBlock * c.GemmMPerBlock) = c.GemmNPerBlock * c.GemmMPerBlock :=
    wrapInt_mul_of_abs a2 a1 (by norm_num)
  have e2 : wrapInt (c.GemmMPerWave * c.GemmNPerWave) = c.GemmMPerWave * c.GemmNPerWave :=
    wrapInt_mul_of_abs a4 a5 (by norm_num)
  have e3 : |(c.GemmNPerBlock * c.GemmMPerBlock).tdiv (c.GemmMPerWave * c.GemmNPerWave)| ≤
      256 * 256 := by
    refine le_trans (abs_tdiv_le _ _) ?_
    rw [abs_mul]
    exact mul_le_mul a2 a1 (abs_nonneg _) (by norm_num)
  have e4 : wrapInt ((c.GemmNPerBlock * c.GemmMPerBlock).tdiv
      (c.GemmMPerWave * c.GemmNPerWave) * 64) =
      (c.GemmNPerBlock * c.GemmMPerBlock).tdiv (c.GemmMPerWave * c.GemmNPerWave) * 64 :=
    wrapInt_mul_of_abs e3 (le_of_eq (abs_of_nonneg (by norm_num : (0 : Int) ≤ 64)))
      (by norm_num)
  unfold CalculateBlockSize
  simp only [e1, e2, e4]

/-! ## The validators -/

/-- The checks of `IsReallyValid`, in the order of the source. -/
theorem IsReallyValid_eq_true_iff (ctx : ConvolutionContext)
    (c : PerformanceImplicitGemmForwardV4R5Xdlops) (p : ProblemDescription) :
    IsReallyValid ctx c p = true ↔
      c.IsValidValue = true ∧
      ctx.IsValidBlockwiseGemmXdlops p c.GemmMPerBlock c.GemmNPerBlock c.GemmKPerBlock
        c.GemmMPerWave c.GemmNPerWave c.GemmKPack = true ∧
      p.BatchN % toSizeT (c.GemmNPerBlock.tdiv c.GemmNPerWave) = 0 ∧
      (CalculateGemmSize p).2.2.2.tmod c.GemmKPack = 0 ∧
      (CalculateGemmSize p).2.1.tmod c.GemmMPerBlock = 0 ∧
      (CalculateGemmSize p).2.2.1.tmod c.GemmNPerBlock = 0 ∧
      ((CalculateGemmSize p).2.2.2.tdiv c.GemmKPack).tmod c.GemmKPerBlock = 0 ∧
      (CalculateGemmABlockCopyPerformanceParameters ctx c p).valid = true ∧
      (CalculateGemmBBlockCopyPerformanceParameters ctx c p).valid = true ∧
      (c.CalculateLdsNumberOfByte p).1 ≤ ctx.lds_max_number_of_byte := by
  unfold IsReallyValid
  have hl : (c.CalculateLdsNumberOfByte p).2 = true := rfl
  simp only [hl, Bool.true_and, decide_eq_true_eq]
  split_ifs <;> simp_all

/-- C1: `IsReallyValid` returns true if and only if `IsValidValue` holds, the matmul-unit
predicate accepts the six tile sizes, the batch is a multiple of `block_n / wave_n`,
`gemm_k_total` is a multiple of `k_pack`, `gemm_m`, `gemm_n` and `gemm_k_total / k_pack` are
multiples of `block_m`, `block_n` and `block_k`, both block-copy calculations return valid, and
the LDS byte count is at most the shared-memory budget. -/
theorem IsReallyValid_iff (ctx : ConvolutionContext)
    (c : PerformanceImplicitGemmForwardV4R5Xdlops) (p : ProblemDescription) :
    IsReallyValid ctx c p = true ↔
      c.IsValidValue = true ∧
      ctx.IsValidBlockwiseGemmXdlops p c.GemmMPerBlock c.GemmNPerBlock c.GemmKPerBlock
        c.GemmMPerWave c.GemmNPerWave c.GemmKPack = true ∧
      p.BatchN % toSizeT (c.GemmNPerBlock.tdiv c.GemmNPerWave) = 0 ∧
      (CalculateGemmSize p).2.2.2.tmod c.GemmKPack = 0 ∧
      (CalculateGemmSize p).2.1.tmod c.GemmMPerBlock = 0 ∧
      (CalculateGemmSize p).2.2.1.tmod c.GemmNPerBlock = 0 ∧
      ((CalculateGemmSize p).2.2.2.tdiv c.GemmKPack).tmod c.GemmKPerBlock = 0 ∧
      (CalculateGemmABlockCopyPerformanceParameters ctx c p).valid = true ∧
      (CalculateGemmBBlockCopyPerformanceParameters ctx c p).valid = true ∧
      (c.CalculateLdsNumberOfByte p).1 ≤ ctx.lds_max_number_of_byte :=
  IsReallyValid_eq_true_iff ctx c p

/-- The divisor of the batch size in `IsReallyValid` is not zero when the division is
reached: the config satisfies `IsValidValue` and the matmul-unit predicate has accepted it. -/
theorem IsReallyValid_NWaves_ne_zero (ctx : ConvolutionContext)
    (c : PerformanceImplicitGemmForwardV4R5Xdlops) (p : ProblemDescription)
    (hv : c.IsValidValue = true)
    (hx : ctx.IsValidBlockwiseGemmXdlops p c.GemmMPerBlock c.GemmNPerBlock c.GemmKPerBlock
      c.GemmMPerWave c.GemmNPerWave c.GemmKPack = true) :
    divTraps c.GemmNPerBlock c.GemmNPerWave = false ∧
    toSizeT (c.GemmNPerBlock.tdiv c.GemmNPerWave) ≠ 0 := by
  obtain ⟨-, ⟨b1, b2⟩, -, -, ⟨n1, n2⟩, -⟩ := IsValidValue_bounds c hv
  have hle : c.GemmNPerWave ≤ c.GemmNPerBlock :=
    ctx.wave_within_block p _ _ _ _ _ _ hx (by omega) (by omega)
  refine ⟨divTraps_eq_false (by omega) (Or.inr (by omega)), ?_⟩
  have h1 : 1 ≤ c.GemmNPerBlock.tdiv c.GemmNPerWave := by
    rw [Int.tdiv_eq_ediv (by omega) (by omega)]
    exact Int.le_ediv_of_mul_le (by omega) (by omega)
  have h2 : c.GemmNPerBlock.tdiv c.GemmNPerWave ≤ 256 := by
    have := abs_tdiv_le c.GemmNPerBlock c.GemmNPerWave
    rw [abs_of_nonneg (by omega : (0 : Int) ≤ c.GemmNPerBlock.tdiv c.GemmNPerWave),
      abs_of_nonneg (by omega : (0 : Int) ≤ c.GemmNPerBlock)] at this
    omega
  unfold toSizeT
  omega

/-- For a config that satisfies `IsValidValue` the product of the three cluster lengths of
operand A is exact. -/
theorem A_cluster_product_exact (ctx : ConvolutionContext)
    (c : PerformanceImplicitGemmForwardV4R5Xdlops) (p : ProblemDescription)
    (hv : c.IsValidValue = true) :
    wrapInt (wrapInt (GemmABlockCopy.ClusterLengths_GemmK ctx c p *
        GemmABlockCopy.ClusterLengths_GemmM ctx c p) *
      GemmABlockCopy.ClusterLengths_GemmKPack ctx c p) =
    GemmABlockCopy.ClusterLengths_GemmK ctx c p * GemmABlockCopy.ClusterLengths_GemmM ctx c p *
      GemmABlockCopy.ClusterLengths_GemmKPack ctx c p := by
  obtain ⟨a1, -, a3, -, -, a6⟩ := IsValidValue_abs c hv
  exact wrapInt_mul_mul_of_abs (le_trans (abs_tdiv_le _ _) a3) (le_trans (abs_tdiv_le _ _) a1)
    (le_trans (abs_tdiv_le _ _) a6) (by norm_num)

/-- For a config that satisfies `IsValidValue` the product of the three cluster lengths of
operand B is exact. -/
theorem B_cluster_product_exact (ctx : ConvolutionContext)
    (c : PerformanceImplicitGemmForwardV4R5Xdlops) (p : ProblemDescription)
    (hv : c.IsValidValue = true) :
    wrapInt (wrapInt (GemmBBlockCopy.ClusterLengths_GemmK ctx c p *
        GemmBBlockCopy.ClusterLengths_B ctx c p) *
      GemmBBlockCopy.ClusterLengths_GemmKPack ctx c p) =
    GemmBBlockCopy.ClusterLengths_GemmK ctx c p * GemmBBlockCopy.ClusterLengths_B ctx c p *
      GemmBBlockCopy.ClusterLengths_GemmKPack ctx c p := by
  obtain ⟨-, a2, a3, -, -, a6⟩ := IsValidValue_abs c hv
  exact wrapInt_mul_mul_of_abs (le_trans (abs_tdiv_le _ _) a3)
    (le_trans (abs_tdiv_le _ _) (le_trans (abs_tdiv_le _ _) a2))
    (le_trans (abs_tdiv_le _ _) a6) (by norm_num)

theorem A_product_of_valid (ctx : ConvolutionContext)
    (c : PerformanceImplicitGemmForwardV4R5Xdlops) (p : ProblemDescription)
    (hv : c.IsValidValue = true)
    (h : (CalculateGemmABlockCopyPerformanceParameters ctx c p).valid = true) :
    (CalculateGemmABlockCopyPerformanceParameters ctx c p).ClusterLengths_GemmK *
      (CalculateGemmABlockCopyPerformanceParameters ctx c p).ClusterLengths_GemmMOrB *
      (CalculateGemmABlockCopyPerformanceParameters ctx c p).ClusterLengths_GemmKPack =
    c.CalculateBlockSize.1 := by
  have e := A_cluster_product_exact ctx c p hv
  unfold CalculateGemmABlockCopyPerformanceParameters at h ⊢
  split_ifs at h ⊢ with h1 h2 h3 h4
  all_goals first
    | exact absurd h (by decide)
    | exact e ▸ (not_not.mp h4).symm

theorem B_product_of_valid (ctx : ConvolutionContext)
    (c : PerformanceImplicitGemmForwardV4R5Xdlops) (p : ProblemDescription)
    (hv : c.IsValidValue = true)
    (h : (CalculateGemmBBlockCopyPerformanceParameters ctx c p).valid = true) :
    (CalculateGemmBBlockCopyPerformanceParameters ctx c p).ClusterLengths_GemmK *
      (CalculateGemmBBlockCopyPerformanceParameters ctx c p).ClusterLengths_GemmMOrB *
      (CalculateGemmBBlockCopyPerformanceParameters ctx c p).ClusterLengths_GemmKPack =
    c.CalculateBlockSize.1 := by
  have e := B_cluster_product_exact ctx c p hv
  unfold CalculateGemmBBlockCopyPerformanceParameters at h ⊢
  split_ifs at h ⊢ with h1 h2 h3 h4 h5 h6
  all_goals first
    | exact absurd h (by decide)
    | exact e ▸ (not_not.mp h6).symm

/-- C2: whenever `IsReallyValid` holds, the operand-A block-copy calculation returns valid and
the product of its three cluster lengths equals the block size returned by
`CalculateBlockSize`, and likewise for operand B. -/
theorem cluster_product_eq_block_size (ctx : ConvolutionContext)
    (c : PerformanceImplicitGemmForwardV4R5Xdlops) (p : ProblemDescription)
    (h : IsReallyValid ctx c p = true) :
    ((CalculateGemmABlockCopyPerformanceParameters ctx c p).valid = true ∧
      (CalculateGemmABlockCopyPerformanceParameters ctx c p).ClusterLengths_GemmK *
        (CalculateGemmABlockCopyPerformanceParameters ctx c p).ClusterLengths_GemmMOrB *
        (CalculateGemmABlockCopyPerformanceParameters ctx c p).ClusterLengths_GemmKPack =
      c.CalculateBlockSize.1) ∧
    ((CalculateGemmBBlockCopyPerformanceParameters ctx c p).valid = true ∧
      (CalculateGemmBBlockCopyPerformanceParameters ctx c p).ClusterLengths_GemmK *
        (CalculateGemmBBlockCopyPerformanceParameters ctx c p).ClusterLengths_GemmMOrB *
        (CalculateGemmBBlockCopyPerformanceParameters ctx c p).ClusterLengths_GemmKPack =
      c.CalculateBlockSize.1) := by
  have h2 := (IsReallyValid_eq_true_iff ctx c p).mp h
  exact ⟨⟨h2.2.2.2.2.2.2.2.1, A_product_of_valid ctx c p h2.1 h2.2.2.2.2.2.2.2.1⟩,
    ⟨h2.2.2.2.2.2.2.2.2.1, B_product_of_valid ctx c p h2.1 h2.2.2.2.2.2.2.2.2.1⟩⟩

/-- Witness of C2: the sample config is valid for Scenario A (block size 128). -/
theorem cluster_product_eq_block_size_witness :
    IsReallyValid (sampleContext false) sampleConfig sampleProblem = true ∧
    (CalculateGemmABlockCopyPerformanceParameters (sampleContext false) sampleConfig
        sampleProblem).ClusterLengths_GemmK *
      (CalculateGemmABlockCopyPerformanceParameters (sampleContext false) sampleConfig
        sampleProblem).ClusterLengths_GemmMOrB *
      (CalculateGemmABlockCopyPerformanceParameters (sampleContext false) sampleConfig
        sampleProblem).ClusterLengths_GemmKPack = sampleConfig.CalculateBlockSize.1 :=
  ⟨by decide,
    (cluster_product_eq_block_size (sampleContext false) sampleConfig sampleProblem
      (by decide)).1.2⟩

/-- C3: `IsValidValue` is true if and only if `block_m` and `block_n` are powers of two in
`[4, 256]`, `block_k` is a power of two in `[1, 8]`, `wave_m` and `wave_n` are powers of two in
`[4, 128]`, `k_pack` is a power of two in `[1, 8]` and `GemmBThreadDataPerRead_GemmN` is a power
of two in `[1, 8]`; the two copy flags and the spare flag play no part. -/
theorem IsValidValue_iff_powers_of_two (c : PerformanceImplicitGemmForwardV4R5Xdlops) :
    (c.IsValidValue = true ↔
      ((∃ k : Nat, c.GemmMPerBlock = 2 ^ k) ∧ 4 ≤ c.GemmMPerBlock ∧ c.GemmMPerBlock ≤ 256) ∧
      ((∃ k : Nat, c.GemmNPerBlock = 2 ^ k) ∧ 4 ≤ c.GemmNPerBlock ∧ c.GemmNPerBlock ≤ 256) ∧
      ((∃ k : Nat, c.GemmKPerBlock = 2 ^ k) ∧ 1 ≤ c.GemmKPerBlock ∧ c.GemmKPerBlock ≤ 8) ∧
      ((∃ k : Nat, c.GemmMPerWave = 2 ^ k) ∧ 4 ≤ c.GemmMPerWave ∧ c.GemmMPerWave ≤ 128) ∧
      ((∃ k : Nat, c.GemmNPerWave = 2 ^ k) ∧ 4 ≤ c.GemmNPerWave ∧ c.GemmNPerWave ≤ 128) ∧
      ((∃ k : Nat, c.GemmKPack = 2 ^ k) ∧ 1 ≤ c.GemmKPack ∧ c.GemmKPack ≤ 8) ∧
      ((∃ k : Nat, c.GemmBThreadDataPerRead_GemmN = 2 ^ k) ∧
        1 ≤ c.GemmBThreadDataPerRead_GemmN ∧ c.GemmBThreadDataPerRead_GemmN ≤ 8)) ∧
    (∀ a b s : Bool,
      IsValidValue { c with GemmAThreadCopyMoreGemmK := a, GemmBThreadCopyMoreGemmKPack := b,
                            use_spare_set := s } = c.IsValidValue) := by
  refine ⟨?_, fun a b s => rfl⟩
  unfold IsValidValue
  simp only [Bool.and_eq_true, IsTwoPower_iff _ _ _ (by norm_num : (256 : Int) < 2 ^ 31),
    IsTwoPower_iff _ _ _ (by norm_num : (128 : Int) < 2 ^ 31),
    IsTwoPower_iff _ _ _ (by norm_num : (8 : Int) < 2 ^ 31), and_assoc]

/-! ## Block size, grid size and LDS size -/

/-- Counterexample to C4 as stated: the config with `block_m = block_n = 65536` and
`wave_m = wave_n = 1` has non-zero wave sizes and satisfies the divisibility precondition; the
call does not trap, the `int` product `block_n * block_m = 2 ^ 32` wraps to `0`, and the call
returns `(0, true)`, not `((block_m * block_n) / (wave_m * wave_n) * 64, true) =
(2 ^ 38, true)`. -/
theorem CalculateBlockSize_overflow :
    (PerformanceImplicitGemmForwardV4R5Xdlops.mk 65536 65536 1 1 1 1 false false 1
      false).CalculateBlockSize_traps = false ∧
    (PerformanceImplicitGemmForwardV4R5Xdlops.mk 65536 65536 1 1 1 1 false false 1
      false).CalculateBlockSize = (0, true) ∧
    ((65536 : Int).tmod 1 = 0 ∧ (65536 : Int).tmod 1 = 0) ∧
    ((65536 : Int) * 65536).tdiv (1 * 1) * 64 = 2 ^ 38 ∧
    (PerformanceImplicitGemmForwardV4R5Xdlops.mk 65536 65536 1 1 1 1 false false 1
      false).CalculateBlockSize ≠ (((65536 : Int) * 65536).tdiv (1 * 1) * 64, true) := by
  decide

/-- C4 (amended): for a config with non-zero `wave_m` and `wave_n` in which no `int` operation
overflows (`block_m`, `block_n`, `block_m * block_n`, `wave_m * wave_n` and
`(block_m * block_n) / (wave_m * wave_n) * 64` have absolute values below `2 ^ 31`),
`CalculateBlockSize` does not trap; it returns
`((block_m * block_n) / (wave_m * wave_n) * 64, true)` exactly when `block_m % wave_m == 0` and
`block_n % wave_n == 0`, and the failure pair `(-1, false)` exactly when that precondition is
violated. -/
theorem CalculateBlockSize_spec (c : PerformanceImplicitGemmForwardV4R5Xdlops)
    (hm : c.GemmMPerWave ≠ 0) (hn : c.GemmNPerWave ≠ 0)
    (h1 : |c.GemmMPerBlock| < 2 ^ 31) (h2 : |c.GemmNPerBlock| < 2 ^ 31)
    (h3 : |c.GemmMPerBlock * c.GemmNPerBlock| < 2 ^ 31)
    (h4 : |c.GemmMPerWave * c.GemmNPerWave| < 2 ^ 31)
    (h5 : |(c.GemmMPerBlock * c.GemmNPerBlock).tdiv (c.GemmMPerWave * c.GemmNPerWave) * 64| <
      2 ^ 31) :
    c.CalculateBlockSize_traps = false ∧
    (c.CalculateBlockSize =
        ((c.GemmMPerBlock * c.GemmNPerBlock).tdiv (c.GemmMPerWave * c.GemmNPerWave) * 64, true) ↔
      (c.GemmMPerBlock.tmod c.GemmMPerWave = 0 ∧ c.GemmNPerBlock.tmod c.GemmNPerWave = 0)) ∧
    (c.CalculateBlockSize = (-1, false) ↔
      ¬ (c.GemmMPerBlock.tmod c.GemmMPerWave = 0 ∧ c.GemmNPerBlock.tmod c.GemmNPerWave = 0)) := by
  have b1 := abs_lt.mp h1
  have b2 := abs_lt.mp h2
  have b3 := abs_lt.mp h3
  have b4 := abs_lt.mp h4
  have b5 := abs_lt.mp h5
  have e1 : wrapInt (c.GemmNPerBlock * c.GemmMPerBlock) = c.GemmMPerBlock * c.GemmNPerBlock := by
    rw [mul_comm]
    exact wrapInt_of_range (by omega) (by omega)
  have e2 : wrapInt (c.GemmMPerWave * c.GemmNPerWave) = c.GemmMPerWave * c.GemmNPerWave :=
    wrapInt_of_range (by omega) (by omega)
  have e3 : wrapInt ((c.GemmMPerBlock * c.GemmNPerBlock).tdiv
      (c.GemmMPerWave * c.GemmNPerWave) * 64) =
      (c.GemmMPerBlock * c.GemmNPerBlock).tdiv (c.GemmMPerWave * c.GemmNPerWave) * 64 :=
    wrapInt_of_range (by omega) (by omega)
  have d1 : divTraps c.GemmMPerBlock c.GemmMPerWave = false :=
    divTraps_eq_false hm (Or.inl (by omega))
  have d2 : divTraps c.GemmNPerBlock c.GemmNPerWave = false :=
    divTraps_eq_false hn (Or.inl (by omega))
  have d3 : divTraps (wrapInt (c.GemmNPerBlock * c.GemmMPerBlock))
      (wrapInt (c.GemmMPerWave * c.GemmNPerWave)) = false := by
    rw [e1, e2]
    exact divTraps_eq_false (mul_ne_zero hm hn) (Or.inl (by omega))
  refine ⟨?_, ?_⟩
  · unfold CalculateBlockSize_traps
    rw [d1, d2, d3]
    simp
  · unfold CalculateBlockSize
    simp only [e1, e2, e3]
    by_cases h : c.GemmMPerBlock.tmod c.GemmMPerWave = 0 ∧ c.GemmNPerBlock.tmod c.GemmNPerWave = 0
    · simp [h]
    · simp [h]

/-- Witness of C4 (amended): the sample config has non-zero wave sizes, and its block size
`(64 * 256) / (64 * 128) * 64 = 128` is computed without overflow. -/
theorem CalculateBlockSize_spec_witness :
    sampleConfig.GemmMPerWave ≠ 0 ∧ sampleConfig.GemmNPerWave ≠ 0 ∧
    sampleConfig.CalculateBlockSize_traps = false ∧
    (sampleConfig.CalculateBlockSize = (-1, false) ↔
      ¬ (sampleConfig.GemmMPerBlock.tmod sampleConfig.GemmMPerWave = 0 ∧
        sampleConfig.GemmNPerBlock.tmod sampleConfig.GemmNPerWave = 0)) :=
  ⟨by decide, by decide,
    (CalculateBlockSize_spec sampleConfig (by decide) (by decide)
      (abs_lt.mpr ⟨by decide, by decide⟩) (abs_lt.mpr ⟨by decide, by decide⟩)
      (abs_lt.mpr ⟨by decide, by decide⟩) (abs_lt.mpr ⟨by decide, by decide⟩)
      (abs_lt.mpr ⟨by decide, by decide⟩)).1,
    (CalculateBlockSize_spec sampleConfig (by decide) (by decide)
      (abs_lt.mpr ⟨by decide, by decide⟩) (abs_lt.mpr ⟨by decide, by decide⟩)
      (abs_lt.mpr ⟨by decide, by decide⟩) (abs_lt.mpr ⟨by decide, by decide⟩)
      (abs_lt.mpr ⟨by decide, by decide⟩)).2.2⟩

/-- A valid block size satisfies the divisibility precondition. -/
theorem CalculateBlockSize_tmod_of_valid (c : PerformanceImplicitGemmForwardV4R5Xdlops)
    (hv : c.CalculateBlockSize.2 = true) :
    c.GemmMPerBlock.tmod c.GemmMPerWave = 0 ∧ c.GemmNPerBlock.tmod c.GemmNPerWave = 0 := by
  unfold CalculateBlockSize at hv
  by_cases h : c.GemmMPerBlock.tmod c.GemmMPerWave = 0 ∧ c.GemmNPerBlock.tmod c.GemmNPerWave = 0
  · exact h
  · simp [h] at hv

theorem CalculateBlockSize_eq_of_valid (c : PerformanceImplicitGemmForwardV4R5Xdlops)
    (hi : c.IsValidValue = true) (hv : c.CalculateBlockSize.2 = true) :
    c.GemmMPerBlock.tmod c.GemmMPerWave = 0 ∧ c.GemmNPerBlock.tmod c.GemmNPerWave = 0 ∧
    c.CalculateBlockSize.1 =
      (c.GemmNPerBlock * c.GemmMPerBlock).tdiv (c.GemmMPerWave * c.GemmNPerWave) * 64 := by
  obtain ⟨m1, m2⟩ := CalculateBlockSize_tmod_of_valid c hv
  refine ⟨m1, m2, ?_⟩
  rw [CalculateBlockSize_of_IsValidValue c hi]
  simp [m1, m2]

/-- Counterexample to C5 as stated: for `block_m = 0` (all other fields as in the default
config) `CalculateBlockSize` returns valid, and the block size it returns is `0`, which is not
positive; for `block_m = block_n = 65536` and `wave_m = wave_n = 1`, all positive, the product
`block_n * block_m = 2 ^ 32` wraps to `0` and the returned block size is `0` again. -/
theorem CalculateBlockSize_not_positive :
    ((PerformanceImplicitGemmForwardV4R5Xdlops.mk 0 4 1 4 4 1 false false 1
        false).CalculateBlockSize = (0, true) ∧
      (PerformanceImplicitGemmForwardV4R5Xdlops.mk 0 4 1 4 4 1 false false 1
        false).CalculateBlockSize_traps = false ∧
      ¬ (0 < (PerformanceImplicitGemmForwardV4R5Xdlops.mk 0 4 1 4 4 1 false false 1
        false).CalculateBlockSize.1)) ∧
    ((PerformanceImplicitGemmForwardV4R5Xdlops.mk 65536 65536 1 1 1 1 false false 1
        false).CalculateBlockSize = (0, true) ∧
      (PerformanceImplicitGemmForwardV4R5Xdlops.mk 65536 65536 1 1 1 1 false false 1
        false).CalculateBlockSize_traps = false ∧
      ¬ (0 < (PerformanceImplicitGemmForwardV4R5Xdlops.mk 65536 65536 1 1 1 1 false false 1
        false).CalculateBlockSize.1)) := by
  decide

/-- C5 (amended): for every config whose `block_m`, `block_n`, `wave_m` and `wave_n` are
positive and for which `block_m * block_n * 64` is below `2 ^ 31` (no `int` overflow; in
particular for every config that satisfies `IsValidValue`), whenever `CalculateBlockSize`
returns valid, the call has not trapped and the returned block size is a positive multiple of
64. -/
theorem CalculateBlockSize_positive_multiple (c : PerformanceImplicitGemmForwardV4R5Xdlops)
    (hbm : 0 < c.GemmMPerBlock) (hbn : 0 < c.GemmNPerBlock)
    (hwm : 0 < c.GemmMPerWave) (hwn : 0 < c.GemmNPerWave)
    (hfit : c.GemmMPerBlock * c.GemmNPerBlock * 64 < 2 ^ 31)
    (hv : c.CalculateBlockSize.2 = true) :
    c.CalculateBlockSize_traps = false ∧
    0 < c.CalculateBlockSize.1 ∧ 64 ∣ c.CalculateBlockSize.1 := by
  obtain ⟨m1, m2⟩ := CalculateBlockSize_tmod_of_valid c hv
  have e1 : c.GemmMPerBlock.tdiv c.GemmMPerWave * c.GemmMPerWave = c.GemmMPerBlock :=
    Int.tdiv_mul_cancel_of_tmod_eq_zero m1
  have e2 : c.GemmNPerBlock.tdiv c.GemmNPerWave * c.GemmNPerWave = c.GemmNPerBlock :=
    Int.tdiv_mul_cancel_of_tmod_eq_zero m2
  have p1 : 0 < c.GemmMPerBlock.tdiv c.GemmMPerWave := by
    by_contra hneg
    have : c.GemmMPerBlock.tdiv c.GemmMPerWave * c.GemmMPerWave ≤ 0 :=
      mul_nonpos_of_nonpos_of_nonneg (not_lt.mp hneg) (le_of_lt hwm)
    omega
  have p2 : 0 < c.GemmNPerBlock.tdiv c.GemmNPerWave := by
    by_contra hneg
    have : c.GemmNPerBlock.tdiv c.GemmNPerWave * c.GemmNPerWave ≤ 0 :=
      mul_nonpos_of_nonpos_of_nonneg (not_lt.mp hneg) (le_of_lt hwn)
    omega
  have l1 : c.GemmMPerWave ≤ c.GemmMPerBlock := Int.le_of_dvd hbm (Int.dvd_of_tmod_eq_zero m1)
  have l2 : c.GemmNPerWave ≤ c.GemmNPerBlock := Int.le_of_dvd hbn (Int.dvd_of_tmod_eq_zero m2)
  have q1 : c.GemmMPerBlock.tdiv c.GemmMPerWave ≤ c.GemmMPerBlock := by
    have := abs_tdiv_le c.GemmMPerBlock c.GemmMPerWave
    rw [abs_of_pos p1, abs_of_pos hbm] at this
    exact this
  have q2 : c.GemmNPerBlock.tdiv c.GemmNPerWave ≤ c.GemmNPerBlock := by
    have := abs_tdiv_le c.GemmNPerBlock c.GemmNPerWave
    rw [abs_of_pos p2, abs_of_pos hbn] at this
    exact this
  have w1 : c.GemmMPerWave * c.GemmNPerWave ≤ c.GemmMPerBlock * c.GemmNPerBlock :=
    mul_le_mul l1 l2 (le_of_lt hwn) (le_of_lt hbm)
  have w0 : 0 < c.GemmMPerWave * c.GemmNPerWave := mul_pos hwm hwn
  have b0 : 0 < c.GemmMPerBlock * c.GemmNPerBlock := mul_pos hbm hbn
  have r1 : c.GemmMPerBlock.tdiv c.GemmMPerWave * c.GemmNPerBlock.tdiv c.GemmNPerWave ≤
      c.GemmMPerBlock * c.GemmNPerBlock :=
    mul_le_mul q1 q2 (le_of_lt p2) (le_of_lt hbm)
  have r0 : 0 < c.GemmMPerBlock.tdiv c.GemmMPerWave * c.GemmNPerBlock.tdiv c.GemmNPerWave :=
    mul_pos p1 p2
  have x1 : wrapInt (c.GemmNPerBlock * c.GemmMPerBlock) = c.GemmNPerBlock * c.GemmMPerBlock := by
    rw [mul_comm]
    exact wrapInt_of_range (by omega) (by omega)
  have x2 : wrapInt (c.GemmMPerWave * c.GemmNPerWave) = c.GemmMPerWave * c.GemmNPerWave :=
    wrapInt_of_range (by omega) (by omega)
  have x3 : wrapInt (c.GemmMPerBlock.tdiv c.GemmMPerWave * c.GemmNPerBlock.tdiv c.GemmNPerWave *
      64) = c.GemmMPerBlock.tdiv c.GemmMPerWave * c.GemmNPerBlock.tdiv c.GemmNPerWave * 64 :=
    wrapInt_of_range (by omega) (by omega)
  have hsize : c.CalculateBlockSize.1 =
      c.GemmMPerBlock.tdiv c.GemmMPerWave * c.GemmNPerBlock.tdiv c.GemmNPerWave * 64 := by
    unfold CalculateBlockSize
    simp only [m1, m2, x1, x2, and_self, not_true_eq_false, if_false]
    rw [tdiv_mul_of_tmod_eq_zero hwm hwn m1 m2, x3]
  refine ⟨?_, ?_, ?_⟩
  · unfold CalculateBlockSize_traps
    rw [divTraps_eq_false (ne_of_gt hwm) (Or.inl (by omega)),
      divTraps_eq_false (ne_of_gt hwn) (Or.inl (by omega)), x1, x2,
      divTraps_eq_false (ne_of_gt w0) (Or.inl (by rw [mul_comm]; omega))]
    simp
  · rw [hsize]
    omega
  · rw [hsize]
    exact Dvd.intro_left _ rfl

/-- Witness of C5 (amended): the sample config has positive sizes and a valid block size. -/
theorem CalculateBlockSize_positive_multiple_witness :
    sampleConfig.CalculateBlockSize.2 = true ∧
    sampleConfig.CalculateBlockSize_traps = false ∧
    0 < sampleConfig.CalculateBlockSize.1 ∧ 64 ∣ sampleConfig.CalculateBlockSize.1 :=
  ⟨by decide, CalculateBlockSize_positive_multiple sampleConfig
    (by decide) (by decide) (by decide) (by decide) (by decide) (by decide)⟩

/-- The GEMM sizes returned by `CalculateGemmSize` are the numbers `G`, `K / G` and
`N * Ho * Wo` themselves when these are below `2 ^ 31`. -/
theorem CalculateGemmSize_of_lt (p : ProblemDescription) (h1 : p.GroupCountG < 2 ^ 31)
    (h2 : p.OutputChannelK / p.GroupCountG < 2 ^ 31)
    (h3 : p.BatchN * p.OutputHeightHo * p.OutputWidthWo < 2 ^ 31) :
    (CalculateGemmSize p).1 = p.GroupCountG ∧
    (CalculateGemmSize p).2.1 = (p.OutputChannelK / p.GroupCountG : Nat) ∧
    (CalculateGemmSize p).2.2.1 = (p.BatchN * p.OutputHeightHo * p.OutputWidthWo : Nat) := by
  unfold CalculateGemmSize
  have h4 : p.BatchN * p.OutputHeightHo * p.OutputWidthWo % 2 ^ 64
      = p.BatchN * p.OutputHeightHo * p.OutputWidthWo := Nat.mod_eq_of_lt (by omega)
  simp only [h4]
  exact ⟨toInt32_of_lt _ h1, toInt32_of_lt _ h2, toInt32_of_lt _ h3⟩

/-- Counterexample to C6 as stated.  For the problem G=3, N=4, K=60, Ho=4369, Wo=65537, whose
GEMM sizes `(3, 20, 1145324612)` are `int`s, and the config with `block_m = block_n = 4`, the
divisibility precondition holds and the call does not trap, but the `int` product
`3 * 5 * 286331153 = 2 ^ 32 - 1` wraps, and the call returns `(-1, true)`, not
`(gemm_g * (gemm_m / block_m) * (gemm_n / block_n), true)`.  For the problem G=1, N=67108863,
Ho=Wo=8 the size `N * Ho * Wo = 2 ^ 32 - 64` does not fit an `int`, and `gemm_n` is `-64`.
For a problem with `G = 0` the division `K / G` of `CalculateGemmSize` has a zero divisor. -/
theorem CalculateGridSize_overflow :
    (CalculateGemmSize gridOverflowProblem = (3, 20, 1145324612, 64) ∧
      smallTileConfig.GemmMPerBlock ≠ 0 ∧ smallTileConfig.GemmNPerBlock ≠ 0 ∧
      ((CalculateGemmSize gridOverflowProblem).2.1.tmod smallTileConfig.GemmMPerBlock = 0 ∧
        (CalculateGemmSize gridOverflowProblem).2.2.1.tmod smallTileConfig.GemmNPerBlock = 0) ∧
      smallTileConfig.CalculateGridSize_traps gridOverflowProblem = false ∧
      smallTileConfig.CalculateGridSize gridOverflowProblem = (-1, true) ∧
      (CalculateGemmSize gridOverflowProblem).1 *
        ((CalculateGemmSize gridOverflowProblem).2.1.tdiv smallTileConfig.GemmMPerBlock) *
        ((CalculateGemmSize gridOverflowProblem).2.2.1.tdiv smallTileConfig.GemmNPerBlock) =
          4294967295) ∧
    ((CalculateGemmSize overflowProblem).2.2.1 = -64 ∧
      overflowProblem.BatchN * overflowProblem.OutputHeightHo * overflowProblem.OutputWidthWo =
        4294967232) ∧
    smallTileConfig.CalculateGridSize_traps
      ⟨0, 4, 60, 192, 4369, 65537, 1, 1, 1, 1, 1, 0, 0, 0, 0, DataType.fp32⟩ = true := by
  decide

/-- C6 (amended): for a config with non-zero `block_m` and `block_n` and a problem with at
least one group whose GEMM sizes `G`, `K / G` and `N * Ho * Wo` are below `2 ^ 31`,
`CalculateGemmSize` gives `(gemm_g, gemm_m, gemm_n) = (G, K / G, N * Ho * Wo)`; if moreover
the product `gemm_g * (gemm_m / block_m) * (gemm_n / block_n)` has an absolute value below
`2 ^ 31` (no `int` overflow), `CalculateGridSize` does not trap, returns that product with the
flag `true` when `gemm_m % block_m == 0` and `gemm_n % block_n == 0`, and returns the failure
pair `(-1, false)` otherwise. -/
theorem CalculateGridSize_spec (c : PerformanceImplicitGemmForwardV4R5Xdlops)
    (p : ProblemDescription) (hm : c.GemmMPerBlock ≠ 0) (hn : c.GemmNPerBlock ≠ 0)
    (hG : 0 < p.GroupCountG) (h1 : p.GroupCountG < 2 ^ 31)
    (h2 : p.OutputChannelK / p.GroupCountG < 2 ^ 31)
    (h3 : p.BatchN * p.OutputHeightHo * p.OutputWidthWo < 2 ^ 31)
    (hfit : |(CalculateGemmSize p).1 * ((CalculateGemmSize p).2.1.tdiv c.GemmMPerBlock) *
      ((CalculateGemmSize p).2.2.1.tdiv c.GemmNPerBlock)| < 2 ^ 31) :
    ((CalculateGemmSize p).1 = p.GroupCountG ∧
      (CalculateGemmSize p).2.1 = (p.OutputChannelK / p.GroupCountG : Nat) ∧
      (CalculateGemmSize p).2.2.1 = (p.BatchN * p.OutputHeightHo * p.OutputWidthWo : Nat)) ∧
    c.CalculateGridSize_traps p = false ∧
    (((CalculateGemmSize p).2.1.tmod c.GemmMPerBlock = 0 ∧
        (CalculateGemmSize p).2.2.1.tmod c.GemmNPerBlock = 0) →
      c.CalculateGridSize p =
        ((CalculateGemmSize p).1 * ((CalculateGemmSize p).2.1.tdiv c.GemmMPerBlock) *
          ((CalculateGemmSize p).2.2.1.tdiv c.GemmNPerBlock), true)) ∧
    (¬ ((CalculateGemmSize p).2.1.tmod c.GemmMPerBlock = 0 ∧
        (CalculateGemmSize p).2.2.1.tmod c.GemmNPerBlock = 0) →
      c.CalculateGridSize p = (-1, false)) := by
  obtain ⟨g1, g2, g3⟩ := CalculateGemmSize_of_lt p h1 h2 h3
  have b := abs_lt.mp hfit
  have e : wrapInt (wrapInt ((CalculateGemmSize p).1 *
      (CalculateGemmSize p).2.1.tdiv c.GemmMPerBlock) *
      (CalculateGemmSize p).2.2.1.tdiv c.GemmNPerBlock) =
      (CalculateGemmSize p).1 * (CalculateGemmSize p).2.1.tdiv c.GemmMPerBlock *
      (CalculateGemmSize p).2.2.1.tdiv c.GemmNPerBlock := by
    rw [wrapInt_mul_left]
    exact wrapInt_of_range (by omega) (by omega)
  refine ⟨⟨g1, g2, g3⟩, ?_, fun h => ?_, fun h => ?_⟩
  · have d1 : divTraps (CalculateGemmSize p).2.1 c.GemmMPerBlock = false :=
      divTraps_eq_false hm (Or.inl (by
        rw [g2]
        exact ne_of_gt (lt_of_lt_of_le (by norm_num) (Int.natCast_nonneg _))))
    have d2 : divTraps (CalculateGemmSize p).2.2.1 c.GemmNPerBlock = false :=
      divTraps_eq_false hn (Or.inl (by
        rw [g3]
        exact ne_of_gt (lt_of_lt_of_le (by norm_num) (Int.natCast_nonneg _))))
    unfold CalculateGridSize_traps
    rw [d1, d2]
    simp
    omega
  · unfold CalculateGridSize
    simp only [h, e, and_self, not_true_eq_false, if_false]
  · unfold CalculateGridSize
    simp [h]

/-- Witness of C6 (amended): the sample config on Scenario A, where `gemm_m = 64` and
`gemm_n = 200704 = 784 * 256`; the grid has `1 * 1 * 784` blocks. -/
theorem CalculateGridSize_spec_witness :
    sampleConfig.GemmMPerBlock ≠ 0 ∧ sampleConfig.GemmNPerBlock ≠ 0 ∧
    sampleConfig.CalculateGridSize_traps sampleProblem = false ∧
    sampleConfig.CalculateGridSize sampleProblem =
      ((CalculateGemmSize sampleProblem).1 *
        ((CalculateGemmSize sampleProblem).2.1.tdiv sampleConfig.GemmMPerBlock) *
        ((CalculateGemmSize sampleProblem).2.2.1.tdiv sampleConfig.GemmNPerBlock), true) :=
  ⟨by decide, by decide,
    (CalculateGridSize_spec sampleConfig sampleProblem (by decide) (by decide) (by decide)
      (by decide) (by decide) (by decide) (abs_lt.mpr ⟨by decide, by decide⟩)).2.1,
    (CalculateGridSize_spec sampleConfig sampleProblem (by decide) (by decide) (by decide)
      (by decide) (by decide) (by decide) (abs_lt.mpr ⟨by decide, by decide⟩)).2.2.1
      (by decide)⟩

/-- The sum of the two block spaces, reduced after every operation as in the source, is the
reduction of the exact sum. -/
theorem block_space_sum_wrapInt (k m n q : Int) :
    wrapInt (wrapInt (wrapInt (k * m) * q) + wrapInt (wrapInt (k * n) * q)) =
      wrapInt (k * m * q + k * n * q) := by
  rw [wrapInt_mul_left, wrapInt_mul_left, wrapInt_add]

theorem CalculateLdsNumberOfByte_eq (c : PerformanceImplicitGemmForwardV4R5Xdlops)
    (p : ProblemDescription) :
    (c.CalculateLdsNumberOfByte p).1 =
      toSizeT (wrapInt (c.GemmKPerBlock * c.GemmMPerBlock * c.GemmKPack +
        c.GemmKPerBlock * c.GemmNPerBlock * c.GemmKPack) *
          ((if p.IsFp32 = true then 4 else 2 : Nat) : Int)) := by
  unfold CalculateLdsNumberOfByte
  simp only [block_space_sum_wrapInt]
  exact toSizeT_mul_mod _ _

/-- The byte count when the sum of the two block spaces is a non-negative `int`. -/
theorem CalculateLdsNumberOfByte_of_fits (c : PerformanceImplicitGemmForwardV4R5Xdlops)
    (p : ProblemDescription)
    (h0 : 0 ≤ c.GemmKPerBlock * c.GemmMPerBlock * c.GemmKPack +
      c.GemmKPerBlock * c.GemmNPerBlock * c.GemmKPack)
    (h1 : c.GemmKPerBlock * c.GemmMPerBlock * c.GemmKPack +
      c.GemmKPerBlock * c.GemmNPerBlock * c.GemmKPack < 2 ^ 31) :
    ((c.CalculateLdsNumberOfByte p).1 : Int) =
      (c.GemmKPerBlock * c.GemmMPerBlock * c.GemmKPack +
        c.GemmKPerBlock * c.GemmNPerBlock * c.GemmKPack) *
          ((if p.IsFp32 = true then 4 else 2 : Nat) : Int) := by
  rw [CalculateLdsNumberOfByte_eq, wrapInt_of_range (by omega) h1]
  have hs : (0 : Int) ≤ ((if p.IsFp32 = true then 4 else 2 : Nat) : Int) ∧
      ((if p.IsFp32 = true then 4 else 2 : Nat) : Int) ≤ 4 := by
    split <;> simp
  generalize ((if p.IsFp32 = true then 4 else 2 : Nat) : Int) = s at hs ⊢
  generalize c.GemmKPerBlock * c.GemmMPerBlock * c.GemmKPack +
    c.GemmKPerBlock * c.GemmNPerBlock * c.GemmKPack = X at h0 h1 ⊢
  have e1 : X * s ≤ X * 4 := mul_le_mul_of_nonneg_left hs.2 h0
  exact toSizeT_of_nonneg _ (mul_nonneg h0 hs.1) (by omega)

/-- Counterexample to C7 as stated: for `block_m = block_k = 65536`, `block_n = 4`,
`k_pack = 1` and an fp32 problem the `int` product `block_k * block_m = 2 ^ 32` wraps to `0`,
and the byte count returned is `(0 + 262144) * 4 = 1048576`, not
`(block_k*block_m*k_pack + block_k*block_n*k_pack) * 4 = 17180917760`; for
`block_m = block_n = 4`, `block_k = -1`, `k_pack = 1` the `int` sum `-8` becomes
`2 ^ 64 - 8` as a `std::size_t`, and the byte count returned is `2 ^ 64 - 32`, not
`-8 * 4 = -32`. -/
theorem CalculateLdsNumberOfByte_overflow :
    sampleProblem.dataType = DataType.fp32 ∧
    (((PerformanceImplicitGemmForwardV4R5Xdlops.mk 65536 4 65536 4 4 1 false false 1
        false).CalculateLdsNumberOfByte sampleProblem) = (1048576, true) ∧
      ((65536 : Int) * 65536 * 1 + 65536 * 4 * 1) * 4 = 17180917760) ∧
    (((PerformanceImplicitGemmForwardV4R5Xdlops.mk 4 4 (-1) 4 4 1 false false 1
        false).CalculateLdsNumberOfByte sampleProblem) = (2 ^ 64 - 32, true) ∧
      ((-1 : Int) * 4 * 1 + -1 * 4 * 1) * 4 = -32) := by
  decide

/-- C7 (amended): `CalculateLdsNumberOfByte` never fails, and for every config in which the sum
`block_k*block_m*k_pack + block_k*block_n*k_pack` is non-negative and below `2 ^ 31` (the
`int` sum is the sum itself) it returns the validity flag true together with
`(block_k*block_m*k_pack + block_k*block_n*k_pack) * s`, where `s = 4` for fp32 and `s = 2` for
the two 16-bit precisions. -/
theorem CalculateLdsNumberOfByte_spec (c : PerformanceImplicitGemmForwardV4R5Xdlops)
    (p : ProblemDescription)
    (h0 : 0 ≤ c.GemmKPerBlock * c.GemmMPerBlock * c.GemmKPack +
      c.GemmKPerBlock * c.GemmNPerBlock * c.GemmKPack)
    (h1 : c.GemmKPerBlock * c.GemmMPerBlock * c.GemmKPack +
      c.GemmKPerBlock * c.GemmNPerBlock * c.GemmKPack < 2 ^ 31) :
    (∀ (d : PerformanceImplicitGemmForwardV4R5Xdlops) (q : ProblemDescription),
      (d.CalculateLdsNumberOfByte q).2 = true) ∧
    (c.CalculateLdsNumberOfByte p).2 = true ∧
    ∀ s : Nat, (p.dataType = DataType.fp32 ∧ s = 4) ∨
        ((p.dataType = DataType.fp16 ∨ p.dataType = DataType.bfp16) ∧ s = 2) →
      ((c.CalculateLdsNumberOfByte p).1 : Int) =
        (c.GemmKPerBlock * c.GemmMPerBlock * c.GemmKPack +
          c.GemmKPerBlock * c.GemmNPerBlock * c.GemmKPack) * s := by
  refine ⟨fun _ _ => rfl, rfl, ?_⟩
  intro s hs
  have hs2 : (if p.IsFp32 = true then 4 else 2) = s := by
    unfold ProblemDescription.IsFp32
    rcases hs with ⟨h, rfl⟩ | ⟨h | h, rfl⟩ <;> simp [h]
  rw [CalculateLdsNumberOfByte_of_fits c p h0 h1, hs2]

/-- Witness of C7 (amended): the sample config on Scenario A (fp32) needs
`(2*64*4 + 2*256*4) * 4 = 10240` bytes. -/
theorem CalculateLdsNumberOfByte_spec_witness :
    sampleProblem.dataType = DataType.fp32 ∧
    ((sampleConfig.CalculateLdsNumberOfByte sampleProblem).1 : Int) =
      (sampleConfig.GemmKPerBlock * sampleConfig.GemmMPerBlock * sampleConfig.GemmKPack +
        sampleConfig.GemmKPerBlock * sampleConfig.GemmNPerBlock * sampleConfig.GemmKPack) *
          ((4 : Nat) : Int) :=
  ⟨rfl, (CalculateLdsNumberOfByte_spec sampleConfig sampleProblem (by decide)
    (by decide)).2.2 4 (Or.inl ⟨rfl, rfl⟩)⟩

theorem block_space_mono {k m n q k2 m2 n2 q2 : Int} (hk : 0 ≤ k) (hm : 0 ≤ m) (hn : 0 ≤ n)
    (hq : 0 ≤ q) (hk2 : k ≤ k2) (hm2 : m ≤ m2) (hn2 : n ≤ n2) (hq2 : q ≤ q2) :
    0 ≤ k * m * q + k * n * q ∧ k * m * q + k * n * q ≤ k2 * m2 * q2 + k2 * n2 * q2 := by
  have a1 : k * m ≤ k2 * m2 := mul_le_mul hk2 hm2 hm (le_trans hk hk2)
  have a2 : k * n ≤ k2 * n2 := mul_le_mul hk2 hn2 hn (le_trans hk hk2)
  have b1 : k * m * q ≤ k2 * m2 * q2 :=
    mul_le_mul a1 hq2 hq (le_trans (mul_nonneg hk hm) a1)
  have b2 : k * n * q ≤ k2 * n2 * q2 :=
    mul_le_mul a2 hq2 hq (le_trans (mul_nonneg hk hn) a2)
  have c1 : 0 ≤ k * m * q := mul_nonneg (mul_nonneg hk hm) hq
  have c2 : 0 ≤ k * n * q := mul_nonneg (mul_nonneg hk hn) hq
  omega

/-- Counterexample to C8 as stated: two configs that differ only in `block_m` (4 and 8), with
`block_k = -1`: the config with the larger `block_m` has the smaller LDS byte count
(`2 ^ 64 - 48` against `2 ^ 64 - 32`); and two configs with positive fields that differ only in
`block_m` (`2 ^ 28` and `2 ^ 30`), with `block_k = k_pack = 2`: the `int` product
`2 * 2 ^ 30 * 2` wraps to `0`, and the config with the larger `block_m` has the smaller LDS
byte count (`64` against `4294967360`). -/
theorem CalculateLdsNumberOfByte_not_monotone :
    (((PerformanceImplicitGemmForwardV4R5Xdlops.mk 4 4 (-1) 4 4 1 false false 1
        false).CalculateLdsNumberOfByte sampleProblem).1 = 2 ^ 64 - 32 ∧
      ((PerformanceImplicitGemmForwardV4R5Xdlops.mk 8 4 (-1) 4 4 1 false false 1
        false).CalculateLdsNumberOfByte sampleProblem).1 = 2 ^ 64 - 48 ∧
      ¬ (((PerformanceImplicitGemmForwardV4R5Xdlops.mk 4 4 (-1) 4 4 1 false false 1
          false).CalculateLdsNumberOfByte sampleProblem).1 ≤
        ((PerformanceImplicitGemmForwardV4R5Xdlops.mk 8 4 (-1) 4 4 1 false false 1
          false).CalculateLdsNumberOfByte sampleProblem).1)) ∧
    (((PerformanceImplicitGemmForwardV4R5Xdlops.mk (2 ^ 28) 4 2 4 4 2 false false 1
        false).CalculateLdsNumberOfByte sampleProblem).1 = 4294967360 ∧
      ((PerformanceImplicitGemmForwardV4R5Xdlops.mk (2 ^ 30) 4 2 4 4 2 false false 1
        false).CalculateLdsNumberOfByte sampleProblem).1 = 64 ∧
      ¬ (((PerformanceImplicitGemmForwardV4R5Xdlops.mk (2 ^ 28) 4 2 4 4 2 false false 1
          false).CalculateLdsNumberOfByte sampleProblem).1 ≤
        ((PerformanceImplicitGemmForwardV4R5Xdlops.mk (2 ^ 30) 4 2 4 4 2 false false 1
          false).CalculateLdsNumberOfByte sampleProblem).1)) := by
  decide

/-- C8 (amended): for a fixed precision, the LDS byte count is monotonically non-decreasing in
`block_m`, `block_n`, `block_k` and `k_pack` on configs in which these four fields are
non-negative and the sum `block_k*block_m*k_pack + block_k*block_n*k_pack` is below `2 ^ 31`
(no `int` overflow; in particular on configs that satisfy `IsValidValue`): if the four fields
of `c` are non-negative and at most those of `d`, and the sum of `d` is below `2 ^ 31`, then
the byte count of `c` is at most that of `d`. -/
theorem CalculateLdsNumberOfByte_mono (p : ProblemDescription)
    (c d : PerformanceImplicitGemmForwardV4R5Xdlops)
    (h0 : 0 ≤ c.GemmMPerBlock ∧ 0 ≤ c.GemmNPerBlock ∧ 0 ≤ c.GemmKPerBlock ∧ 0 ≤ c.GemmKPack)
    (hle : c.GemmMPerBlock ≤ d.GemmMPerBlock ∧ c.GemmNPerBlock ≤ d.GemmNPerBlock ∧
      c.GemmKPerBlock ≤ d.GemmKPerBlock ∧ c.GemmKPack ≤ d.GemmKPack)
    (hfit : d.GemmKPerBlock * d.GemmMPerBlock * d.GemmKPack +
      d.GemmKPerBlock * d.GemmNPerBlock * d.GemmKPack < 2 ^ 31) :
    (c.CalculateLdsNumberOfByte p).1 ≤ (d.CalculateLdsNumberOfByte p).1 := by
  obtain ⟨hm, hn, hk, hq⟩ := h0
  obtain ⟨hm2, hn2, hk2, hq2⟩ := hle
  obtain ⟨x0, xle⟩ := block_space_mono hk hm hn hq hk2 hm2 hn2 hq2
  have f1 := CalculateLdsNumberOfByte_of_fits c p x0 (by omega)
  have f2 := CalculateLdsNumberOfByte_of_fits d p (le_trans x0 xle) hfit
  have hs : (0 : Int) ≤ ((if p.IsFp32 = true then 4 else 2 : Nat) : Int) := by
    split <;> simp
  have : ((c.CalculateLdsNumberOfByte p).1 : Int) ≤ ((d.CalculateLdsNumberOfByte p).1 : Int) := by
    rw [f1, f2]
    exact mul_le_mul_of_nonneg_right xle hs
  exact_mod_cast this

/-- Witness of C8 (amended): the sample config against the same config with `block_m`
doubled. -/
theorem CalculateLdsNumberOfByte_mono_witness :
    (sampleConfig.CalculateLdsNumberOfByte sampleProblem).1 ≤
      (({ sampleConfig with GemmMPerBlock := 128 } :
        PerformanceImplicitGemmForwardV4R5Xdlops).CalculateLdsNumberOfByte sampleProblem).1 :=
  CalculateLdsNumberOfByte_mono sampleProblem sampleConfig
    { sampleConfig with GemmMPerBlock := 128 } (by decide) (by decide) (by decide)

/-! ## Mixed-radix counters -/

namespace Odometer

theorem value_lt : ∀ (rs ds : List Nat), WellFormed rs ds → value rs ds < rs.prod
  | [], [], _ => by simp [value]
  | [], _ :: _, h => by simp [WellFormed] at h
  | _ :: _, [], h => by simp [WellFormed] at h
  | r :: rs, d :: ds, h => by
    obtain ⟨h1, h2⟩ := h
    have ih := value_lt rs ds h2
    simp only [value, List.prod_cons]
    calc d + r * value rs ds < r + r * value rs ds := by omega
      _ = r * (value rs ds + 1) := by ring
      _ ≤ r * rs.prod := Nat.mul_le_mul_left r ih

theorem step_spec : ∀ (rs ds : List Nat), WellFormed rs ds →
    WellFormed rs (step rs ds).1 ∧
    value rs (step rs ds).1 = (value rs ds + 1) % rs.prod ∧
    ((step rs ds).2 = true ↔ value rs ds + 1 = rs.prod)
  | [], [], _ => by simp [step, value, WellFormed]
  | [], _ :: _, h => by simp [WellFormed] at h
  | _ :: _, [], h => by simp [WellFormed] at h
  | r :: rs, d :: ds, h => by
    obtain ⟨h1, h2⟩ := h
    obtain ⟨ih1, ih2, ih3⟩ := step_spec rs ds h2
    have hv := value_lt rs ds h2
    have hlt : d + r * value rs ds < r * rs.prod := by
      calc d + r * value rs ds < r + r * value rs ds := by omega
        _ = r * (value rs ds + 1) := by ring
        _ ≤ r * rs.prod := Nat.mul_le_mul_left r hv
    by_cases hd : d + 1 < r
    · simp only [step, hd, if_true, value, List.prod_cons]
      have e2 : r * value rs ds + r = r * (value rs ds + 1) := by ring
      have e3 : r * (value rs ds + 1) ≤ r * rs.prod := Nat.mul_le_mul_left r hv
      refine ⟨⟨hd, h2⟩, ?_, ?_⟩
      · rw [Nat.mod_eq_of_lt (by omega)]
        omega
      · simp only [Bool.false_eq_true, false_iff]
        omega
    · have hd2 : d + 1 = r := by omega
      simp only [step, hd, if_false, value, List.prod_cons]
      refine ⟨⟨by omega, ih1⟩, ?_, ?_⟩
      · rw [ih2]
        have e : d + r * value rs ds + 1 = r * (value rs ds + 1) := by rw [← hd2]; ring
        rw [e, Nat.mul_mod_mul_left]
        simp
      · rw [ih3]
        have e : d + r * value rs ds + 1 = r * (value rs ds + 1) := by rw [← hd2]; ring
        rw [e]
        constructor
        · intro h; rw [h]
        · intro h; exact Nat.eq_of_mul_eq_mul_left (by omega) h

theorem digits_value : ∀ (rs ds : List Nat), WellFormed rs ds → digits rs (value rs ds) = ds
  | [], [], _ => by simp [digits]
  | [], _ :: _, h => by simp [WellFormed] at h
  | _ :: _, [], h => by simp [WellFormed] at h
  | r :: rs, d :: ds, h => by
    obtain ⟨h1, h2⟩ := h
    have ih := digits_value rs ds h2
    simp only [digits, value]
    have e1 : (d + r * value rs ds) % r = d := by
      rw [Nat.add_mul_mod_self_left, Nat.mod_eq_of_lt h1]
    have e2 : (d + r * value rs ds) / r = value rs ds := by
      rw [Nat.add_mul_div_left _ _ (by omega), Nat.div_eq_of_lt h1, Nat.zero_add]
    rw [e1, e2, ih]

theorem wellFormed_digits : ∀ (rs : List Nat) (n : Nat), (∀ r ∈ rs, 0 < r) →
    WellFormed rs (digits rs n)
  | [], _, _ => by simp [digits, WellFormed]
  | r :: rs, n, h => by
    simp only [digits, WellFormed]
    exact ⟨Nat.mod_lt _ (h r (List.mem_cons_self _ _)),
      wellFormed_digits rs (n / r) (fun x hx => h x (List.mem_cons_of_mem _ hx))⟩

theorem value_digits : ∀ (rs : List Nat) (n : Nat), (∀ r ∈ rs, 0 < r) → n < rs.prod →
    value rs (digits rs n) = n
  | [], n, _, hn => by simp at hn; simp [digits, value, hn]
  | r :: rs, n, h, hn => by
    have hr : 0 < r := h r (List.mem_cons_self _ _)
    have hq : n / r < rs.prod := by
      rw [List.prod_cons] at hn
      exact Nat.div_lt_of_lt_mul hn
    have ih := value_digits rs (n / r) (fun x hx => h x (List.mem_cons_of_mem _ hx)) hq
    simp only [digits, value, ih]
    exact Nat.mod_add_div n r

/-- Stepping the digits of `n` gives the digits of `n + 1`, or wraps to zero at the end. -/
theorem step_digits (rs : List Nat) (n : Nat) (hpos : ∀ r ∈ rs, 0 < r) (hn : n < rs.prod) :
    (step rs (digits rs n)).1 = digits rs ((n + 1) % rs.prod) ∧
    ((step rs (digits rs n)).2 = true ↔ n + 1 = rs.prod) := by
  have hw := wellFormed_digits rs n hpos
  obtain ⟨h1, h2, h3⟩ := step_spec rs (digits rs n) hw
  rw [value_digits rs n hpos hn] at h2 h3
  refine ⟨?_, h3⟩
  rw [← h2, digits_value rs _ h1]

end Odometer

/-! ## The enumerator -/

theorem NextTwoPower_1_8 (d : Nat) (h : d < 4) :
    NextTwoPower 1 8 (2 ^ d) = if d + 1 < 4 then (2 ^ (d + 1), false) else (2 ^ 0, true) := by
  interval_cases d <;> decide

theorem NextTwoPower_4_128 (d : Nat) (h : d < 6) :
    NextTwoPower 4 128 (2 ^ (2 + d)) =
      if d + 1 < 6 then (2 ^ (2 + (d + 1)), false) else (2 ^ (2 + 0), true) := by
  interval_cases d <;> decide

theorem NextTwoPower_4_256 (d : Nat) (h : d < 7) :
    NextTwoPower 4 256 (2 ^ (2 + d)) =
      if d + 1 < 7 then (2 ^ (2 + (d + 1)), false) else (2 ^ (2 + 0), true) := by
  interval_cases d <;> decide

theorem SetNextValue_searchConfig (ctx : ConvolutionContext) (t b a kp wn wm bk bn bm : Nat)
    (ht : t < (if ctx.ADD_VECTOR_LOAD_GEMMN_TUNE_PARAM then 4 else 1)) (hb : b < 2) (ha : a < 1)
    (hkp : kp < 4) (hwn : wn < 6) (hwm : wm < 6) (hbk : bk < 4) (hbn : bn < 7) (hbm : bm < 7) :
    SetNextValue ctx (searchConfig [t, b, a, kp, wn, wm, bk, bn, bm]) =
      (searchConfig (Odometer.step (searchRadices ctx.ADD_VECTOR_LOAD_GEMMN_TUNE_PARAM)
          [t, b, a, kp, wn, wm, bk, bn, bm]).1,
        !(Odometer.step (searchRadices ctx.ADD_VECTOR_LOAD_GEMMN_TUNE_PARAM)
          [t, b, a, kp, wn, wm, bk, bn, bm]).2) := by
  have hb2 : b = 0 ∨ b = 1 := by omega
  have ha0 : a = 0 := by omega
  subst ha0
  cases htune : ctx.ADD_VECTOR_LOAD_GEMMN_TUNE_PARAM
  · rw [htune] at ht
    have ht0 : t = 0 := by simpa using ht
    subst ht0
    simp only [SetNextValue, searchConfig, searchRadices, Odometer.step, htune,
      NextTwoPower_1_8 _ hkp, NextTwoPower_1_8 _ hbk, NextTwoPower_4_128 _ hwn,
      NextTwoPower_4_128 _ hwm, NextTwoPower_4_256 _ hbn, NextTwoPower_4_256 _ hbm, NextFlag]
    rcases hb2 with rfl | rfl
    · simp
    · by_cases c1 : kp + 1 < 4
      · simp [c1]
      · by_cases c2 : wn + 1 < 6
        · simp [c1, c2]
        · by_cases c3 : wm + 1 < 6
          · simp [c1, c2, c3]
          · by_cases c4 : bk + 1 < 4
            · simp [c1, c2, c3, c4]
            · by_cases c5 : bn + 1 < 7
              · simp [c1, c2, c3, c4, c5]
              · by_cases c6 : bm + 1 < 7
                · simp [c1, c2, c3, c4, c5, c6]
                · simp [c1, c2, c3, c4, c5, c6]
  · rw [htune] at ht
    have ht4 : t < 4 := by simpa using ht
    simp only [SetNextValue, searchConfig, searchRadices, Odometer.step, htune,
      NextTwoPower_1_8 _ ht4,
      NextTwoPower_1_8 _ hkp, NextTwoPower_1_8 _ hbk, NextTwoPower_4_128 _ hwn,
      NextTwoPower_4_128 _ hwm, NextTwoPower_4_256 _ hbn, NextTwoPower_4_256 _ hbm, NextFlag]
    by_cases c0 : t + 1 < 4
    · simp [c0]
    · simp only [c0, if_false, if_true]
      rcases hb2 with rfl | rfl
      · simp
      · by_cases c1 : kp + 1 < 4
        · simp [c1]
        · by_cases c2 : wn + 1 < 6
          · simp [c1, c2]
          · by_cases c3 : wm + 1 < 6
            · simp [c1, c2, c3]
            · by_cases c4 : bk + 1 < 4
              · simp [c1, c2, c3, c4]
              · by_cases c5 : bn + 1 < 7
                · simp [c1, c2, c3, c4, c5]
                · by_cases c6 : bm + 1 < 7
                  · simp [c1, c2, c3, c4, c5, c6]
                  · simp [c1, c2, c3, c4, c5, c6]

theorem ilog2_two_pow (k : Nat) : ilog2 ((2 : Int) ^ k) = k := by
  unfold ilog2
  have h2 : ((2 : Int) ^ k) = ((2 ^ k : Nat) : Int) := by push_cast; rfl
  rw [h2, Int.toNat_natCast, Nat.log2_two_pow]

/-- A field accepted by `IsTwoPower<2^a, 2^(a+n)>` is `2 ^ (a + d)` for the digit
`d = ilog2 v - a`, and `2 ^ (a + n - e)` for the digit `e = a + n - ilog2 v`. -/
theorem IsTwoPower_digits {L H v : Int} (a n : Nat) (hL : L = 2 ^ a) (hH : H = 2 ^ (a + n))
    (hn : a + n < 31) (h : IsTwoPower L H v = true) :
    (ilog2 v - a < n + 1 ∧ (2 : Int) ^ (a + (ilog2 v - a)) = v) ∧
    (a + n - ilog2 v < n + 1 ∧ (2 : Int) ^ (a + n - (a + n - ilog2 v)) = v) := by
  have hH31 : H < 2 ^ 31 := by
    rw [hH]
    exact (pow_lt_pow_iff_right₀ (by norm_num : (1 : Int) < 2)).mpr hn
  obtain ⟨⟨k, rfl⟩, h1, h2⟩ := (IsTwoPower_iff L H v hH31).mp h
  rw [hL] at h1
  rw [hH] at h2
  have k1 : a ≤ k := (pow_le_pow_iff_right₀ (by norm_num : (1 : Int) < 2)).mp h1
  have k2 : k ≤ a + n := (pow_le_pow_iff_right₀ (by norm_num : (1 : Int) < 2)).mp h2
  rw [ilog2_two_pow]
  have e1 : a + (k - a) = k := by omega
  have e2 : a + n - (a + n - k) = k := by omega
  rw [e1, e2]
  exact ⟨⟨by omega, rfl⟩, ⟨by omega, rfl⟩⟩

theorem IsTwoPower_two_pow {L H : Int} (a n d : Nat) (hL : L = 2 ^ a) (hH : H = 2 ^ (a + n))
    (hn : a + n < 31) (hd : d < n + 1) : IsTwoPower L H (2 ^ (a + d)) = true := by
  have hH31 : H < 2 ^ 31 := by
    rw [hH]
    exact (pow_lt_pow_iff_right₀ (by norm_num : (1 : Int) < 2)).mpr hn
  rw [IsTwoPower_iff L H _ hH31, hL, hH]
  exact ⟨⟨_, rfl⟩, (pow_le_pow_iff_right₀ (by norm_num : (1 : Int) < 2)).mpr (by omega),
    (pow_le_pow_iff_right₀ (by norm_num : (1 : Int) < 2)).mpr (by omega)⟩

theorem searchRadices_pos (tune : Bool) : ∀ r ∈ searchRadices tune, 0 < r := by
  cases tune <;> simp [searchRadices]

theorem searchRadices_prod (tune : Bool) :
    (searchRadices tune).prod = (if tune then 4 else 1) * 56448 := by
  cases tune <;> rfl

theorem digits_searchRadices (tune : Bool) (n : Nat) :
    Odometer.digits (searchRadices tune) n =
      [n % (if tune then 4 else 1), n / (if tune then 4 else 1) % 2,
        n / (if tune then 4 else 1) / 2 % 1, n / (if tune then 4 else 1) / 2 / 1 % 4,
        n / (if tune then 4 else 1) / 2 / 1 / 4 % 6,
        n / (if tune then 4 else 1) / 2 / 1 / 4 / 6 % 6,
        n / (if tune then 4 else 1) / 2 / 1 / 4 / 6 / 6 % 4,
        n / (if tune then 4 else 1) / 2 / 1 / 4 / 6 / 6 / 4 % 7,
        n / (if tune then 4 else 1) / 2 / 1 / 4 / 6 / 6 / 4 / 7 % 7] := rfl

/-- One call of `SetNextValue` on the config number `n` gives the config number `n + 1`
and returns true, or wraps to the config number `0` and returns false. -/
theorem SetNextValue_digits (ctx : ConvolutionContext) (n : Nat)
    (hn : n < (searchRadices ctx.ADD_VECTOR_LOAD_GEMMN_TUNE_PARAM).prod) :
    SetNextValue ctx
        (searchConfig (Odometer.digits (searchRadices ctx.ADD_VECTOR_LOAD_GEMMN_TUNE_PARAM) n)) =
      (searchConfig (Odometer.digits (searchRadices ctx.ADD_VECTOR_LOAD_GEMMN_TUNE_PARAM)
          ((n + 1) % (searchRadices ctx.ADD_VECTOR_LOAD_GEMMN_TUNE_PARAM).prod)),
        decide (n + 1 < (searchRadices ctx.ADD_VECTOR_LOAD_GEMMN_TUNE_PARAM).prod)) := by
  obtain ⟨h1, h2⟩ := Odometer.step_digits _ n (searchRadices_pos _) hn
  have hpos : 0 < (if ctx.ADD_VECTOR_LOAD_GEMMN_TUNE_PARAM = true then 4 else 1) := by
    split <;> decide
  have key := SetNextValue_searchConfig ctx
    (n % (if ctx.ADD_VECTOR_LOAD_GEMMN_TUNE_PARAM then 4 else 1))
    (n / (if ctx.ADD_VECTOR_LOAD_GEMMN_TUNE_PARAM then 4 else 1) % 2)
    (n / (if ctx.ADD_VECTOR_LOAD_GEMMN_TUNE_PARAM then 4 else 1) / 2 % 1)
    (n / (if ctx.ADD_VECTOR_LOAD_GEMMN_TUNE_PARAM then 4 else 1) / 2 / 1 % 4)
    (n / (if ctx.ADD_VECTOR_LOAD_GEMMN_TUNE_PARAM then 4 else 1) / 2 / 1 / 4 % 6)
    (n / (if ctx.ADD_VECTOR_LOAD_GEMMN_TUNE_PARAM then 4 else 1) / 2 / 1 / 4 / 6 % 6)
    (n / (if ctx.ADD_VECTOR_LOAD_GEMMN_TUNE_PARAM then 4 else 1) / 2 / 1 / 4 / 6 / 6 % 4)
    (n / (if ctx.ADD_VECTOR_LOAD_GEMMN_TUNE_PARAM then 4 else 1) / 2 / 1 / 4 / 6 / 6 / 4 % 7)
    (n / (if ctx.ADD_VECTOR_LOAD_GEMMN_TUNE_PARAM then 4 else 1) / 2 / 1 / 4 / 6 / 6 / 4 / 7 % 7)
    (Nat.mod_lt _ hpos) (Nat.mod_lt _ (by decide)) (Nat.mod_lt _ (by decide))
    (Nat.mod_lt _ (by decide)) (Nat.mod_lt _ (by decide)) (Nat.mod_lt _ (by decide))
    (Nat.mod_lt _ (by decide)) (Nat.mod_lt _ (by decide)) (Nat.mod_lt _ (by decide))
  rw [← digits_searchRadices] at key
  rw [key, h1]
  congr 1
  have hle : n + 1 ≤ (searchRadices ctx.ADD_VECTOR_LOAD_GEMMN_TUNE_PARAM).prod := hn
  cases hs : (Odometer.step (searchRadices ctx.ADD_VECTOR_LOAD_GEMMN_TUNE_PARAM)
      (Odometer.digits (searchRadices ctx.ADD_VECTOR_LOAD_GEMMN_TUNE_PARAM) n)).2
  · have : ¬ (n + 1 = (searchRadices ctx.ADD_VECTOR_LOAD_GEMMN_TUNE_PARAM).prod) := by
      rw [← h2, hs]; decide
    simp only [Bool.not_false]
    exact (decide_eq_true (by omega)).symm
  · have : n + 1 = (searchRadices ctx.ADD_VECTOR_LOAD_GEMMN_TUNE_PARAM).prod := h2.mp hs
    simp only [Bool.not_true]
    exact (decide_eq_false (by omega)).symm

theorem searchConfig_zero (tune : Bool) :
    searchConfig (Odometer.digits (searchRadices tune) 0) =
      PerformanceImplicitGemmForwardV4R5Xdlops.default := by
  cases tune <;> decide

/-- After `k` calls of `SetNextValue` the default config has become the config number
`k % P`. -/
theorem SetNextValue_iterate_default (ctx : ConvolutionContext) (k : Nat) :
    SetNextValue_iterate ctx k PerformanceImplicitGemmForwardV4R5Xdlops.default =
      searchConfig (Odometer.digits (searchRadices ctx.ADD_VECTOR_LOAD_GEMMN_TUNE_PARAM)
        (k % (searchRadices ctx.ADD_VECTOR_LOAD_GEMMN_TUNE_PARAM).prod)) := by
  have hP : 0 < (searchRadices ctx.ADD_VECTOR_LOAD_GEMMN_TUNE_PARAM).prod := by
    rw [searchRadices_prod]; split <;> decide
  induction k with
  | zero =>
    simp only [SetNextValue_iterate, Function.iterate_zero, id_eq, Nat.zero_mod]
    exact (searchConfig_zero _).symm
  | succ k ih =>
    unfold SetNextValue_iterate at ih ⊢
    rw [Function.iterate_succ_apply', ih, SetNextValue_digits ctx _ (Nat.mod_lt _ hP)]
    simp only [Nat.mod_add_mod]

theorem searchDigits_searchConfig (t b a kp wn wm bk bn bm : Nat) (hb : b < 2) (ha : a < 1) :
    searchDigits (searchConfig [t, b, a, kp, wn, wm, bk, bn, bm]) =
      [t, b, a, kp, wn, wm, bk, bn, bm] := by
  have hb2 : b = 0 ∨ b = 1 := by omega
  have ha0 : a = 0 := by omega
  subst ha0
  rcases hb2 with rfl | rfl <;> simp [searchDigits, searchConfig, ilog2_two_pow]

theorem searchDigits_digits (tune : Bool) (n : Nat) :
    searchDigits (searchConfig (Odometer.digits (searchRadices tune) n)) =
      Odometer.digits (searchRadices tune) n := by
  rw [digits_searchRadices]
  exact searchDigits_searchConfig _ _ _ _ _ _ _ _ _ (Nat.mod_lt _ (by decide))
    (Nat.mod_lt _ (by decide))

theorem searchConfig_digits_injective (tune : Bool) (i j : Nat)
    (hi : i < (searchRadices tune).prod) (hj : j < (searchRadices tune).prod)
    (h : searchConfig (Odometer.digits (searchRadices tune) i) =
      searchConfig (Odometer.digits (searchRadices tune) j)) : i = j := by
  have h2 := congrArg searchDigits h
  rw [searchDigits_digits, searchDigits_digits] at h2
  have h3 := congrArg (Odometer.value (searchRadices tune)) h2
  rwa [Odometer.value_digits _ _ (searchRadices_pos _) hi,
    Odometer.value_digits _ _ (searchRadices_pos _) hj] at h3

theorem inSearchLattice_searchConfig (tune : Bool) (t b a kp wn wm bk bn bm : Nat)
    (ht : t < (if tune then 4 else 1)) (hkp : kp < 4) (hwn : wn < 6) (hwm : wm < 6)
    (hbk : bk < 4) (hbn : bn < 7) (hbm : bm < 7) :
    inSearchLattice tune (searchConfig [t, b, a, kp, wn, wm, bk, bn, bm]) = true := by
  have f1 := IsTwoPower_two_pow (L := 4) (H := 256) 2 6 bm (by norm_num) (by norm_num)
    (by norm_num) hbm
  have f2 := IsTwoPower_two_pow (L := 4) (H := 256) 2 6 bn (by norm_num) (by norm_num)
    (by norm_num) hbn
  have f3 := IsTwoPower_two_pow (L := 1) (H := 8) 0 3 bk (by norm_num) (by norm_num)
    (by norm_num) hbk
  have f4 := IsTwoPower_two_pow (L := 4) (H := 128) 2 5 wm (by norm_num) (by norm_num)
    (by norm_num) hwm
  have f5 := IsTwoPower_two_pow (L := 4) (H := 128) 2 5 wn (by norm_num) (by norm_num)
    (by norm_num) hwn
  have f6 := IsTwoPower_two_pow (L := 1) (H := 8) 0 3 kp (by norm_num) (by norm_num)
    (by norm_num) hkp
  rw [Nat.zero_add] at f3 f6
  cases tune
  · have ht0 : t = 0 := by simpa using ht
    subst ht0
    simp [inSearchLattice, searchConfig, f1, f2, f3, f4, f5, f6]
  · have ht4 : t < 4 := by simpa using ht
    have f7 := IsTwoPower_two_pow (L := 1) (H := 8) 0 3 t (by norm_num) (by norm_num)
      (by norm_num) ht4
    rw [Nat.zero_add] at f7
    simp [inSearchLattice, searchConfig, f1, f2, f3, f4, f5, f6, f7]

theorem inSearchLattice_digits (tune : Bool) (n : Nat) :
    inSearchLattice tune (searchConfig (Odometer.digits (searchRadices tune) n)) = true := by
  rw [digits_searchRadices]
  have hpos : 0 < (if tune = true then 4 else 1) := by split <;> decide
  exact inSearchLattice_searchConfig tune _ _ _ _ _ _ _ _ _ (Nat.mod_lt _ hpos)
    (Nat.mod_lt _ (by decide)) (Nat.mod_lt _ (by decide)) (Nat.mod_lt _ (by decide))
    (Nat.mod_lt _ (by decide)) (Nat.mod_lt _ (by decide)) (Nat.mod_lt _ (by decide))

theorem searchDigits_of_inSearchLattice (tune : Bool)
    (c : PerformanceImplicitGemmForwardV4R5Xdlops) (h : inSearchLattice tune c = true) :
    Odometer.WellFormed (searchRadices tune) (searchDigits c) ∧
    searchConfig (searchDigits c) = c := by
  obtain ⟨bm, bn, bk, wm, wn, kp, fa, fb, t, sp⟩ := c
  simp only [inSearchLattice, Bool.and_eq_true, Bool.not_eq_true', and_assoc] at h
  obtain ⟨h1, h2, h3, h4, h5, h6, h7, h8, h9⟩ := h
  subst h7 h9
  obtain ⟨⟨a1, b1⟩, -⟩ := IsTwoPower_digits (L := 4) (H := 256) 2 6 (by norm_num) (by norm_num)
    (by norm_num) h1
  obtain ⟨⟨a2, b2⟩, -⟩ := IsTwoPower_digits (L := 4) (H := 256) 2 6 (by norm_num) (by norm_num)
    (by norm_num) h2
  obtain ⟨⟨a3, b3⟩, -⟩ := IsTwoPower_digits (L := 1) (H := 8) 0 3 (by norm_num) (by norm_num)
    (by norm_num) h3
  obtain ⟨⟨a4, b4⟩, -⟩ := IsTwoPower_digits (L := 4) (H := 128) 2 5 (by norm_num) (by norm_num)
    (by norm_num) h4
  obtain ⟨⟨a5, b5⟩, -⟩ := IsTwoPower_digits (L := 4) (H := 128) 2 5 (by norm_num) (by norm_num)
    (by norm_num) h5
  obtain ⟨⟨a6, b6⟩, -⟩ := IsTwoPower_digits (L := 1) (H := 8) 0 3 (by norm_num) (by norm_num)
    (by norm_num) h6
  simp only [Nat.zero_add, Nat.sub_zero] at a3 b3 a6 b6
  have ht : ilog2 t < (if tune = true then 4 else 1) ∧ (2 : Int) ^ ilog2 t = t := by
    cases tune
    · have ht1 : t = 1 := by simpa using h8
      subst ht1
      have := ilog2_two_pow 0
      simp only [pow_zero] at this
      simp [this]
    · have h8b : IsTwoPower 1 8 t = true := by simpa using h8
      obtain ⟨⟨a7, b7⟩, -⟩ := IsTwoPower_digits (L := 1) (H := 8) 0 3 (by norm_num)
        (by norm_num) (by norm_num) h8b
      simp only [Nat.zero_add, Nat.sub_zero] at a7 b7
      exact ⟨by simpa using a7, b7⟩
  refine ⟨?_, ?_⟩
  · simp only [searchDigits, searchRadices, Odometer.WellFormed, and_true]
    refine ⟨ht.1, by split <;> decide, by decide, a6, a5, a4, a3, a2, a1⟩
  · simp only [searchDigits, searchConfig, b1, b2, b3, b4, b5, b6, ht.2]
    cases fb <;> simp

/-- C9: starting from the default config, repeated `SetNextValue` calls visit every point of
the lattice exactly once.  With `P` the product of the range sizes and `cfg k` the config held
after `k` calls: the configs `cfg 0, ..., cfg (P - 1)` (held before calls `1..P`) are pairwise
distinct, lie in the lattice and cover it; calls `1..P-1` return true; call `P` returns false
and leaves the config equal to the starting one. -/
theorem SetNextValue_enumerates_lattice (ctx : ConvolutionContext) :
    (∀ i j, i < searchSpaceSize ctx.ADD_VECTOR_LOAD_GEMMN_TUNE_PARAM →
      j < searchSpaceSize ctx.ADD_VECTOR_LOAD_GEMMN_TUNE_PARAM →
      SetNextValue_iterate ctx i PerformanceImplicitGemmForwardV4R5Xdlops.default =
        SetNextValue_iterate ctx j PerformanceImplicitGemmForwardV4R5Xdlops.default → i = j) ∧
    (∀ i, i < searchSpaceSize ctx.ADD_VECTOR_LOAD_GEMMN_TUNE_PARAM →
      inSearchLattice ctx.ADD_VECTOR_LOAD_GEMMN_TUNE_PARAM
        (SetNextValue_iterate ctx i PerformanceImplicitGemmForwardV4R5Xdlops.default) = true) ∧
    (∀ c, inSearchLattice ctx.ADD_VECTOR_LOAD_GEMMN_TUNE_PARAM c = true →
      ∃ i, i < searchSpaceSize ctx.ADD_VECTOR_LOAD_GEMMN_TUNE_PARAM ∧
        SetNextValue_iterate ctx i PerformanceImplicitGemmForwardV4R5Xdlops.default = c) ∧
    (∀ k, k + 1 < searchSpaceSize ctx.ADD_VECTOR_LOAD_GEMMN_TUNE_PARAM →
      (SetNextValue ctx
        (SetNextValue_iterate ctx k PerformanceImplicitGemmForwardV4R5Xdlops.default)).2 = true) ∧
    (SetNextValue ctx
      (SetNextValue_iterate ctx (searchSpaceSize ctx.ADD_VECTOR_LOAD_GEMMN_TUNE_PARAM - 1)
        PerformanceImplicitGemmForwardV4R5Xdlops.default)).2 = false ∧
    SetNextValue_iterate ctx (searchSpaceSize ctx.ADD_VECTOR_LOAD_GEMMN_TUNE_PARAM)
      PerformanceImplicitGemmForwardV4R5Xdlops.default =
        PerformanceImplicitGemmForwardV4R5Xdlops.default := by
  have hP : searchSpaceSize ctx.ADD_VECTOR_LOAD_GEMMN_TUNE_PARAM =
      (searchRadices ctx.ADD_VECTOR_LOAD_GEMMN_TUNE_PARAM).prod := by
    cases ctx.ADD_VECTOR_LOAD_GEMMN_TUNE_PARAM <;> rfl
  rw [hP]
  have hpos : 0 < (searchRadices ctx.ADD_VECTOR_LOAD_GEMMN_TUNE_PARAM).prod := by
    rw [searchRadices_prod]; split <;> decide
  refine ⟨?_, ?_, ?_, ?_, ?_, ?_⟩
  · intro i j hi hj h
    rw [SetNextValue_iterate_default, SetNextValue_iterate_default, Nat.mod_eq_of_lt hi,
      Nat.mod_eq_of_lt hj] at h
    exact searchConfig_digits_injective _ i j hi hj h
  · intro i _
    rw [SetNextValue_iterate_default]
    exact inSearchLattice_digits _ _
  · intro c hc
    obtain ⟨hw, hc2⟩ := searchDigits_of_inSearchLattice _ c hc
    refine ⟨Odometer.value _ (searchDigits c), Odometer.value_lt _ _ hw, ?_⟩
    rw [SetNextValue_iterate_default, Nat.mod_eq_of_lt (Odometer.value_lt _ _ hw),
      Odometer.digits_value _ _ hw, hc2]
  · intro k hk
    rw [SetNextValue_iterate_default, Nat.mod_eq_of_lt (by omega),
      SetNextValue_digits ctx k (by omega)]
    exact decide_eq_true hk
  · rw [SetNextValue_iterate_default, Nat.mod_eq_of_lt (by omega),
      SetNextValue_digits ctx _ (by omega)]
    exact decide_eq_false (by omega)
  · rw [SetNextValue_iterate_default, Nat.mod_self]
    exact searchConfig_zero _

/-- Witness of C9: with the tuning toggle off, the first call on the default config returns
true. -/
theorem SetNextValue_enumerates_lattice_witness :
    0 + 1 < searchSpaceSize (sampleContext false).ADD_VECTOR_LOAD_GEMMN_TUNE_PARAM ∧
    (SetNextValue (sampleContext false)
      (SetNextValue_iterate (sampleContext false) 0
        PerformanceImplicitGemmForwardV4R5Xdlops.default)).2 = true :=
  ⟨by decide, (SetNextValue_enumerates_lattice (sampleContext false)).2.2.2.1 0 (by decide)⟩

/-! ## The heuristic initialiser -/

theorem PreviousTwoPower_1_8 (d : Nat) (h : d < 4) :
    PreviousTwoPower 1 8 (2 ^ (3 - d)) =
      if d + 1 < 4 then (2 ^ (3 - (d + 1)), false) else (2 ^ (3 - 0), true) := by
  interval_cases d <;> decide

theorem PreviousTwoPower_4_128 (d : Nat) (h : d < 6) :
    PreviousTwoPower 4 128 (2 ^ (7 - d)) =
      if d + 1 < 6 then (2 ^ (7 - (d + 1)), false) else (2 ^ (7 - 0), true) := by
  interval_cases d <;> decide

theorem PreviousTwoPower_4_256 (d : Nat) (h : d < 7) :
    PreviousTwoPower 4 256 (2 ^ (8 - d)) =
      if d + 1 < 7 then (2 ^ (8 - (d + 1)), false) else (2 ^ (8 - 0), true) := by
  interval_cases d <;> decide

theorem PreviousTwoPower_two_pow (a n d : Nat) (h : d < n + 1) :
    PreviousTwoPower (2 ^ a) (2 ^ (a + n)) (2 ^ (a + n - d)) =
      if d + 1 < n + 1 then (2 ^ (a + n - (d + 1)), false) else (2 ^ (a + n - 0), true) := by
  unfold PreviousTwoPower
  by_cases hd : d + 1 < n + 1
  · have hne : (2 : Int) ^ (a + n - d) ≠ 2 ^ a := by
      intro he
      have := (pow_right_injective₀ (by norm_num : (0 : Int) < 2) (by norm_num)) he
      omega
    have e : a + n - d = (a + n - (d + 1)) + 1 := by omega
    rw [if_neg hne, if_pos hd, e, pow_succ, Int.mul_tdiv_cancel _ (by norm_num)]
  · have e : a + n - d = a := by omega
    rw [e, if_pos rfl, if_neg hd]
    simp

theorem step_descentConfig (a n t bk kp wn wm bn bm : Nat)
    (ht : t < 4) (hbk : bk < 4) (hkp : kp < n + 1) (hwn : wn < 6) (hwm : wm < 6)
    (hbn : bn < 7) (hbm : bm < 7) :
    get_euristic_config_step (2 ^ a) (2 ^ (a + n))
        (descentConfig a n [t, bk, kp, wn, wm, bn, bm]) =
      (descentConfig a n (Odometer.step (descentRadices n) [t, bk, kp, wn, wm, bn, bm]).1,
        (Odometer.step (descentRadices n) [t, bk, kp, wn, wm, bn, bm]).2) := by
  simp only [get_euristic_config_step, descentConfig, descentRadices, Odometer.step,
    PreviousTwoPower_1_8 _ ht, PreviousTwoPower_1_8 _ hbk, PreviousTwoPower_two_pow a n _ hkp,
    PreviousTwoPower_4_128 _ hwn, PreviousTwoPower_4_128 _ hwm, PreviousTwoPower_4_256 _ hbn,
    PreviousTwoPower_4_256 _ hbm]
  by_cases c0 : t + 1 < 4
  · simp [c0]
  · by_cases c1 : bk + 1 < 4
    · simp [c0, c1]
    · by_cases c2 : kp + 1 < n + 1
      · simp [c0, c1, c2]
      · by_cases c3 : wn + 1 < 6
        · simp [c0, c1, c2, c3]
        · by_cases c4 : wm + 1 < 6
          · simp [c0, c1, c2, c3, c4]
          · by_cases c5 : bn + 1 < 7
            · simp [c0, c1, c2, c3, c4, c5]
            · by_cases c6 : bm + 1 < 7
              · simp [c0, c1, c2, c3, c4, c5, c6]
              · simp [c0, c1, c2, c3, c4, c5, c6]

theorem descentRadices_pos (n : Nat) : ∀ r ∈ descentRadices n, 0 < r := by
  simp [descentRadices]

theorem descentRadices_prod (n : Nat) : (descentRadices n).prod = 28224 * (n + 1) := by
  simp only [descentRadices, List.prod_cons, List.prod_nil]
  ring

theorem digits_descentRadices (n i : Nat) :
    Odometer.digits (descentRadices n) i =
      [i % 4, i / 4 % 4, i / 4 / 4 % (n + 1), i / 4 / 4 / (n + 1) % 6,
        i / 4 / 4 / (n + 1) / 6 % 6, i / 4 / 4 / (n + 1) / 6 / 6 % 7,
        i / 4 / 4 / (n + 1) / 6 / 6 / 7 % 7] := rfl

/-- One pass through the inner loop of the descent on the config number `i` gives the config
number `i + 1`, or wraps to the config number `0` and sets `all_visited`. -/
theorem step_descent_digits (a n i : Nat) (hi : i < (descentRadices n).prod) :
    get_euristic_config_step (2 ^ a) (2 ^ (a + n))
        (descentConfig a n (Odometer.digits (descentRadices n) i)) =
      (descentConfig a n (Odometer.digits (descentRadices n) ((i + 1) % (descentRadices n).prod)),
        decide (i + 1 = (descentRadices n).prod)) := by
  obtain ⟨h1, h2⟩ := Odometer.step_digits _ i (descentRadices_pos n) hi
  have key := step_descentConfig a n (i % 4) (i / 4 % 4) (i / 4 / 4 % (n + 1))
    (i / 4 / 4 / (n + 1) % 6) (i / 4 / 4 / (n + 1) / 6 % 6) (i / 4 / 4 / (n + 1) / 6 / 6 % 7)
    (i / 4 / 4 / (n + 1) / 6 / 6 / 7 % 7)
    (Nat.mod_lt _ (by decide)) (Nat.mod_lt _ (by decide)) (Nat.mod_lt _ (by omega))
    (Nat.mod_lt _ (by decide)) (Nat.mod_lt _ (by decide)) (Nat.mod_lt _ (by decide))
    (Nat.mod_lt _ (by decide))
  rw [← digits_descentRadices] at key
  rw [key, h1]
  congr 1
  cases hs : (Odometer.step (descentRadices n) (Odometer.digits (descentRadices n) i)).2
  · have : ¬ (i + 1 = (descentRadices n).prod) := by rw [← h2, hs]; decide
    exact (decide_eq_false this).symm
  · exact (decide_eq_true (h2.mp hs)).symm

theorem step_descentAt (a n i : Nat) (hi : i < (descentRadices n).prod) :
    get_euristic_config_step (2 ^ a) (2 ^ (a + n)) (descentAt a n i) =
      (descentAt a n ((i + 1) % (descentRadices n).prod),
        decide (i + 1 = (descentRadices n).prod)) :=
  step_descent_digits a n i hi

/-- The descent loop started on the config number `i` returns the config number `j % P`, where
`j` is the first number in `(i, P]` whose config satisfies `is_valid_func`, and `j = P` (the
config number `0`, reached when `all_visited` is set) when there is none. -/
theorem get_euristic_config_loop_spec (a n : Nat)
    (is_valid_func : PerformanceImplicitGemmForwardV4R5Xdlops → Bool) :
    ∀ (fuel i : Nat), i < (descentRadices n).prod → (descentRadices n).prod - i ≤ fuel →
      ∃ j, i < j ∧ j ≤ (descentRadices n).prod ∧
        get_euristic_config_loop (2 ^ a) (2 ^ (a + n)) is_valid_func fuel (descentAt a n i) =
          some (descentAt a n (j % (descentRadices n).prod)) ∧
        (is_valid_func (descentAt a n (j % (descentRadices n).prod)) = true ∨
          j = (descentRadices n).prod) ∧
        ∀ m, i < m → m < j → is_valid_func (descentAt a n (m % (descentRadices n).prod)) = false
  | 0, i, hi, hf => by omega
  | fuel + 1, i, hi, hf => by
    unfold get_euristic_config_loop
    simp only [step_descentAt a n i hi]
    by_cases hv : is_valid_func (descentAt a n ((i + 1) % (descentRadices n).prod)) = true
    · refine ⟨i + 1, by omega, by omega, by simp [hv], Or.inl hv, fun m h1 h2 => by omega⟩
    · by_cases hlast : i + 1 = (descentRadices n).prod
      · refine ⟨i + 1, by omega, by omega, by simp [hv, hlast], Or.inr hlast,
          fun m h1 h2 => by omega⟩
      · have hi2 : i + 1 < (descentRadices n).prod := by omega
        obtain ⟨j, j1, j2, j3, j4, j5⟩ :=
          get_euristic_config_loop_spec a n is_valid_func fuel (i + 1) hi2 (by omega)
        refine ⟨j, by omega, j2, ?_, j4, ?_⟩
        · simp only [hv, hlast, decide_False, Bool.false_eq_true, if_false]
          rw [Nat.mod_eq_of_lt hi2]
          exact j3
        · intro m h1 h2
          by_cases hm : m = i + 1
          · subst hm
            simpa using hv
          · exact j5 m (by omega) h2

theorem descentFuel_enough (d : DataType) :
    (descentRadices (descentKPackSpan d)).prod - 3 ≤ descentFuel := by
  have h : descentKPackSpan d ≤ 2 := by cases d <;> decide
  rw [descentRadices_prod]
  unfold descentFuel
  omega

theorem three_lt_descent_prod (n : Nat) : 3 < (descentRadices n).prod := by
  rw [descentRadices_prod]
  omega

/-- For a supported precision `get_euristic_config` is the descent loop started on the config
number `3` (the seed: every field at its upper bound, `GemmBThreadDataPerRead_GemmN = 1`). -/
theorem get_euristic_config_eq (p : ProblemDescription)
    (is_valid_func : PerformanceImplicitGemmForwardV4R5Xdlops → Bool)
    (hp : p.dataType ≠ DataType.other) :
    get_euristic_config p is_valid_func =
      get_euristic_config_loop (2 ^ descentKPackLow p.dataType)
        (2 ^ (descentKPackLow p.dataType + descentKPackSpan p.dataType)) is_valid_func
        descentFuel (descentAt (descentKPackLow p.dataType) (descentKPackSpan p.dataType) 3) := by
  have s32 : descentAt 0 2 3 = ⟨256, 256, 8, 128, 128, 4, false, true, 1, false⟩ := by decide
  have s16 : descentAt 2 1 3 = ⟨256, 256, 8, 128, 128, 8, false, true, 1, false⟩ := by decide
  have sbf : descentAt 1 2 3 = ⟨256, 256, 8, 128, 128, 8, false, true, 1, false⟩ := by decide
  unfold get_euristic_config ProblemDescription.IsFp32 ProblemDescription.IsFp16
    ProblemDescription.IsBfp16
  cases hd : p.dataType
  · simp [descentKPackLow, descentKPackSpan, s32]
  · simp [descentKPackLow, descentKPackSpan, s16]
  · simp [descentKPackLow, descentKPackSpan, sbf]
  · exact absurd hd hp

/-- `IsReallyValid` does not read the spare flag, and reads `GemmBThreadDataPerRead_GemmN` only
through `IsValidValue` when the tuning toggle is off. -/
theorem IsReallyValid_congr (ctx : ConvolutionContext) (p : ProblemDescription)
    (c : PerformanceImplicitGemmForwardV4R5Xdlops) (t : Int) (s : Bool)
    (ht : IsTwoPower 1 8 t = IsTwoPower 1 8 c.GemmBThreadDataPerRead_GemmN)
    (h : ctx.ADD_VECTOR_LOAD_GEMMN_TUNE_PARAM = false ∨ t = c.GemmBThreadDataPerRead_GemmN) :
    IsReallyValid ctx { c with GemmBThreadDataPerRead_GemmN := t, use_spare_set := s } p =
      IsReallyValid ctx c p := by
  have hB : CalculateGemmBBlockCopyPerformanceParameters ctx
      { c with GemmBThreadDataPerRead_GemmN := t, use_spare_set := s } p =
      CalculateGemmBBlockCopyPerformanceParameters ctx c p := by
    rcases h with h | h
    · simp only [CalculateGemmBBlockCopyPerformanceParameters, CalculateBlockSize,
        GemmBBlockCopy.tuneParamMismatch, GemmBBlockCopy.SrcDataPerRead_B,
        GemmBBlockCopy.NWaves, GemmBBlockCopy.data_per_thread_copy,
        GemmBBlockCopy.data_per_thread_copy_gemmkpack, GemmBBlockCopy.data_per_thread_copy_gemmk,
        GemmBBlockCopy.BPerBlock, GemmBBlockCopy.ClusterLengths_GemmK,
        GemmBBlockCopy.ClusterLengths_B, GemmBBlockCopy.ClusterLengths_GemmKPack,
        GemmBBlockCopy.DstDataPerWrite_GemmKPack, GemmBBlockCopy.tmp,
        GemmBBlockCopy.SrcDataPerRead_B_bounded, h, Bool.false_and]
      rfl
    · subst h
      rfl
  have hA : CalculateGemmABlockCopyPerformanceParameters ctx
      { c with GemmBThreadDataPerRead_GemmN := t, use_spare_set := s } p =
      CalculateGemmABlockCopyPerformanceParameters ctx c p := rfl
  have hV : IsValidValue { c with GemmBThreadDataPerRead_GemmN := t, use_spare_set := s } =
      IsValidValue c := by
    unfold IsValidValue
    simp only [ht]
  unfold IsReallyValid
  rw [hA, hB, hV]
  rfl

theorem descentKPack_lt (d : DataType) : descentKPackLow d + descentKPackSpan d < 31 := by
  cases d <;> decide

theorem descentDigits_of_inDescentLattice (p : ProblemDescription)
    (c : PerformanceImplicitGemmForwardV4R5Xdlops) (h : inDescentLattice p c = true)
    (hs : c.use_spare_set = false) :
    Odometer.WellFormed (descentRadices (descentKPackSpan p.dataType))
      (descentDigits (descentKPackLow p.dataType) (descentKPackSpan p.dataType) c) ∧
    descentConfig (descentKPackLow p.dataType) (descentKPackSpan p.dataType)
      (descentDigits (descentKPackLow p.dataType) (descentKPackSpan p.dataType) c) = c := by
  obtain ⟨bm, bn, bk, wm, wn, kp, fa, fb, t, sp⟩ := c
  simp only at hs
  subst hs
  simp only [inDescentLattice, Bool.and_eq_true, Bool.not_eq_true', and_assoc] at h
  obtain ⟨h1, h2, h3, h4, h5, h6, h7, h8, h9⟩ := h
  subst h8 h9
  obtain ⟨-, a1, b1⟩ := IsTwoPower_digits (L := 4) (H := 256) 2 6 (by norm_num) (by norm_num)
    (by norm_num) h1
  obtain ⟨-, a2, b2⟩ := IsTwoPower_digits (L := 4) (H := 256) 2 6 (by norm_num) (by norm_num)
    (by norm_num) h2
  obtain ⟨-, a3, b3⟩ := IsTwoPower_digits (L := 1) (H := 8) 0 3 (by norm_num) (by norm_num)
    (by norm_num) h3
  obtain ⟨-, a4, b4⟩ := IsTwoPower_digits (L := 4) (H := 128) 2 5 (by norm_num) (by norm_num)
    (by norm_num) h4
  obtain ⟨-, a5, b5⟩ := IsTwoPower_digits (L := 4) (H := 128) 2 5 (by norm_num) (by norm_num)
    (by norm_num) h5
  obtain ⟨-, a6, b6⟩ := IsTwoPower_digits (descentKPackLow p.dataType)
    (descentKPackSpan p.dataType) rfl rfl (descentKPack_lt _) h6
  obtain ⟨-, a7, b7⟩ := IsTwoPower_digits (L := 1) (H := 8) 0 3 (by norm_num) (by norm_num)
    (by norm_num) h7
  norm_num at a1 b1 a2 b2 a3 b3 a4 b4 a5 b5 a7 b7
  refine ⟨?_, ?_⟩
  · simp only [descentDigits, descentRadices, Odometer.WellFormed, and_true]
    exact ⟨a7, a3, a6, a5, a4, a2, a1⟩
  · simp only [descentDigits, descentConfig, b1, b2, b3, b4, b5, b6, b7]

/-- A config of the descent lattice that is not skipped is tested by the descent: it is the
config number `j % P` for some `j` in `(3, P]`. -/
theorem descent_visits (p : ProblemDescription)
    (c : PerformanceImplicitGemmForwardV4R5Xdlops) (h : inDescentLattice p c = true)
    (hs : c.use_spare_set = false) (hk : descentSkips p c = false) :
    ∃ j, 3 < j ∧ j ≤ (descentRadices (descentKPackSpan p.dataType)).prod ∧
      descentAt (descentKPackLow p.dataType) (descentKPackSpan p.dataType)
        (j % (descentRadices (descentKPackSpan p.dataType)).prod) = c := by
  obtain ⟨hw, hc⟩ := descentDigits_of_inDescentLattice p c h hs
  have hlt := Odometer.value_lt _ _ hw
  have hdig := Odometer.digits_value _ _ hw
  generalize hi : Odometer.value (descentRadices (descentKPackSpan p.dataType))
    (descentDigits (descentKPackLow p.dataType) (descentKPackSpan p.dataType) c) = i at hlt hdig
  have hP := three_lt_descent_prod (descentKPackSpan p.dataType)
  by_cases h0 : i = 0
  · refine ⟨_, hP, le_refl _, ?_⟩
    rw [Nat.mod_self, ← h0]
    unfold descentAt
    rw [hdig, hc]
  · by_cases h4 : 3 < i
    · refine ⟨i, h4, le_of_lt hlt, ?_⟩
      rw [Nat.mod_eq_of_lt hlt]
      unfold descentAt
      rw [hdig, hc]
    · exfalso
      have hi3 : i = 1 ∨ i = 2 ∨ i = 3 := by omega
      rw [digits_descentRadices] at hdig
      have hq : i / 4 = 0 := by omega
      simp only [hq, Nat.zero_div, Nat.zero_mod] at hdig
      rw [← hdig] at hc
      have hk2 : descentSkips p c = true := by
        rw [← hc]
        rcases hi3 with rfl | rfl | rfl <;>
          simp [descentSkips, descentConfig]
      rw [hk] at hk2
      exact absurd hk2 (by decide)

theorem CalculateBlockSize_valid_of_IsReallyValid (ctx : ConvolutionContext)
    (c : PerformanceImplicitGemmForwardV4R5Xdlops) (p : ProblemDescription)
    (h : IsReallyValid ctx c p = true) :
    c.CalculateBlockSize.2 = true ∧ 64 ∣ c.CalculateBlockSize.1 := by
  have hA := ((IsReallyValid_eq_true_iff ctx c p).mp h).2.2.2.2.2.2.2.1
  have hv : c.CalculateBlockSize.2 = true := by
    unfold CalculateGemmABlockCopyPerformanceParameters at hA
    split_ifs at hA with h1
    all_goals first
      | exact absurd hA (by decide)
      | simpa using h1
  obtain ⟨-, -, h3⟩ := CalculateBlockSize_eq_of_valid c
    ((IsReallyValid_eq_true_iff ctx c p).mp h).1 hv
  exact ⟨hv, by rw [h3]; exact Dvd.intro_left _ rfl⟩

/-- If some config tested by the descent satisfies `IsReallyValid`, then `HeuristicInit` returns
a config that satisfies `IsReallyValid`. -/
theorem HeuristicInit_valid_of_visited (ctx : ConvolutionContext) (p : ProblemDescription)
    (hp : p.dataType ≠ DataType.other) (j : Nat) (j1 : 3 < j)
    (j2 : j ≤ (descentRadices (descentKPackSpan p.dataType)).prod)
    (hj : IsReallyValid ctx (descentAt (descentKPackLow p.dataType) (descentKPackSpan p.dataType)
      (j % (descentRadices (descentKPackSpan p.dataType)).prod)) p = true) :
    ∃ r, HeuristicInit ctx p = some r ∧ IsReallyValid ctx r p = true := by
  have hP := three_lt_descent_prod (descentKPackSpan p.dataType)
  have hF := descentFuel_enough p.dataType
  obtain ⟨k, -, -, k3, -, -⟩ := get_euristic_config_loop_spec (descentKPackLow p.dataType)
    (descentKPackSpan p.dataType)
    (fun config => IsReallyValid ctx config p && IsFastToBeUsedForTuning ctx config p)
    descentFuel 3 hP hF
  obtain ⟨m, m1, m2, m3, m4, m5⟩ := get_euristic_config_loop_spec (descentKPackLow p.dataType)
    (descentKPackSpan p.dataType) (fun config => IsReallyValid ctx config p)
    descentFuel 3 hP hF
  unfold HeuristicInit
  rw [get_euristic_config_eq p _ hp, k3]
  simp only
  by_cases hv : IsReallyValid ctx (descentAt (descentKPackLow p.dataType)
      (descentKPackSpan p.dataType) (k % (descentRadices (descentKPackSpan p.dataType)).prod))
      p = true
  · exact ⟨_, by rw [if_neg (by simpa using hv)], hv⟩
  · rw [if_pos (by simpa using hv), get_euristic_config_eq p _ hp, m3]
    refine ⟨_, rfl, ?_⟩
    rcases m4 with m4 | m4
    · exact m4
    · by_cases hjm : j < m
      · have := m5 j j1 hjm
        simp only at this
        rw [hj] at this
        exact absurd this (by decide)
      · have : j = m := by omega
        rw [← this]
        exact hj

/-- C10 (amended): for every problem of a supported precision, if some config of the descent
lattice of that precision satisfies `IsReallyValid`, and either the tuning toggle is off or that
config is not one of the three configs that the descent never tests (every field at its upper
bound except `GemmBThreadDataPerRead_GemmN`, which is 1, 2 or 4), then `HeuristicInit` produces
a config that satisfies `IsReallyValid` and whose `CalculateBlockSize` succeeds with a multiple
of 64. -/
theorem HeuristicInit_finds_valid (ctx : ConvolutionContext) (p : ProblemDescription)
    (hp : p.dataType ≠ DataType.other)
    (h : ∃ c, inDescentLattice p c = true ∧ IsReallyValid ctx c p = true ∧
      (ctx.ADD_VECTOR_LOAD_GEMMN_TUNE_PARAM = true → descentSkips p c = false)) :
    ∃ r, HeuristicInit ctx p = some r ∧ IsReallyValid ctx r p = true ∧
      r.CalculateBlockSize.2 = true ∧ 64 ∣ r.CalculateBlockSize.1 := by
  obtain ⟨c, hl, hv, hk⟩ := h
  have key : ∃ d, inDescentLattice p d = true ∧ d.use_spare_set = false ∧
      descentSkips p d = false ∧ IsReallyValid ctx d p = true := by
    have hl2 := hl
    simp only [inDescentLattice, Bool.and_eq_true, Bool.not_eq_true', and_assoc] at hl2
    obtain ⟨h1, h2, h3, h4, h5, h6, h7, h8, h9⟩ := hl2
    cases htune : ctx.ADD_VECTOR_LOAD_GEMMN_TUNE_PARAM
    · refine ⟨{ c with GemmBThreadDataPerRead_GemmN := 8, use_spare_set := false }, ?_, rfl,
        ?_, ?_⟩
      · simp only [inDescentLattice, h1, h2, h3, h4, h5, h6, h8, h9]
        decide
      · simp [descentSkips]
      · rw [IsReallyValid_congr ctx p c 8 false (by rw [h7]; decide) (Or.inl htune)]
        exact hv
    · refine ⟨{ c with use_spare_set := false }, ?_, rfl, ?_, ?_⟩
      · exact hl
      · exact hk htune
      · rw [IsReallyValid_congr ctx p c _ false rfl (Or.inr rfl)]
        exact hv
  obtain ⟨d, d1, d2, d3, d4⟩ := key
  obtain ⟨j, j1, j2, j3⟩ := descent_visits p d d1 d2 d3
  obtain ⟨r, r1, r2⟩ := HeuristicInit_valid_of_visited ctx p hp j j1 j2 (by rw [j3]; exact d4)
  exact ⟨r, r1, r2, CalculateBlockSize_valid_of_IsReallyValid ctx r p r2⟩

/-- Witness of C10 (amended): Scenario A with the tuning toggle off; the sample config is a
valid config of the fp32 descent lattice. -/
theorem HeuristicInit_finds_valid_witness :
    sampleProblem.dataType ≠ DataType.other ∧
    inDescentLattice sampleProblem sampleConfig = true ∧
    IsReallyValid (sampleContext false) sampleConfig sampleProblem = true ∧
    ∃ r, HeuristicInit (sampleContext false) sampleProblem = some r ∧
      IsReallyValid (sampleContext false) r sampleProblem = true ∧
      r.CalculateBlockSize.2 = true ∧ 64 ∣ r.CalculateBlockSize.1 :=
  ⟨by decide, by decide, by decide,
    HeuristicInit_finds_valid (sampleContext false) sampleProblem (by decide)
      ⟨sampleConfig, by decide, by decide, fun h => absurd h (by decide)⟩⟩

/-- If no config tested by the descent satisfies `IsReallyValid`, both passes run to the end and
`HeuristicInit` returns the config number `0` (every field shrunk by the descent at its upper
bound), on which `all_visited` is set. -/
theorem HeuristicInit_exhausted (ctx : ConvolutionContext) (p : ProblemDescription)
    (hp : p.dataType ≠ DataType.other)
    (h : ∀ j, 3 < j → j ≤ (descentRadices (descentKPackSpan p.dataType)).prod →
      IsReallyValid ctx (descentAt (descentKPackLow p.dataType) (descentKPackSpan p.dataType)
        (j % (descentRadices (descentKPackSpan p.dataType)).prod)) p = false) :
    HeuristicInit ctx p =
      some (descentAt (descentKPackLow p.dataType) (descentKPackSpan p.dataType) 0) := by
  have hP := three_lt_descent_prod (descentKPackSpan p.dataType)
  have hF := descentFuel_enough p.dataType
  obtain ⟨k, k1, k2, k3, k4, -⟩ := get_euristic_config_loop_spec (descentKPackLow p.dataType)
    (descentKPackSpan p.dataType)
    (fun config => IsReallyValid ctx config p && IsFastToBeUsedForTuning ctx config p)
    descentFuel 3 hP hF
  obtain ⟨m, m1, m2, m3, m4, -⟩ := get_euristic_config_loop_spec (descentKPackLow p.dataType)
    (descentKPackSpan p.dataType) (fun config => IsReallyValid ctx config p)
    descentFuel 3 hP hF
  have hk : k = (descentRadices (descentKPackSpan p.dataType)).prod := by
    rcases k4 with k4 | k4
    · simp only [h k k1 k2, Bool.false_and] at k4
      exact absurd k4 (by decide)
    · exact k4
  have hm : m = (descentRadices (descentKPackSpan p.dataType)).prod := by
    rcases m4 with m4 | m4
    · simp only [h m m1 m2] at m4
      exact absurd m4 (by decide)
    · exact m4
  have h0 := h _ hP (le_refl _)
  rw [Nat.mod_self] at h0
  subst hk
  rw [Nat.mod_self] at k3
  rw [hm, Nat.mod_self] at m3
  unfold HeuristicInit
  rw [get_euristic_config_eq p _ hp, k3]
  simp only
  rw [if_pos (by simp [h0]), get_euristic_config_eq p _ hp, m3]

/-- A config of the descent in which every field except `GemmBThreadDataPerRead_GemmN` is at
its upper bound has a number below 4. -/
theorem descentAt_fields_max (a n i : Nat) (hi : i < (descentRadices n).prod)
    (hbm : (descentAt a n i).GemmMPerBlock = 256) (hbn : (descentAt a n i).GemmNPerBlock = 256)
    (hbk : (descentAt a n i).GemmKPerBlock = 8) (hwm : (descentAt a n i).GemmMPerWave = 128)
    (hwn : (descentAt a n i).GemmNPerWave = 128)
    (hkp : (descentAt a n i).GemmKPack = 2 ^ (a + n)) : i < 4 := by
  have hv := Odometer.value_digits _ i (descentRadices_pos n) hi
  have inj : ∀ x y : Nat, (2 : Int) ^ x = 2 ^ y → x = y := fun x y hxy =>
    pow_right_injective₀ (by norm_num : (0 : Int) < 2) (by norm_num) hxy
  unfold descentAt at hbm hbn hbk hwm hwn hkp
  rw [digits_descentRadices] at hv hbm hbn hbk hwm hwn hkp
  simp only [descentConfig] at hbm hbn hbk hwm hwn hkp
  have e1 : 8 - i / 4 / 4 / (n + 1) / 6 / 6 / 7 % 7 = 8 :=
    inj _ _ (by rw [hbm]; norm_num)
  have e2 : 8 - i / 4 / 4 / (n + 1) / 6 / 6 % 7 = 8 := inj _ _ (by rw [hbn]; norm_num)
  have e3 : 3 - i / 4 % 4 = 3 := inj _ _ (by rw [hbk]; norm_num)
  have e4 : 7 - i / 4 / 4 / (n + 1) / 6 % 6 = 7 := inj _ _ (by rw [hwm]; norm_num)
  have e5 : 7 - i / 4 / 4 / (n + 1) % 6 = 7 := inj _ _ (by rw [hwn]; norm_num)
  have e6 : a + n - i / 4 / 4 % (n + 1) = a + n := inj _ _ hkp
  have b6 : i / 4 / 4 % (n + 1) < n + 1 := Nat.mod_lt _ (by omega)
  have z1 : i / 4 / 4 / (n + 1) / 6 / 6 / 7 % 7 = 0 := by omega
  have z2 : i / 4 / 4 / (n + 1) / 6 / 6 % 7 = 0 := by omega
  have z3 : i / 4 % 4 = 0 := by omega
  have z4 : i / 4 / 4 / (n + 1) / 6 % 6 = 0 := by omega
  have z5 : i / 4 / 4 / (n + 1) % 6 = 0 := by omega
  have z6 : i / 4 / 4 % (n + 1) = 0 := by omega
  rw [z1, z2, z3, z4, z5, z6] at hv
  simp only [Odometer.value, descentRadices, Nat.mul_zero, Nat.add_zero] at hv
  omega

/-- Counterexample to C10 as stated: in `largestTileContext` (tuning toggle on) the fp32 problem
`largestTileProblem` has a valid config in the descent lattice, `(256, 256, 8, 128, 128, 4)` with
`GemmBThreadDataPerRead_GemmN = 4`, but `HeuristicInit` returns the same tile with
`GemmBThreadDataPerRead_GemmN = 8`, which does not satisfy `IsReallyValid`. -/
theorem HeuristicInit_misses_valid :
    inDescentLattice largestTileProblem ⟨256, 256, 8, 128, 128, 4, false, true, 4, false⟩ = true ∧
    IsReallyValid largestTileContext ⟨256, 256, 8, 128, 128, 4, false, true, 4, false⟩
      largestTileProblem = true ∧
    HeuristicInit largestTileContext largestTileProblem =
      some ⟨256, 256, 8, 128, 128, 4, false, true, 8, false⟩ ∧
    IsReallyValid largestTileContext ⟨256, 256, 8, 128, 128, 4, false, true, 8, false⟩
      largestTileProblem = false := by
  refine ⟨by decide, by decide, ?_, by decide⟩
  have hp : largestTileProblem.dataType ≠ DataType.other := by decide
  have h0 : descentAt 0 2 0 = ⟨256, 256, 8, 128, 128, 4, false, true, 8, false⟩ := by decide
  have key := HeuristicInit_exhausted largestTileContext largestTileProblem hp
  have e1 : descentKPackLow largestTileProblem.dataType = 0 := rfl
  have e2 : descentKPackSpan largestTileProblem.dataType = 2 := rfl
  rw [e1, e2, h0] at key
  apply key
  intro j j1 j2
  by_contra hv
  have hv2 : IsReallyValid largestTileContext
      (descentAt 0 2 (j % (descentRadices 2).prod)) largestTileProblem = true := by
    simpa using hv
  have hx := ((IsReallyValid_eq_true_iff _ _ _).mp hv2).2.1
  simp only [largestTileContext, decide_eq_true_eq] at hx
  obtain ⟨x1, x2, x3, x4, x5, x6⟩ := hx
  have hP : 0 < (descentRadices 2).prod := by rw [descentRadices_prod]; omega
  have hlt := descentAt_fields_max 0 2 _ (Nat.mod_lt j hP) x1 x2 x3 x4 x5 (by rw [x6]; norm_num)
  have hPv : (descentRadices 2).prod = 84672 := by rw [descentRadices_prod]
  rw [hPv] at hlt j2 hv2
  have hj : j = 84672 := by omega
  subst hj
  rw [Nat.mod_self, h0] at hv2
  exact absurd hv2 (by decide)

/-! ## The descent of `HeuristicInit`, test by test -/

theorem heuristicKPackBounds_eq (d : DataType) (hd : d ≠ DataType.other) :
    heuristicKPackBounds d =
      ((2 : Int) ^ descentKPackLow d, (2 : Int) ^ (descentKPackLow d + descentKPackSpan d)) := by
  cases d
  · rfl
  · rfl
  · rfl
  · exact absurd rfl hd

theorem heuristicSeed_eq (d : DataType) (hd : d ≠ DataType.other) :
    heuristicSeed d = descentAt (descentKPackLow d) (descentKPackSpan d) 3 := by
  cases d
  · decide
  · decide
  · decide
  · exact absurd rfl hd

theorem descentLatticeSize_eq (d : DataType) :
    descentLatticeSize d = (descentRadices (descentKPackSpan d)).prod := by
  rw [descentRadices_prod]
  unfold descentLatticeSize
  ring

/-- The config tested by the iteration number `m` is the config number `3 + m` (modulo the
number of points) of the descent lattice. -/
theorem descentVisit_eq (d : DataType) (hd : d ≠ DataType.other) (m : Nat) :
    descentVisit d m =
      descentAt (descentKPackLow d) (descentKPackSpan d) ((3 + m) % descentLatticeSize d) := by
  have hP := three_lt_descent_prod (descentKPackSpan d)
  induction m with
  | zero =>
    rw [descentLatticeSize_eq, Nat.add_zero, Nat.mod_eq_of_lt hP]
    exact heuristicSeed_eq d hd
  | succ m ih =>
    unfold descentVisit at ih ⊢
    rw [Function.iterate_succ_apply', ih, heuristicKPackBounds_eq d hd]
    simp only
    rw [descentLatticeSize_eq,
      step_descentAt _ _ _ (Nat.mod_lt _ (by omega))]
    simp only [Nat.mod_add_mod]
    rfl

/-- For a supported precision `get_euristic_config` is the descent loop of the precision started
on its seed. -/
theorem get_euristic_config_seed (p : ProblemDescription)
    (is_valid_func : PerformanceImplicitGemmForwardV4R5Xdlops → Bool)
    (hp : p.dataType ≠ DataType.other) :
    get_euristic_config p is_valid_func =
      get_euristic_config_loop (heuristicKPackBounds p.dataType).1
        (heuristicKPackBounds p.dataType).2 is_valid_func descentFuel
        (heuristicSeed p.dataType) := by
  rw [get_euristic_config_eq p _ hp, heuristicKPackBounds_eq _ hp, heuristicSeed_eq _ hp]

/-- The descent loop started on the seed with at least `descentTests` units of fuel returns the
config tested by the iteration number `k`, where `k` is the first iteration whose config passes
the test, and the last iteration (`descentTests`) when none passes. -/
theorem get_euristic_config_loop_visit (d : DataType) (hd : d ≠ DataType.other)
    (is_valid_func : PerformanceImplicitGemmForwardV4R5Xdlops → Bool)
    (fuel : Nat) (hf : descentTests d ≤ fuel) :
    ∃ k, 1 ≤ k ∧ k ≤ descentTests d ∧
      get_euristic_config_loop (heuristicKPackBounds d).1 (heuristicKPackBounds d).2
        is_valid_func fuel (heuristicSeed d) = some (descentVisit d k) ∧
      (is_valid_func (descentVisit d k) = true ∨ k = descentTests d) ∧
      ∀ m, 1 ≤ m → m < k → is_valid_func (descentVisit d m) = false := by
  have hP := three_lt_descent_prod (descentKPackSpan d)
  have hL := descentLatticeSize_eq d
  have hT : descentTests d = descentLatticeSize d - 3 := rfl
  obtain ⟨j, j1, j2, j3, j4, j5⟩ := get_euristic_config_loop_spec (descentKPackLow d)
    (descentKPackSpan d) is_valid_func fuel 3 hP (by omega)
  have hv : ∀ m, 3 < m → descentVisit d (m - 3) =
      descentAt (descentKPackLow d) (descentKPackSpan d)
        (m % (descentRadices (descentKPackSpan d)).prod) := by
    intro m hm
    rw [descentVisit_eq d hd, hL]
    congr 2
    omega
  refine ⟨j - 3, by omega, by omega, ?_, ?_, ?_⟩
  · rw [heuristicKPackBounds_eq d hd, heuristicSeed_eq d hd, hv j j1]
    exact j3
  · rw [hv j j1]
    rcases j4 with j4 | j4
    · exact Or.inl j4
    · exact Or.inr (by omega)
  · intro m m1 m2
    have := j5 (m + 3) (by omega) (by omega)
    rw [← hv (m + 3) (by omega)] at this
    simpa using this

theorem descentTests_le_descentFuel (d : DataType) : descentTests d ≤ descentFuel := by
  have h := descentFuel_enough d
  rw [← descentLatticeSize_eq] at h
  exact h

/-- One pass of `HeuristicInit`: `get_euristic_config` returns the config tested by the first
iteration whose config passes the test, and the config of the last iteration when none
passes. -/
theorem get_euristic_config_spec (p : ProblemDescription) (hp : p.dataType ≠ DataType.other)
    (is_valid_func : PerformanceImplicitGemmForwardV4R5Xdlops → Bool) :
    ∃ k, 1 ≤ k ∧ k ≤ descentTests p.dataType ∧
      get_euristic_config p is_valid_func = some (descentVisit p.dataType k) ∧
      (is_valid_func (descentVisit p.dataType k) = true ∨ k = descentTests p.dataType) ∧
      ∀ m, 1 ≤ m → m < k → is_valid_func (descentVisit p.dataType m) = false := by
  rw [get_euristic_config_seed p _ hp]
  exact get_euristic_config_loop_visit p.dataType hp is_valid_func descentFuel
    (descentTests_le_descentFuel p.dataType)

/-! ## The two passes of `HeuristicInit` -/

/-- `HeuristicInit` in terms of its two passes: the second pass runs when the config left by the
first pass fails `IsReallyValid`. -/
theorem HeuristicInit_of_first_pass (ctx : ConvolutionContext) (p : ProblemDescription)
    (tmp : PerformanceImplicitGemmForwardV4R5Xdlops)
    (h : get_euristic_config p
      (fun config => IsReallyValid ctx config p && IsFastToBeUsedForTuning ctx config p) =
        some tmp) :
    HeuristicInit ctx p =
      if IsReallyValid ctx tmp p = true then some tmp
      else get_euristic_config p (fun config => IsReallyValid ctx config p) := by
  unfold HeuristicInit
  rw [h]
  by_cases hv : IsReallyValid ctx tmp p = true
  · simp [hv]
  · simp [hv]

/-- The seed is never fast: its waves are 128 x 128. -/
theorem heuristicSeed_not_fast (ctx : ConvolutionContext) (p : ProblemDescription)
    (d : DataType) (hd : d ≠ DataType.other) :
    IsFastToBeUsedForTuning ctx (heuristicSeed d) p = false := by
  have e1 : wrapInt (128 * 128) = 16384 := by decide
  have e2 : wrapInt 16384 = 16384 := by decide
  unfold IsFastToBeUsedForTuning
  cases d
  · simp [heuristicSeed, e1, e2]
  · simp [heuristicSeed, e1, e2]
  · simp [heuristicSeed, e1, e2]
  · exact absurd rfl hd

/-- C11: for a problem of a supported precision, if one of the configs visited by the descent
(the seed of the precision and the configs reached from it by 1, 2, ..., `descentTests` passes
through the inner loop, which shrinks the tunable, `block_k`, `k_pack`, `wave_n`, `wave_m`,
`block_n`, `block_m` in this order) satisfies `IsReallyValid` and `IsFastToBeUsedForTuning`,
then `HeuristicInit` produces the first of these configs that satisfies both. -/
theorem HeuristicInit_first_valid_and_fast (ctx : ConvolutionContext) (p : ProblemDescription)
    (hp : p.dataType ≠ DataType.other)
    (h : ∃ m, m ≤ descentTests p.dataType ∧
      IsReallyValid ctx (descentVisit p.dataType m) p = true ∧
      IsFastToBeUsedForTuning ctx (descentVisit p.dataType m) p = true) :
    ∃ k, k ≤ descentTests p.dataType ∧
      HeuristicInit ctx p = some (descentVisit p.dataType k) ∧
      IsReallyValid ctx (descentVisit p.dataType k) p = true ∧
      IsFastToBeUsedForTuning ctx (descentVisit p.dataType k) p = true ∧
      ∀ m, m < k →
        ¬ (IsReallyValid ctx (descentVisit p.dataType m) p = true ∧
          IsFastToBeUsedForTuning ctx (descentVisit p.dataType m) p = true) := by
  obtain ⟨m, m2, m3, m4⟩ := h
  have h0 : IsFastToBeUsedForTuning ctx (descentVisit p.dataType 0) p = false :=
    heuristicSeed_not_fast ctx p _ hp
  have m1 : 1 ≤ m := by
    rcases Nat.eq_zero_or_pos m with hm | hm
    · rw [hm, h0] at m4
      exact absurd m4 (by decide)
    · exact hm
  obtain ⟨k, k1, k2, k3, k4, k5⟩ := get_euristic_config_spec p hp
    (fun config => IsReallyValid ctx config p && IsFastToBeUsedForTuning ctx config p)
  have hk : IsReallyValid ctx (descentVisit p.dataType k) p = true ∧
      IsFastToBeUsedForTuning ctx (descentVisit p.dataType k) p = true := by
    rcases k4 with k4 | k4
    · simpa using k4
    · by_cases hmk : m < k
      · have := k5 m m1 hmk
        simp [m3, m4] at this
      · have hmk2 : m = k := by omega
        subst hmk2
        exact ⟨m3, m4⟩
  refine ⟨k, k2, ?_, hk.1, hk.2, ?_⟩
  · rw [HeuristicInit_of_first_pass ctx p _ k3, if_pos hk.1]
  · intro i i2 hi
    rcases Nat.eq_zero_or_pos i with hi0 | hi0
    · rw [hi0, h0] at hi
      exact absurd hi.2 (by decide)
    · have := k5 i hi0 i2
      simp [hi.1, hi.2] at this

/-- Witness of C11: for the fp32 problem with `gemm_m = 256`, `gemm_n = 12544` the config
`(256, 128, 4, 128, 64, 4)`, tested by iteration 1777, is valid and fast. -/
theorem HeuristicInit_first_valid_and_fast_witness :
    largestTileProblem.dataType ≠ DataType.other ∧
    IsReallyValid (sampleContext false) (descentVisit largestTileProblem.dataType 1777)
      largestTileProblem = true ∧
    IsFastToBeUsedForTuning (sampleContext false)
      (descentVisit largestTileProblem.dataType 1777) largestTileProblem = true ∧
    ∃ k, k ≤ descentTests largestTileProblem.dataType ∧
      HeuristicInit (sampleContext false) largestTileProblem =
        some (descentVisit largestTileProblem.dataType k) ∧
      IsReallyValid (sampleContext false) (descentVisit largestTileProblem.dataType k)
        largestTileProblem = true ∧
      IsFastToBeUsedForTuning (sampleContext false) (descentVisit largestTileProblem.dataType k)
        largestTileProblem = true ∧
      ∀ m, m < k →
        ¬ (IsReallyValid (sampleContext false) (descentVisit largestTileProblem.dataType m)
            largestTileProblem = true ∧
          IsFastToBeUsedForTuning (sampleContext false)
            (descentVisit largestTileProblem.dataType m) largestTileProblem = true) :=
  ⟨by decide,
    by rw [descentVisit_eq _ (by decide)]; decide,
    by rw [descentVisit_eq _ (by decide)]; decide,
    HeuristicInit_first_valid_and_fast (sampleContext false) largestTileProblem (by decide)
      ⟨1777, by decide,
        by rw [descentVisit_eq _ (by decide)]; decide,
        by rw [descentVisit_eq _ (by decide)]; decide⟩⟩

theorem descentAt_use_spare_set (a n i : Nat) : (descentAt a n i).use_spare_set = false := by
  unfold descentAt
  rw [digits_descentRadices]
  rfl

theorem descentVisit_use_spare_set (d : DataType) (hd : d ≠ DataType.other) (m : Nat) :
    (descentVisit d m).use_spare_set = false := by
  rw [descentVisit_eq d hd]
  exact descentAt_use_spare_set _ _ _

/-- The LDS byte count of a config that satisfies `IsValidValue` is at least 16 (the config
`(4, 4, 1, ., ., 1)` in a 16 bit precision). -/
theorem CalculateLdsNumberOfByte_ge_of_IsValidValue
    (c : PerformanceImplicitGemmForwardV4R5Xdlops) (p : ProblemDescription)
    (h : c.IsValidValue = true) : 16 ≤ (c.CalculateLdsNumberOfByte p).1 := by
  simp only [IsValidValue, IsTwoPower, Bool.and_eq_true, decide_eq_true_eq] at h
  obtain ⟨⟨⟨⟨⟨⟨⟨⟨-, m1⟩, m2⟩, ⟨⟨-, n1⟩, n2⟩⟩, ⟨⟨-, k1⟩, k2⟩⟩, -⟩, -⟩, ⟨⟨-, q1⟩, q2⟩⟩, -⟩ := h
  have a1 : 4 ≤ c.GemmKPerBlock * c.GemmMPerBlock := by nlinarith
  have a2 : c.GemmKPerBlock * c.GemmMPerBlock ≤ 2048 := by nlinarith
  have a3 : 4 ≤ c.GemmKPerBlock * c.GemmMPerBlock * c.GemmKPack := by nlinarith
  have a4 : c.GemmKPerBlock * c.GemmMPerBlock * c.GemmKPack ≤ 16384 := by nlinarith
  have b1 : 4 ≤ c.GemmKPerBlock * c.GemmNPerBlock := by nlinarith
  have b2 : c.GemmKPerBlock * c.GemmNPerBlock ≤ 2048 := by nlinarith
  have b3 : 4 ≤ c.GemmKPerBlock * c.GemmNPerBlock * c.GemmKPack := by nlinarith
  have b4 : c.GemmKPerBlock * c.GemmNPerBlock * c.GemmKPack ≤ 16384 := by nlinarith
  have e := CalculateLdsNumberOfByte_of_fits c p (by omega) (by omega)
  have hs : (2 : Int) ≤ ((if p.IsFp32 = true then 4 else 2 : Nat) : Int) ∧
      ((if p.IsFp32 = true then 4 else 2 : Nat) : Int) ≤ 4 := by
    split_ifs <;> simp
  generalize ((if p.IsFp32 = true then 4 else 2 : Nat) : Int) = s at hs e
  have c1 : 16 ≤ (c.GemmKPerBlock * c.GemmMPerBlock * c.GemmKPack +
      c.GemmKPerBlock * c.GemmNPerBlock * c.GemmKPack) * s := by nlinarith
  omega

/-- A config whose LDS byte count exceeds the budget fails `IsReallyValid`. -/
theorem IsReallyValid_false_of_lds (ctx : ConvolutionContext)
    (c : PerformanceImplicitGemmForwardV4R5Xdlops) (p : ProblemDescription)
    (h : ctx.lds_max_number_of_byte < (c.CalculateLdsNumberOfByte p).1) :
    IsReallyValid ctx c p = false := by
  rw [← Bool.not_eq_true]
  intro hv
  have := ((IsReallyValid_eq_true_iff ctx c p).mp hv).2.2.2.2.2.2.2.2.2
  omega

/-- Counterexample to C14 as stated: the seeds of fp16 and of bf16 are the same tuple
`(256, 256, 8, 128, 128, 8, false, true, 1)`. -/
theorem heuristicSeed_fp16_eq_bfp16 :
    heuristicSeed DataType.fp16 = heuristicSeed DataType.bfp16 ∧
    heuristicSeed DataType.fp16 = ⟨256, 256, 8, 128, 128, 8, false, true, 1, false⟩ :=
  ⟨rfl, rfl⟩

/-- C14 (amended): `HeuristicInit` starts each pass from a fixed seed tuple per precision: the
descent loop of `get_euristic_config` runs on `(256, 256, 8, 128, 128, 4, false, true, 1)` for
fp32 and on `(256, 256, 8, 128, 128, 8, false, true, 1)` for fp16 and for bf16.  The seed of
fp32 differs from the seed of the two 16 bit precisions, which share theirs (their descents
differ in the lower bound of `k_pack` only). -/
theorem heuristicSeed_spec :
    (∀ (p : ProblemDescription) (f : PerformanceImplicitGemmForwardV4R5Xdlops → Bool),
      p.dataType ≠ DataType.other →
        get_euristic_config p f =
          get_euristic_config_loop (heuristicKPackBounds p.dataType).1
            (heuristicKPackBounds p.dataType).2 f descentFuel (heuristicSeed p.dataType)) ∧
    heuristicSeed DataType.fp32 = ⟨256, 256, 8, 128, 128, 4, false, true, 1, false⟩ ∧
    heuristicSeed DataType.fp16 = ⟨256, 256, 8, 128, 128, 8, false, true, 1, false⟩ ∧
    heuristicSeed DataType.bfp16 = ⟨256, 256, 8, 128, 128, 8, false, true, 1, false⟩ ∧
    heuristicSeed DataType.fp32 ≠ heuristicSeed DataType.fp16 ∧
    heuristicSeed DataType.fp32 ≠ heuristicSeed DataType.bfp16 ∧
    heuristicSeed DataType.fp16 = heuristicSeed DataType.bfp16 ∧
    heuristicKPackBounds DataType.fp16 ≠ heuristicKPackBounds DataType.bfp16 :=
  ⟨fun p f hp => get_euristic_config_seed p f hp, rfl, rfl, rfl, by decide, by decide, rfl,
    by decide⟩

/-- C15: `HeuristicInit` is a function of the problem and the hardware and flag inputs only:
called on two receivers with arbitrary field values (spare flag included) it leaves the same
config in both, and called again on its own result it leaves that result unchanged; for a
supported precision it always returns, with one config for all receivers. -/
theorem HeuristicInit_receiver_independent (ctx : ConvolutionContext) (p : ProblemDescription) :
    (∀ s1 s2 : PerformanceImplicitGemmForwardV4R5Xdlops,
      HeuristicInit_receiver ctx p s1 = HeuristicInit_receiver ctx p s2) ∧
    (∀ s r : PerformanceImplicitGemmForwardV4R5Xdlops,
      HeuristicInit_receiver ctx p s = some r → HeuristicInit_receiver ctx p r = some r) ∧
    (p.dataType ≠ DataType.other →
      ∃ r, ∀ s : PerformanceImplicitGemmForwardV4R5Xdlops,
        HeuristicInit_receiver ctx p s = some r) := by
  have key : ∀ s, HeuristicInit_receiver ctx p s = HeuristicInit ctx p := by
    intro s
    unfold HeuristicInit_receiver
    cases HeuristicInit ctx p <;> rfl
  refine ⟨fun s1 s2 => by rw [key, key], fun s r h => by rw [key] at h ⊢; exact h, ?_⟩
  intro hp
  obtain ⟨k, -, -, k3, -, -⟩ := get_euristic_config_spec p hp
    (fun config => IsReallyValid ctx config p && IsFastToBeUsedForTuning ctx config p)
  obtain ⟨m, -, -, m3, -, -⟩ := get_euristic_config_spec p hp
    (fun config => IsReallyValid ctx config p)
  have hH := HeuristicInit_of_first_pass ctx p _ k3
  by_cases hv : IsReallyValid ctx (descentVisit p.dataType k) p = true
  · exact ⟨_, fun s => by rw [key, hH, if_pos hv]⟩
  · exact ⟨_, fun s => by rw [key, hH, if_neg hv, m3]⟩

/-- C17: if the shared-memory budget is smaller than the LDS byte count of every config that
satisfies `IsValidValue`, then `IsReallyValid` is false for every config; and for every config
whose LDS byte count exceeds the budget `IsReallyValid` is false, whatever the other
constraints. -/
theorem IsReallyValid_false_of_lds_budget (ctx : ConvolutionContext) (p : ProblemDescription) :
    ((∀ c : PerformanceImplicitGemmForwardV4R5Xdlops, c.IsValidValue = true →
        ctx.lds_max_number_of_byte < (c.CalculateLdsNumberOfByte p).1) →
      ∀ c, IsReallyValid ctx c p = false) ∧
    (∀ c : PerformanceImplicitGemmForwardV4R5Xdlops,
      ctx.lds_max_number_of_byte < (c.CalculateLdsNumberOfByte p).1 →
        IsReallyValid ctx c p = false) := by
  refine ⟨fun h c => ?_, fun c h => IsReallyValid_false_of_lds ctx c p h⟩
  by_cases hv : c.IsValidValue = true
  · exact IsReallyValid_false_of_lds ctx c p (h c hv)
  · rw [← Bool.not_eq_true]
    intro hr
    exact hv ((IsReallyValid_eq_true_iff ctx c p).mp hr).1

/-- Witness of C17: a budget of 15 bytes is below the LDS byte count of every config that
satisfies `IsValidValue`; the sample config of Scenario A, valid with the usual budget, is
rejected. -/
theorem IsReallyValid_false_of_lds_budget_witness :
    (∀ c : PerformanceImplicitGemmForwardV4R5Xdlops, c.IsValidValue = true →
      (ldsContext 15).lds_max_number_of_byte < (c.CalculateLdsNumberOfByte sampleProblem).1) ∧
    IsReallyValid (sampleContext false) sampleConfig sampleProblem = true ∧
    IsReallyValid (ldsContext 15) sampleConfig sampleProblem = false :=
  ⟨fun c hc => Nat.lt_of_lt_of_le (by decide)
      (CalculateLdsNumberOfByte_ge_of_IsValidValue c sampleProblem hc),
    by decide,
    (IsReallyValid_false_of_lds_budget (ldsContext 15) sampleProblem).1
      (fun c hc => Nat.lt_of_lt_of_le (by decide)
        (CalculateLdsNumberOfByte_ge_of_IsValidValue c sampleProblem hc)) sampleConfig⟩

/-! ## The source vector width of operand B -/

/-- A successful operand-B block-copy calculation returns the value of `SrcDataPerRead_B`, and
the block guarded by the tuning toggle has not thrown. -/
theorem B_SrcDataPerRead_of_valid (ctx : ConvolutionContext)
    (c : PerformanceImplicitGemmForwardV4R5Xdlops) (p : ProblemDescription)
    (h : (CalculateGemmBBlockCopyPerformanceParameters ctx c p).valid = true) :
    (CalculateGemmBBlockCopyPerformanceParameters ctx c p).SrcDataPerRead =
      GemmBBlockCopy.SrcDataPerRead_B ctx c p ∧
    GemmBBlockCopy.tuneParamMismatch ctx c p = false := by
  unfold CalculateGemmBBlockCopyPerformanceParameters at h ⊢
  split_ifs at h ⊢ with h1 h2 h3 h4 h5 h6
  all_goals first
    | exact absurd h (by decide)
    | exact ⟨rfl, by simpa using h2⟩

/-- The operand-B block-copy calculation fails when the block guarded by the tuning toggle
throws. -/
theorem B_failure_of_tuneParamMismatch (ctx : ConvolutionContext)
    (c : PerformanceImplicitGemmForwardV4R5Xdlops) (p : ProblemDescription)
    (h : GemmBBlockCopy.tuneParamMismatch ctx c p = true) :
    CalculateGemmBBlockCopyPerformanceParameters ctx c p =
      BlockCopyPerformanceParameters.failure := by
  unfold CalculateGemmBBlockCopyPerformanceParameters
  split_ifs with h1
  · rfl
  · rfl

/-- Counterexample to C18 as stated: for the fp16 problem with a 1 x 1 filter, unit strides,
no padding and `Ho = Wo = 8`, with a maximum vector load of 8 halves and the tuning toggle off,
the operand-B block-copy calculation of the config `(64, 4, 8, 64, 4, 8)` succeeds (the config
satisfies `IsReallyValid`) and returns the source vector width 4, while
`gcd(maxLoad, Ho * Wo) = gcd(8, 64) = 8`. -/
theorem SrcDataPerRead_B_less_than_layout_width :
    (sampleContext false).buffer_load_max_length_half = 8 ∧
    IsReallyValid (sampleContext false) narrowWaveConfig pointwiseProblem = true ∧
    (CalculateGemmBBlockCopyPerformanceParameters (sampleContext false) narrowWaveConfig
      pointwiseProblem).valid = true ∧
    (CalculateGemmBBlockCopyPerformanceParameters (sampleContext false) narrowWaveConfig
      pointwiseProblem).SrcDataPerRead = 4 ∧
    gcd (sampleContext false).buffer_load_max_length_half
      ((pointwiseProblem.OutputHeightHo : Int) * pointwiseProblem.OutputWidthWo) = 8 := by
  decide

/-- C18 (amended): for a problem with a 1 x 1 filter, unit strides and zero padding, and a
config for which the operand-B block-copy calculation succeeds with the tuning toggle off, the
returned source vector width is `gcd(gcd(maxLoad, Ho * Wo), BPerBlock)`, where `maxLoad` is the
maximum vector-load length of the precision and `BPerBlock = block_n / (block_n / wave_n)`. -/
theorem SrcDataPerRead_B_pointwise (ctx : ConvolutionContext)
    (c : PerformanceImplicitGemmForwardV4R5Xdlops) (p : ProblemDescription)
    (htune : ctx.ADD_VECTOR_LOAD_GEMMN_TUNE_PARAM = false)
    (hy : p.FilterHeightY = 1) (hx : p.FilterWidthX = 1)
    (hsh : p.AdjustedConvolutionStrideH = 1) (hsw : p.AdjustedConvolutionStrideW = 1)
    (hlh : p.InputLeftPadH = 0) (hlw : p.InputLeftPadW = 0)
    (hrh : p.AdjustedInputRightPadH = 0) (hrw : p.AdjustedInputRightPadW = 0)
    (h : (CalculateGemmBBlockCopyPerformanceParameters ctx c p).valid = true) :
    (CalculateGemmBBlockCopyPerformanceParameters ctx c p).SrcDataPerRead =
      gcd
        (gcd (if p.IsFp32 = true then ctx.buffer_load_max_length_float
            else ctx.buffer_load_max_length_half)
          ((p.OutputHeightHo : Int) * p.OutputWidthWo))
        (c.GemmNPerBlock.tdiv (c.GemmNPerBlock.tdiv c.GemmNPerWave)) := by
  rw [(B_SrcDataPerRead_of_valid ctx c p h).1]
  unfold GemmBBlockCopy.SrcDataPerRead_B GemmBBlockCopy.SrcDataPerRead_B_bounded
    GemmBBlockCopy.SrcDataPerRead_B_layout GemmBBlockCopy.BPerBlock GemmBBlockCopy.NWaves
  simp [htune, hy, hx, hsh, hsw, hlh, hlw, hrh, hrw]

/-- Witness of C18 (amended): the fp16 pointwise problem and the config `(64, 4, 8, 64, 4, 8)`;
the width is `gcd(gcd(8, 64), 4) = 4`. -/
theorem SrcDataPerRead_B_pointwise_witness :
    (CalculateGemmBBlockCopyPerformanceParameters (sampleContext false) narrowWaveConfig
      pointwiseProblem).valid = true ∧
    (CalculateGemmBBlockCopyPerformanceParameters (sampleContext false) narrowWaveConfig
      pointwiseProblem).SrcDataPerRead =
      gcd
        (gcd (if pointwiseProblem.IsFp32 = true then
            (sampleContext false).buffer_load_max_length_float
            else (sampleContext false).buffer_load_max_length_half)
          ((pointwiseProblem.OutputHeightHo : Int) * pointwiseProblem.OutputWidthWo))
        (narrowWaveConfig.GemmNPerBlock.tdiv
          (narrowWaveConfig.GemmNPerBlock.tdiv narrowWaveConfig.GemmNPerWave)) :=
  ⟨by decide,
    SrcDataPerRead_B_pointwise (sampleContext false) narrowWaveConfig pointwiseProblem rfl rfl
      rfl rfl rfl rfl rfl rfl rfl (by decide)⟩

/-- C19: with the tuning toggle off, whenever the operand-B block-copy calculation succeeds,
the returned source vector width is `gcd(w, BPerBlock)`, where
`BPerBlock = block_n / (block_n / wave_n)` and `w` is given by the first matching case:
`gcd(maxLoad, Ho * Wo)` for a 1 x 1 filter with unit strides and the four paddings zero;
`gcd(maxLoad, Wo)` for a unit width stride with both width paddings zero;
`gcd(maxLoad, Wo, left width pad, right width pad, width dilation)` for a unit width stride;
`1` otherwise.  In particular a non-unit width stride gives the width 1. -/
theorem SrcDataPerRead_B_spec (ctx : ConvolutionContext)
    (c : PerformanceImplicitGemmForwardV4R5Xdlops) (p : ProblemDescription)
    (htune : ctx.ADD_VECTOR_LOAD_GEMMN_TUNE_PARAM = false)
    (h : (CalculateGemmBBlockCopyPerformanceParameters ctx c p).valid = true) :
    (CalculateGemmBBlockCopyPerformanceParameters ctx c p).SrcDataPerRead =
      gcd
        (if p.FilterHeightY = 1 ∧ p.FilterWidthX = 1 ∧ p.AdjustedConvolutionStrideH = 1 ∧
            p.AdjustedConvolutionStrideW = 1 ∧ p.InputLeftPadH = 0 ∧ p.InputLeftPadW = 0 ∧
            p.AdjustedInputRightPadH = 0 ∧ p.AdjustedInputRightPadW = 0 then
          gcd (if p.IsFp32 = true then ctx.buffer_load_max_length_float
              else ctx.buffer_load_max_length_half)
            ((p.OutputHeightHo : Int) * p.OutputWidthWo)
        else if p.AdjustedConvolutionStrideW = 1 ∧ p.InputLeftPadW = 0 ∧
            p.AdjustedInputRightPadW = 0 then
          gcd (if p.IsFp32 = true then ctx.buffer_load_max_length_float
              else ctx.buffer_load_max_length_half)
            (p.OutputWidthWo : Int)
        else if p.AdjustedConvolutionStrideW = 1 then
          gcd (if p.IsFp32 = true then ctx.buffer_load_max_length_float
              else ctx.buffer_load_max_length_half)
            (gcd (p.OutputWidthWo : Int)
              (gcd p.InputLeftPadW
                (gcd p.AdjustedInputRightPadW p.AdjustedConvolutionDilationW)))
        else 1)
        (c.GemmNPerBlock.tdiv (c.GemmNPerBlock.tdiv c.GemmNPerWave)) ∧
    (p.AdjustedConvolutionStrideW ≠ 1 →
      (CalculateGemmBBlockCopyPerformanceParameters ctx c p).SrcDataPerRead = 1) := by
  have e : (CalculateGemmBBlockCopyPerformanceParameters ctx c p).SrcDataPerRead =
      gcd (GemmBBlockCopy.SrcDataPerRead_B_layout ctx p)
        (c.GemmNPerBlock.tdiv (c.GemmNPerBlock.tdiv c.GemmNPerWave)) := by
    rw [(B_SrcDataPerRead_of_valid ctx c p h).1]
    unfold GemmBBlockCopy.SrcDataPerRead_B GemmBBlockCopy.SrcDataPerRead_B_bounded
      GemmBBlockCopy.BPerBlock GemmBBlockCopy.NWaves
    simp [htune]
  constructor
  · rw [e]
    congr 1
    unfold GemmBBlockCopy.SrcDataPerRead_B_layout
    simp only [Nat.cast_eq_one]
  · intro hs
    rw [e]
    unfold GemmBBlockCopy.SrcDataPerRead_B_layout
    simp [hs, gcd]

/-- Witness of C19: Scenario A (3 x 3 filter, unit strides, no padding, `Wo = 56`, fp32): the
second case, width `gcd(gcd(4, 56), 128) = 4`. -/
theorem SrcDataPerRead_B_spec_witness :
    (CalculateGemmBBlockCopyPerformanceParameters (sampleContext false) sampleConfig
      sampleProblem).valid = true ∧
    (CalculateGemmBBlockCopyPerformanceParameters (sampleContext false) sampleConfig
      sampleProblem).SrcDataPerRead = 4 :=
  ⟨by decide,
    ((SrcDataPerRead_B_spec (sampleContext false) sampleConfig sampleProblem rfl
      (by decide)).1).trans (by decide)⟩

/-- C20: with the tuning toggle on, whenever the operand-B block-copy calculation succeeds, the
returned source vector width is the `GemmBThreadDataPerRead_GemmN` of the config; and the
calculation fails whenever the width derived from the layout and bounded by `BPerBlock` is
smaller than `GemmBThreadDataPerRead_GemmN` for fp16, or different from it for fp32 and
bf16. -/
theorem SrcDataPerRead_B_tuned (ctx : ConvolutionContext)
    (c : PerformanceImplicitGemmForwardV4R5Xdlops) (p : ProblemDescription)
    (htune : ctx.ADD_VECTOR_LOAD_GEMMN_TUNE_PARAM = true) :
    ((CalculateGemmBBlockCopyPerformanceParameters ctx c p).valid = true →
      (CalculateGemmBBlockCopyPerformanceParameters ctx c p).SrcDataPerRead =
        c.GemmBThreadDataPerRead_GemmN) ∧
    (p.dataType = DataType.fp16 →
      GemmBBlockCopy.SrcDataPerRead_B_bounded ctx c p < c.GemmBThreadDataPerRead_GemmN →
      (CalculateGemmBBlockCopyPerformanceParameters ctx c p).valid = false) ∧
    (p.dataType = DataType.fp32 ∨ p.dataType = DataType.bfp16 →
      GemmBBlockCopy.SrcDataPerRead_B_bounded ctx c p ≠ c.GemmBThreadDataPerRead_GemmN →
      (CalculateGemmBBlockCopyPerformanceParameters ctx c p).valid = false) := by
  refine ⟨fun h => ?_, fun hd hlt => ?_, fun hd hne => ?_⟩
  · obtain ⟨e, hm⟩ := B_SrcDataPerRead_of_valid ctx c p h
    rw [e]
    unfold GemmBBlockCopy.SrcDataPerRead_B
    unfold GemmBBlockCopy.tuneParamMismatch at hm
    by_cases h16 : p.IsFp16 = true
    · simp [htune, h16]
    · simp only [htune, h16, Bool.true_and, Bool.false_eq_true, if_false, decide_eq_false_iff_not,
        ne_eq, not_not] at hm
      simp [h16, hm]
  · rw [B_failure_of_tuneParamMismatch ctx c p]
    · rfl
    · unfold GemmBBlockCopy.tuneParamMismatch
      have h16 : p.IsFp16 = true := by simp [ProblemDescription.IsFp16, hd]
      simp [htune, h16, hlt]
  · rw [B_failure_of_tuneParamMismatch ctx c p]
    · rfl
    · unfold GemmBBlockCopy.tuneParamMismatch
      have h16 : p.IsFp16 = false := by
        rcases hd with hd | hd <;> simp [ProblemDescription.IsFp16, hd]
      simp [htune, h16, hne]

/-- Witness of C20: Scenario A with the toggle on; the bounded width is 4, so the tunable 4 is
returned and the tunable 8 of the sample config makes the calculation fail. -/
theorem SrcDataPerRead_B_tuned_witness :
    (CalculateGemmBBlockCopyPerformanceParameters (sampleContext true)
      { sampleConfig with GemmBThreadDataPerRead_GemmN := 4 } sampleProblem).valid = true ∧
    (CalculateGemmBBlockCopyPerformanceParameters (sampleContext true)
      { sampleConfig with GemmBThreadDataPerRead_GemmN := 4 } sampleProblem).SrcDataPerRead =
        4 ∧
    (CalculateGemmBBlockCopyPerformanceParameters (sampleContext true) sampleConfig
      sampleProblem).valid = false :=
  ⟨by decide,
    (SrcDataPerRead_B_tuned (sampleContext true)
      { sampleConfig with GemmBThreadDataPerRead_GemmN := 4 } sampleProblem rfl).1 (by decide),
    (SrcDataPerRead_B_tuned (sampleContext true) sampleConfig sampleProblem rfl).2.2
      (Or.inl rfl) (by decide)⟩

/-! ## The pruning heuristic -/

theorem ite_false_eq_true {q : Prop} [Decidable q] {b : Bool}
    (h : (if q then false else b) = true) : ¬ q ∧ b = true := by
  by_cases hq : q
  · rw [if_pos hq] at h
    exact absurd h (by decide)
  · rw [if_neg hq] at h
    exact ⟨hq, h⟩

/-- For a config that satisfies `IsValidValue` the `int` products of
`IsFastToBeUsedForTuning` are exact. -/
theorem IsFastToBeUsedForTuning_products (c : PerformanceImplicitGemmForwardV4R5Xdlops)
    (hv : c.IsValidValue = true) :
    wrapInt (c.GemmMPerWave * c.GemmNPerWave) = c.GemmMPerWave * c.GemmNPerWave ∧
    wrapInt (c.GemmMPerBlock.tdiv c.GemmMPerWave * c.GemmNPerBlock.tdiv c.GemmNPerWave) =
      c.GemmMPerBlock.tdiv c.GemmMPerWave * c.GemmNPerBlock.tdiv c.GemmNPerWave ∧
    (wrapInt (2 * c.GemmNPerBlock) = 2 * c.GemmNPerBlock ∧
      wrapInt (2 * c.GemmMPerBlock) = 2 * c.GemmMPerBlock ∧
      wrapInt (2 * c.GemmNPerWave) = 2 * c.GemmNPerWave ∧
      wrapInt (2 * c.GemmMPerWave) = 2 * c.GemmMPerWave) ∧
    wrapInt (wrapInt (c.GemmMPerBlock.tdiv c.GemmMPerWave * c.GemmNPerBlock.tdiv c.GemmNPerWave) *
        64) =
      c.GemmMPerBlock.tdiv c.GemmMPerWave * c.GemmNPerBlock.tdiv c.GemmNPerWave * 64 ∧
    wrapInt (wrapInt (c.GemmKPerBlock * c.GemmMPerBlock) * c.GemmKPack) =
      c.GemmKPerBlock * c.GemmMPerBlock * c.GemmKPack ∧
    wrapInt (wrapInt (c.GemmKPerBlock * c.GemmNPerBlock) * c.GemmKPack) =
      c.GemmKPerBlock * c.GemmNPerBlock * c.GemmKPack ∧
    wrapInt (c.GemmKPerBlock * c.GemmKPack) = c.GemmKPerBlock * c.GemmKPack := by
  obtain ⟨a1, a2, a3, a4, a5, a6⟩ := IsValidValue_abs c hv
  have q1 : |c.GemmMPerBlock.tdiv c.GemmMPerWave| ≤ 256 := le_trans (abs_tdiv_le _ _) a1
  have q2 : |c.GemmNPerBlock.tdiv c.GemmNPerWave| ≤ 256 := le_trans (abs_tdiv_le _ _) a2
  have t2 : |(2 : Int)| ≤ 2 := le_of_eq (abs_of_nonneg (by norm_num))
  have t64 : |(64 : Int)| ≤ 64 := le_of_eq (abs_of_nonneg (by norm_num))
  exact ⟨wrapInt_mul_of_abs a4 a5 (by norm_num), wrapInt_mul_of_abs q1 q2 (by norm_num),
    ⟨wrapInt_mul_of_abs t2 a2 (by norm_num), wrapInt_mul_of_abs t2 a1 (by norm_num),
      wrapInt_mul_of_abs t2 a5 (by norm_num), wrapInt_mul_of_abs t2 a4 (by norm_num)⟩,
    wrapInt_mul_mul_of_abs q1 q2 t64 (by norm_num),
    wrapInt_mul_mul_of_abs a3 a1 a6 (by norm_num),
    wrapInt_mul_mul_of_abs a3 a2 a6 (by norm_num), wrapInt_mul_of_abs a3 a6 (by norm_num)⟩

/-- The checks passed by a config without the spare flag that satisfies `IsValidValue` and that
`IsFastToBeUsedForTuning` accepts, in the order of the source. -/
theorem IsFastToBeUsedForTuning_checks (ctx : ConvolutionContext)
    (c : PerformanceImplicitGemmForwardV4R5Xdlops) (p : ProblemDescription)
    (hs : c.use_spare_set = false) (hv : c.IsValidValue = true)
    (h : IsFastToBeUsedForTuning ctx c p = true) :
      ¬ (c.GemmMPerWave * c.GemmNPerWave > 64 * 128) ∧
      tooManyBlocks ctx c p = false ∧
      (c.GemmMPerBlock.tdiv c.GemmMPerWave * c.GemmNPerBlock.tdiv c.GemmNPerWave > 1 ∧
        c.GemmMPerBlock.tdiv c.GemmMPerWave * c.GemmNPerBlock.tdiv c.GemmNPerWave ≤ 4) ∧
      ¬ (c.GemmMPerBlock > 2 * c.GemmNPerBlock ∧
        (CalculateGemmSize p).2.2.1.tmod (2 * c.GemmNPerBlock) = 0) ∧
      ¬ (c.GemmNPerBlock > 2 * c.GemmMPerBlock ∧
        (CalculateGemmSize p).2.1.tmod (2 * c.GemmMPerBlock) = 0) ∧
      ¬ (c.GemmMPerWave > 2 * c.GemmNPerWave ∧
        c.GemmNPerBlock.tmod (2 * c.GemmNPerWave) = 0) ∧
      ¬ (c.GemmNPerWave > 2 * c.GemmMPerWave ∧
        c.GemmMPerBlock.tmod (2 * c.GemmMPerWave) = 0) ∧
      ¬ (p.IsFp32 = true ∧
        ((c.GemmKPerBlock * c.GemmMPerBlock * c.GemmKPack).tdiv
            (c.GemmMPerBlock.tdiv c.GemmMPerWave * c.GemmNPerBlock.tdiv c.GemmNPerWave * 64) > 16 ∨
          (c.GemmKPerBlock * c.GemmNPerBlock * c.GemmKPack).tdiv
            (c.GemmMPerBlock.tdiv c.GemmMPerWave * c.GemmNPerBlock.tdiv c.GemmNPerWave * 64) >
              16)) ∧
      ¬ (¬ p.IsFp32 = true ∧ (p.IsFp16 = true ∨ p.IsBfp16 = true) ∧
        ((c.GemmKPerBlock * c.GemmMPerBlock * c.GemmKPack).tdiv
            (c.GemmMPerBlock.tdiv c.GemmMPerWave * c.GemmNPerBlock.tdiv c.GemmNPerWave * 64) > 32 ∨
          (c.GemmKPerBlock * c.GemmNPerBlock * c.GemmKPack).tdiv
            (c.GemmMPerBlock.tdiv c.GemmMPerWave * c.GemmNPerBlock.tdiv c.GemmNPerWave * 64) >
              32)) ∧
      ¬ (p.IsFp32 = true ∧ c.GemmKPack > 4) ∧
      ¬ (p.IsFp32 = true ∧ c.GemmKPerBlock * c.GemmKPack < 8) ∧
      ¬ (¬ p.IsFp32 = true ∧ (p.IsFp16 = true ∨ p.IsBfp16 = true) ∧
        c.GemmKPerBlock * c.GemmKPack < 16) ∧
      ¬ (ctx.ADD_VECTOR_LOAD_GEMMN_TUNE_PARAM = true ∧ p.IsFp16 = true ∧
        (CalculateGemmBBlockCopyPerformanceParameters ctx c p).valid = true ∧
        (CalculateGemmBBlockCopyPerformanceParameters ctx c p).SrcDataPerRead > 1 ∧
        ((CalculateGemmBBlockCopyPerformanceParameters ctx c p).DstDataPerWrite_GemmKPack = 1 ∨
          (CalculateGemmBBlockCopyPerformanceParameters ctx c p).DstDataPerWrite_GemmKPack =
            2)) := by
  obtain ⟨e1, e2, ⟨e3, e4, e5, e6⟩, e7, e8, e9, e10⟩ := IsFastToBeUsedForTuning_products c hv
  unfold IsFastToBeUsedForTuning at h
  rw [hs, if_neg (by decide)] at h
  have e7b := e7
  rw [e2] at e7b
  simp only [e1, e2, e3, e4, e5, e6, e7b, e8, e9, e10] at h
  obtain ⟨h1, h⟩ := ite_false_eq_true h
  obtain ⟨h2, h⟩ := ite_false_eq_true h
  obtain ⟨h3, h⟩ := ite_false_eq_true h
  obtain ⟨h4, h⟩ := ite_false_eq_true h
  obtain ⟨h5, h⟩ := ite_false_eq_true h
  obtain ⟨h6, h⟩ := ite_false_eq_true h
  obtain ⟨h7, h⟩ := ite_false_eq_true h
  obtain ⟨h8, h⟩ := ite_false_eq_true h
  obtain ⟨h9, h⟩ := ite_false_eq_true h
  obtain ⟨h10, h⟩ := ite_false_eq_true h
  obtain ⟨h11, h⟩ := ite_false_eq_true h
  obtain ⟨h12, h⟩ := ite_false_eq_true h
  obtain ⟨h13, -⟩ := ite_false_eq_true h
  exact ⟨h1, Bool.not_eq_true _ ▸ h2, not_not.mp h3, h4, h5, h6, h7, h8, h9, h10, h11, h12, h13⟩

/-- C22: for a config whose spare flag is set `IsFastToBeUsedForTuning` returns true, whatever
the other fields, the problem and the hardware context. -/
theorem IsFastToBeUsedForTuning_of_spare (ctx : ConvolutionContext)
    (c : PerformanceImplicitGemmForwardV4R5Xdlops) (p : ProblemDescription)
    (hs : c.use_spare_set = true) : IsFastToBeUsedForTuning ctx c p = true := by
  unfold IsFastToBeUsedForTuning
  rw [if_pos hs]

/-- Witness of C22: the default config with the spare flag set is accepted for
`largestTileProblem`, while the default config itself (one wave per block) is rejected. -/
theorem IsFastToBeUsedForTuning_of_spare_witness :
    IsFastToBeUsedForTuning (sampleContext false) ⟨4, 4, 1, 4, 4, 1, false, false, 1, true⟩
      largestTileProblem = true ∧
    IsFastToBeUsedForTuning (sampleContext false) ⟨4, 4, 1, 4, 4, 1, false, false, 1, false⟩
      largestTileProblem = false :=
  ⟨IsFastToBeUsedForTuning_of_spare (sampleContext false) _ largestTileProblem rfl, by decide⟩

/-- Counterexample to C23 as stated: the config `(6, 715827883, 4, 1, 1, 4)` without the spare
flag is accepted for the fp32 problem with `gemm_m = gemm_n = 4`, although its number of waves
per block `(6 / 1) * (715827883 / 1) = 4294967298` is above 4: as an `int` the product is `2`.
No divisor of the call is zero (`block_m * block_n` is `2` as an `int`, `2 * block_n` is
`1431655766`, `2 * block_m` is `12`, the `block_size` is `128`). -/
theorem IsFastToBeUsedForTuning_waves_overflow :
    (CalculateGemmSize tinyProblem).2.1 = 4 ∧ (CalculateGemmSize tinyProblem).2.2.1 = 4 ∧
    IsFastToBeUsedForTuning (sampleContext false)
      ⟨6, 715827883, 4, 1, 1, 4, false, true, 1, false⟩ tinyProblem = true ∧
    (6 : Int).tdiv 1 * (715827883 : Int).tdiv 1 = 4294967298 ∧
    wrapInt ((6 : Int).tdiv 1 * (715827883 : Int).tdiv 1) = 2 ∧
    wrapInt (6 * 715827883) = 2 ∧
    ¬ ((6 : Int).tdiv 1 * (715827883 : Int).tdiv 1 ≤ 4) := by
  decide

/-- C23 (amended): for a config without the spare flag that satisfies `IsValidValue` and that
`IsFastToBeUsedForTuning` accepts, the number of waves per block
`(block_m / wave_m) * (block_n / wave_n)` (integer divisions) is greater than 1 and at most 4; a
config without the spare flag that satisfies `IsValidValue` and whose number of waves per block
is outside that interval is rejected. -/
theorem IsFastToBeUsedForTuning_waves_per_block (ctx : ConvolutionContext)
    (c : PerformanceImplicitGemmForwardV4R5Xdlops) (p : ProblemDescription)
    (hs : c.use_spare_set = false) (hv : c.IsValidValue = true) :
    (IsFastToBeUsedForTuning ctx c p = true →
      1 < c.GemmMPerBlock.tdiv c.GemmMPerWave * c.GemmNPerBlock.tdiv c.GemmNPerWave ∧
      c.GemmMPerBlock.tdiv c.GemmMPerWave * c.GemmNPerBlock.tdiv c.GemmNPerWave ≤ 4) ∧
    (¬ (1 < c.GemmMPerBlock.tdiv c.GemmMPerWave * c.GemmNPerBlock.tdiv c.GemmNPerWave ∧
        c.GemmMPerBlock.tdiv c.GemmMPerWave * c.GemmNPerBlock.tdiv c.GemmNPerWave ≤ 4) →
      IsFastToBeUsedForTuning ctx c p = false) := by
  have key := fun h => (IsFastToBeUsedForTuning_checks ctx c p hs hv h).2.2.1
  refine ⟨fun h => key h, fun hn => ?_⟩
  rw [← Bool.not_eq_true]
  exact fun h => hn (key h)

/-- Witness of C23 (amended): `fastConfig` (4 waves per block) is accepted for
`largestTileProblem`; the default config (1 wave per block) is rejected. -/
theorem IsFastToBeUsedForTuning_waves_per_block_witness :
    fastConfig.use_spare_set = false ∧ fastConfig.IsValidValue = true ∧
    IsFastToBeUsedForTuning (sampleContext false) fastConfig largestTileProblem = true ∧
    (1 < fastConfig.GemmMPerBlock.tdiv fastConfig.GemmMPerWave *
        fastConfig.GemmNPerBlock.tdiv fastConfig.GemmNPerWave ∧
      fastConfig.GemmMPerBlock.tdiv fastConfig.GemmMPerWave *
        fastConfig.GemmNPerBlock.tdiv fastConfig.GemmNPerWave ≤ 4) ∧
    IsFastToBeUsedForTuning (sampleContext false)
      PerformanceImplicitGemmForwardV4R5Xdlops.default sampleProblem = false :=
  ⟨rfl, by decide, by decide,
    (IsFastToBeUsedForTuning_waves_per_block (sampleContext false) fastConfig largestTileProblem
      rfl (by decide)).1 (by decide),
    (IsFastToBeUsedForTuning_waves_per_block (sampleContext false)
      PerformanceImplicitGemmForwardV4R5Xdlops.default sampleProblem rfl (by decide)).2
      (by decide)⟩

/-- Counterexample to C24 as stated: the config `(1923, 6700417, 1200273, 641, 6700417, 1)`
without the spare flag is accepted for the fp32 problem with `gemm_m = gemm_n = 4`, although
its operand-A volume `block_k * block_m * k_pack / block_size = 2308124979 / 192 = 12021484` is
above 16: as an `int` the product `block_k * block_m` is negative.  No divisor of the call is
zero (`block_m * block_n` is `3` as an `int`, `2 * block_n` is `13400834`, `2 * block_m` is
`3846`, `2 * wave_m` is `1282`, the `block_size` is `192`). -/
theorem IsFastToBeUsedForTuning_volume_overflow :
    (CalculateGemmSize tinyProblem).2.1 = 4 ∧ (CalculateGemmSize tinyProblem).2.2.1 = 4 ∧
    tinyProblem.dataType = DataType.fp32 ∧
    IsFastToBeUsedForTuning (sampleContext false)
      ⟨1923, 6700417, 1200273, 641, 6700417, 1, false, true, 1, false⟩ tinyProblem = true ∧
    ((1200273 : Int) * 1923 * 1).tdiv ((1923 : Int).tdiv 641 * (6700417 : Int).tdiv 6700417 * 64)
      = 12021484 ∧
    wrapInt (wrapInt (1200273 * 1923) * 1) = -1986842317 ∧
    wrapInt (1923 * 6700417) = 3 ∧
    ¬ (((1200273 : Int) * 1923 * 1).tdiv
      ((1923 : Int).tdiv 641 * (6700417 : Int).tdiv 6700417 * 64) ≤ 16) := by
  decide

/-- C24 (amended): for a config without the spare flag that satisfies `IsValidValue` and that
`IsFastToBeUsedForTuning` accepts, with
`block_size = (block_m / wave_m) * (block_n / wave_n) * 64`, the per-thread volumes
`block_k * block_m * k_pack / block_size` and `block_k * block_n * k_pack / block_size` are at
most 16 for fp32 and at most 32 for fp16 and bf16. -/
theorem IsFastToBeUsedForTuning_data_per_thread (ctx : ConvolutionContext)
    (c : PerformanceImplicitGemmForwardV4R5Xdlops) (p : ProblemDescription)
    (hs : c.use_spare_set = false) (hv : c.IsValidValue = true)
    (h : IsFastToBeUsedForTuning ctx c p = true) :
    (p.dataType = DataType.fp32 →
      (c.GemmKPerBlock * c.GemmMPerBlock * c.GemmKPack).tdiv
          (c.GemmMPerBlock.tdiv c.GemmMPerWave * c.GemmNPerBlock.tdiv c.GemmNPerWave * 64) ≤ 16 ∧
        (c.GemmKPerBlock * c.GemmNPerBlock * c.GemmKPack).tdiv
          (c.GemmMPerBlock.tdiv c.GemmMPerWave * c.GemmNPerBlock.tdiv c.GemmNPerWave * 64) ≤
            16) ∧
    (p.dataType = DataType.fp16 ∨ p.dataType = DataType.bfp16 →
      (c.GemmKPerBlock * c.GemmMPerBlock * c.GemmKPack).tdiv
          (c.GemmMPerBlock.tdiv c.GemmMPerWave * c.GemmNPerBlock.tdiv c.GemmNPerWave * 64) ≤ 32 ∧
        (c.GemmKPerBlock * c.GemmNPerBlock * c.GemmKPack).tdiv
          (c.GemmMPerBlock.tdiv c.GemmMPerWave * c.GemmNPerBlock.tdiv c.GemmNPerWave * 64) ≤
            32) := by
  obtain ⟨-, -, -, -, -, -, -, h8, h9, -⟩ := IsFastToBeUsedForTuning_checks ctx c p hs hv h
  constructor
  · intro hd
    have h32 : p.IsFp32 = true := by simp [ProblemDescription.IsFp32, hd]
    have := not_and.mp h8 h32
    omega
  · intro hd
    have h32 : ¬ p.IsFp32 = true := by
      rcases hd with hd | hd <;> simp [ProblemDescription.IsFp32, hd]
    have h16 : p.IsFp16 = true ∨ p.IsBfp16 = true := by
      rcases hd with hd | hd
      · exact Or.inl (by simp [ProblemDescription.IsFp16, hd])
      · exact Or.inr (by simp [ProblemDescription.IsBfp16, hd])
    have := not_and.mp (not_and.mp h9 h32) h16
    omega

/-- Witness of C24 (amended): `fastConfig` on the fp32 problem `largestTileProblem`; the two
volumes are `4 * 256 * 4 / 256 = 16` and `4 * 128 * 4 / 256 = 8`. -/
theorem IsFastToBeUsedForTuning_data_per_thread_witness :
    fastConfig.use_spare_set = false ∧ fastConfig.IsValidValue = true ∧
    IsFastToBeUsedForTuning (sampleContext false) fastConfig largestTileProblem = true ∧
    (fastConfig.GemmKPerBlock * fastConfig.GemmMPerBlock * fastConfig.GemmKPack).tdiv
        (fastConfig.GemmMPerBlock.tdiv fastConfig.GemmMPerWave *
          fastConfig.GemmNPerBlock.tdiv fastConfig.GemmNPerWave * 64) ≤ 16 ∧
    (fastConfig.GemmKPerBlock * fastConfig.GemmNPerBlock * fastConfig.GemmKPack).tdiv
        (fastConfig.GemmMPerBlock.tdiv fastConfig.GemmMPerWave *
          fastConfig.GemmNPerBlock.tdiv fastConfig.GemmNPerWave * 64) ≤ 16 :=
  ⟨rfl, by decide, by decide,
    (IsFastToBeUsedForTuning_data_per_thread (sampleContext false) fastConfig largestTileProblem
      rfl (by decide) (by decide)).1 rfl⟩

/-- A successful operand-A block-copy calculation returns the values of its locals. -/
theorem A_outputs_of_valid (ctx : ConvolutionContext)
    (c : PerformanceImplicitGemmForwardV4R5Xdlops) (p : ProblemDescription)
    (h : (CalculateGemmABlockCopyPerformanceParameters ctx c p).valid = true) :
    CalculateGemmABlockCopyPerformanceParameters ctx c p =
      ⟨GemmABlockCopy.ClusterLengths_GemmK ctx c p, GemmABlockCopy.ClusterLengths_GemmM ctx c p,
        GemmABlockCopy.ClusterLengths_GemmKPack ctx c p,
        GemmABlockCopy.SrcDataPerRead_GemmKPack ctx c p,
        GemmABlockCopy.DstDataPerWrite_GemmKPack ctx c p, true⟩ := by
  unfold CalculateGemmABlockCopyPerformanceParameters at h ⊢
  split_ifs at h ⊢ with h1 h2 h3 h4
  all_goals first
    | exact absurd h (by decide)
    | rfl

/-- Counterexample to C21 as stated: for the config with `block_m = wave_m = 320`,
`block_n = wave_n = 1`, `block_k = 13421773` and `k_pack = 1` (block size 64) and an fp32
problem, the `int` product `block_k * block_m * k_pack = 2 ^ 32 + 64` wraps to `64`, the
per-thread volume of the code is `max(1, 64 / 64) = 1`, and the calculation succeeds with the
cluster extents `(13421773, 320, 1)` (their `int` product is `64`); the reference definition,
with `v = max(1, (2 ^ 32 + 64) / 64) / 1 = 67108865`, gives `(1, 64, 1)`.  No division of the
call has a zero divisor. -/
theorem CalculateGemmABlockCopyPerformanceParameters_overflow :
    (PerformanceImplicitGemmForwardV4R5Xdlops.mk 320 1 13421773 320 1 1 false true 1
      false).CalculateBlockSize = (64, true) ∧
    (PerformanceImplicitGemmForwardV4R5Xdlops.mk 320 1 13421773 320 1 1 false true 1
      false).CalculateBlockSize_traps = false ∧
    CalculateGemmABlockCopyPerformanceParameters (sampleContext false)
      ⟨320, 1, 13421773, 320, 1, 1, false, true, 1, false⟩ sampleProblem =
        ⟨13421773, 320, 1, 1, 1, true⟩ ∧
    referenceGemmABlockCopy
      (if sampleProblem.IsFp32 = true then (sampleContext false).buffer_load_max_length_float
        else (sampleContext false).buffer_load_max_length_half)
      (if sampleProblem.IsFp32 = true then (sampleContext false).lds_write_max_length_float
        else (sampleContext false).lds_write_max_length_half)
      64 ⟨320, 1, 13421773, 320, 1, 1, false, true, 1, false⟩ = (1, 64, 1, 1, 1) ∧
    ((13421773 : Int), (320 : Int), (1 : Int), (1 : Int), (1 : Int)) ≠ (1, 64, 1, 1, 1) := by
  decide

/-- C21 (amended): whenever the operand-A block-copy calculation succeeds and the product
`block_k * block_m * k_pack` has an absolute value below `2 ^ 31` (no `int` overflow), its five
outputs are those of the reference definition: source width `s = gcd(maxLoad, k_pack)`,
destination width `gcd(maxStore, s)`, and, with
`v = max(1, block_k * block_m * k_pack / BlockSize) / s`, per-thread extents
`(gcd(block_k, v), v / gcd(block_k, v))` when the A copy-priority flag is set and
`(v / gcd(block_m, v), gcd(block_m, v))` otherwise, and cluster extents
`(block_k / dk, block_m / dm, k_pack / s)`. -/
theorem CalculateGemmABlockCopyPerformanceParameters_spec (ctx : ConvolutionContext)
    (c : PerformanceImplicitGemmForwardV4R5Xdlops) (p : ProblemDescription)
    (hfit : |c.GemmKPerBlock * c.GemmMPerBlock * c.GemmKPack| < 2 ^ 31)
    (h : (CalculateGemmABlockCopyPerformanceParameters ctx c p).valid = true) :
    ((CalculateGemmABlockCopyPerformanceParameters ctx c p).ClusterLengths_GemmK,
      (CalculateGemmABlockCopyPerformanceParameters ctx c p).ClusterLengths_GemmMOrB,
      (CalculateGemmABlockCopyPerformanceParameters ctx c p).ClusterLengths_GemmKPack,
      (CalculateGemmABlockCopyPerformanceParameters ctx c p).SrcDataPerRead,
      (CalculateGemmABlockCopyPerformanceParameters ctx c p).DstDataPerWrite_GemmKPack) =
    referenceGemmABlockCopy
      (if p.IsFp32 = true then ctx.buffer_load_max_length_float
        else ctx.buffer_load_max_length_half)
      (if p.IsFp32 = true then ctx.lds_write_max_length_float
        else ctx.lds_write_max_length_half)
      c.CalculateBlockSize.1 c := by
  have b := abs_lt.mp hfit
  have e : GemmABlockCopy.data_per_thread_copy c =
      max 1 ((c.GemmKPerBlock * c.GemmMPerBlock * c.GemmKPack).tdiv c.CalculateBlockSize.1) := by
    unfold GemmABlockCopy.data_per_thread_copy
    rw [wrapInt_mul_left, wrapInt_of_range (by omega) (by omega)]
  rw [A_outputs_of_valid ctx c p h]
  simp only [GemmABlockCopy.ClusterLengths_GemmK, GemmABlockCopy.ClusterLengths_GemmM,
    GemmABlockCopy.ClusterLengths_GemmKPack, GemmABlockCopy.data_per_thread_copy_gemmk,
    GemmABlockCopy.data_per_thread_copy_gemmm, GemmABlockCopy.tmp,
    GemmABlockCopy.DstDataPerWrite_GemmKPack, GemmABlockCopy.SrcDataPerRead_GemmKPack, e,
    referenceGemmABlockCopy]

/-- Witness of C21 (amended): the sample config on Scenario A (fp32, block size 128,
`block_k * block_m * k_pack = 512`): source width 4, destination width 4, `v = 1`, cluster
extents `(2, 64, 1)`. -/
theorem CalculateGemmABlockCopyPerformanceParameters_spec_witness :
    (CalculateGemmABlockCopyPerformanceParameters (sampleContext false) sampleConfig
      sampleProblem).valid = true ∧
    referenceGemmABlockCopy 4 4 128 sampleConfig = (2, 64, 1, 4, 4) ∧
    ((CalculateGemmABlockCopyPerformanceParameters (sampleContext false) sampleConfig
        sampleProblem).ClusterLengths_GemmK,
      (CalculateGemmABlockCopyPerformanceParameters (sampleContext false) sampleConfig
        sampleProblem).ClusterLengths_GemmMOrB,
      (CalculateGemmABlockCopyPerformanceParameters (sampleContext false) sampleConfig
        sampleProblem).ClusterLengths_GemmKPack,
      (CalculateGemmABlockCopyPerformanceParameters (sampleContext false) sampleConfig
        sampleProblem).SrcDataPerRead,
      (CalculateGemmABlockCopyPerformanceParameters (sampleContext false) sampleConfig
        sampleProblem).DstDataPerWrite_GemmKPack) =
    referenceGemmABlockCopy
      (if sampleProblem.IsFp32 = true then (sampleContext false).buffer_load_max_length_float
        else (sampleContext false).buffer_load_max_length_half)
      (if sampleProblem.IsFp32 = true then (sampleContext false).lds_write_max_length_float
        else (sampleContext false).lds_write_max_length_half)
      sampleConfig.CalculateBlockSize.1 sampleConfig :=
  ⟨by decide, by decide,
    CalculateGemmABlockCopyPerformanceParameters_spec (sampleContext false) sampleConfig
      sampleProblem (abs_lt.mpr ⟨by decide, by decide⟩) (by decide)⟩

/-! ## Block and grid size of a valid config -/

theorem A_valid_CalculateBlockSize (ctx : ConvolutionContext)
    (c : PerformanceImplicitGemmForwardV4R5Xdlops) (p : ProblemDescription)
    (h : (CalculateGemmABlockCopyPerformanceParameters ctx c p).valid = true) :
    c.CalculateBlockSize.2 = true := by
  unfold CalculateGemmABlockCopyPerformanceParameters at h
  split_ifs at h with h1
  all_goals first
    | exact absurd h (by decide)
    | simpa using h1

theorem B_valid_CalculateBlockSize (ctx : ConvolutionContext)
    (c : PerformanceImplicitGemmForwardV4R5Xdlops) (p : ProblemDescription)
    (h : (CalculateGemmBBlockCopyPerformanceParameters ctx c p).valid = true) :
    c.CalculateBlockSize.2 = true := by
  unfold CalculateGemmBBlockCopyPerformanceParameters at h
  split_ifs at h with h1
  all_goals first
    | exact absurd h (by decide)
    | simpa using h1

/-- `CalculateGridSize` succeeds exactly when `block_m` divides `gemm_m` and `block_n` divides
`gemm_n`. -/
theorem CalculateGridSize_eq_of_divides (c : PerformanceImplicitGemmForwardV4R5Xdlops)
    (p : ProblemDescription)
    (h : (CalculateGemmSize p).2.1.tmod c.GemmMPerBlock = 0 ∧
      (CalculateGemmSize p).2.2.1.tmod c.GemmNPerBlock = 0) :
    c.CalculateGridSize p =
      (wrapInt (wrapInt ((CalculateGemmSize p).1 *
          (CalculateGemmSize p).2.1.tdiv c.GemmMPerBlock) *
        (CalculateGemmSize p).2.2.1.tdiv c.GemmNPerBlock), true) := by
  unfold CalculateGridSize
  simp only [h, and_self, not_true_eq_false, if_false]

/-- Counterexample to C26 as stated.  For the fp16 pointwise problem with
`N * Ho * Wo = 2 ^ 32 - 64`, whose `gemm_n` is `-64` as an `int`, the config
`(64, 64, 2, 64, 64, 4)` satisfies `IsReallyValid`, and `CalculateGridSize` returns valid with the
grid size `1 * (64 / 64) * (-64 / 64) = -1`.  For the fp32 problem G=3, N=4, K=60, C=192,
Ho=4369, Wo=65537, whose GEMM sizes `(3, 20, 1145324612, 64)` are `int`s, the config
`(4, 4, 8, 4, 4, 8)` satisfies `IsReallyValid`, and `CalculateGridSize` returns valid with the grid
size `-1`: the `int` product `3 * 5 * 286331153 = 2 ^ 32 - 1` wraps. -/
theorem CalculateGridSize_minus_one :
    (CalculateGemmSize overflowProblem = (1, 64, -64, 64) ∧
      IsReallyValid (sampleContext false) squareWaveConfig overflowProblem = true ∧
      squareWaveConfig.CalculateGridSize_traps overflowProblem = false ∧
      squareWaveConfig.CalculateGridSize overflowProblem = (-1, true)) ∧
    (CalculateGemmSize gridOverflowProblem = (3, 20, 1145324612, 64) ∧
      IsReallyValid (sampleContext false) smallTileConfig gridOverflowProblem = true ∧
      smallTileConfig.CalculateGridSize_traps gridOverflowProblem = false ∧
      smallTileConfig.CalculateGridSize gridOverflowProblem = (-1, true)) := by
  decide

/-- C26 (amended): whenever `IsReallyValid` holds for a config, `CalculateBlockSize` and
`CalculateGridSize` both return valid; the block size is a multiple of 64, hence not `-1`, and
the grid size is not `-1` either as long as the GEMM sizes `gemm_g`, `gemm_m`, `gemm_n` returned
by `CalculateGemmSize` are non-negative (that is, `G`, `K / G` and `N * Ho * Wo` fit an
`int`) and the product `gemm_g * (gemm_m / block_m) * (gemm_n / block_n)` is below `2 ^ 31`
(no `int` overflow). -/
theorem IsReallyValid_block_and_grid_size (ctx : ConvolutionContext)
    (c : PerformanceImplicitGemmForwardV4R5Xdlops) (p : ProblemDescription)
    (h : IsReallyValid ctx c p = true) :
    c.CalculateBlockSize.2 = true ∧ (c.CalculateGridSize p).2 = true ∧
    c.CalculateBlockSize.1 ≠ -1 ∧
    (0 ≤ (CalculateGemmSize p).1 → 0 ≤ (CalculateGemmSize p).2.1 →
      0 ≤ (CalculateGemmSize p).2.2.1 →
      (CalculateGemmSize p).1 * (CalculateGemmSize p).2.1.tdiv c.GemmMPerBlock *
        (CalculateGemmSize p).2.2.1.tdiv c.GemmNPerBlock < 2 ^ 31 →
      (c.CalculateGridSize p).1 =
        (CalculateGemmSize p).1 * (CalculateGemmSize p).2.1.tdiv c.GemmMPerBlock *
          (CalculateGemmSize p).2.2.1.tdiv c.GemmNPerBlock ∧
      (c.CalculateGridSize p).1 ≠ -1) := by
  obtain ⟨hv, -, -, -, hm, hn, -, -, -, -⟩ := (IsReallyValid_eq_true_iff ctx c p).mp h
  obtain ⟨hb, h64⟩ := CalculateBlockSize_valid_of_IsReallyValid ctx c p h
  have hg := CalculateGridSize_eq_of_divides c p ⟨hm, hn⟩
  refine ⟨hb, by rw [hg], ?_, ?_⟩
  · intro he
    rw [he] at h64
    omega
  · intro g0 m0 n0 hfit
    rw [hg]
    simp only [IsValidValue, IsTwoPower, Bool.and_eq_true, decide_eq_true_eq] at hv
    obtain ⟨⟨⟨⟨⟨⟨⟨⟨-, bm1⟩, -⟩, ⟨⟨-, bn1⟩, -⟩⟩, -⟩, -⟩, -⟩, -⟩, -⟩ := hv
    have q1 : 0 ≤ (CalculateGemmSize p).2.1.tdiv c.GemmMPerBlock :=
      Int.tdiv_nonneg m0 (by omega)
    have q2 : 0 ≤ (CalculateGemmSize p).2.2.1.tdiv c.GemmNPerBlock :=
      Int.tdiv_nonneg n0 (by omega)
    have : 0 ≤ (CalculateGemmSize p).1 * (CalculateGemmSize p).2.1.tdiv c.GemmMPerBlock *
        (CalculateGemmSize p).2.2.1.tdiv c.GemmNPerBlock :=
      mul_nonneg (mul_nonneg g0 q1) q2
    have e : wrapInt (wrapInt ((CalculateGemmSize p).1 *
        (CalculateGemmSize p).2.1.tdiv c.GemmMPerBlock) *
        (CalculateGemmSize p).2.2.1.tdiv c.GemmNPerBlock) =
        (CalculateGemmSize p).1 * (CalculateGemmSize p).2.1.tdiv c.GemmMPerBlock *
        (CalculateGemmSize p).2.2.1.tdiv c.GemmNPerBlock := by
      rw [wrapInt_mul_left]
      exact wrapInt_of_range (by omega) hfit
    refine ⟨e, ?_⟩
    show wrapInt _ ≠ (-1 : Int)
    rw [e]
    omega

/-- Witness of C26 (amended): the sample config on Scenario A: block size 128, grid size
`1 * (64 / 64) * (200704 / 256) = 784`. -/
theorem IsReallyValid_block_and_grid_size_witness :
    IsReallyValid (sampleContext false) sampleConfig sampleProblem = true ∧
    CalculateGemmSize sampleProblem = (1, 64, 200704, 576) ∧
    sampleConfig.CalculateBlockSize = (128, true) ∧
    sampleConfig.CalculateGridSize sampleProblem = (784, true) ∧
    (sampleConfig.CalculateGridSize sampleProblem).1 ≠ -1 :=
  ⟨by decide, by decide, by decide, by decide,
    ((IsReallyValid_block_and_grid_size (sampleContext false) sampleConfig sampleProblem
      (by decide)).2.2.2 (by decide) (by decide) (by decide) (by decide)).2⟩

/-! ## `SetNextValue` keeps the fields in their ranges -/

theorem IsTwoPower_NextTwoPower_1_8 (v : Int) (h : IsTwoPower 1 8 v = true) :
    IsTwoPower 1 8 (NextTwoPower 1 8 v).1 = true := by
  obtain ⟨⟨hd, hv⟩, -⟩ := IsTwoPower_digits (L := 1) (H := 8) 0 3 (by norm_num) (by norm_num)
    (by norm_num) h
  rw [← hv]
  generalize ilog2 v - 0 = d at hd
  interval_cases d <;> decide

theorem IsTwoPower_NextTwoPower_4_128 (v : Int) (h : IsTwoPower 4 128 v = true) :
    IsTwoPower 4 128 (NextTwoPower 4 128 v).1 = true := by
  obtain ⟨⟨hd, hv⟩, -⟩ := IsTwoPower_digits (L := 4) (H := 128) 2 5 (by norm_num) (by norm_num)
    (by norm_num) h
  rw [← hv]
  generalize ilog2 v - 2 = d at hd
  interval_cases d <;> decide

theorem IsTwoPower_NextTwoPower_4_256 (v : Int) (h : IsTwoPower 4 256 v = true) :
    IsTwoPower 4 256 (NextTwoPower 4 256 v).1 = true := by
  obtain ⟨⟨hd, hv⟩, -⟩ := IsTwoPower_digits (L := 4) (H := 256) 2 6 (by norm_num) (by norm_num)
    (by norm_num) h
  rw [← hv]
  generalize ilog2 v - 2 = d at hd
  interval_cases d <;> decide

theorem ite_fst {α β : Type} (P : α → Prop) (q : Prop) [Decidable q] (x y : α × β)
    (hx : P x.1) (hy : P y.1) : P (if q then x else y).1 := by
  split_ifs
  · exact hx
  · exact hy

/-- An invariant of `SetNextValue`: a property of configs that is kept by every field advance
of the chain holds after the call. -/
theorem SetNextValue_invariant (P : PerformanceImplicitGemmForwardV4R5Xdlops → Prop)
    (ctx : ConvolutionContext) (c : PerformanceImplicitGemmForwardV4R5Xdlops) (h0 : P c)
    (ht : ∀ d, P d → P { d with GemmBThreadDataPerRead_GemmN :=
      (if ctx.ADD_VECTOR_LOAD_GEMMN_TUNE_PARAM then
        NextTwoPower 1 8 d.GemmBThreadDataPerRead_GemmN
       else (d.GemmBThreadDataPerRead_GemmN, true)).1 })
    (hfb : ∀ d, P d → P { d with GemmBThreadCopyMoreGemmKPack :=
      (NextFlag false true d.GemmBThreadCopyMoreGemmKPack).1 })
    (hfa : ∀ d, P d → P { d with GemmAThreadCopyMoreGemmK :=
      (NextFlag false false d.GemmAThreadCopyMoreGemmK).1 })
    (hkp : ∀ d, P d → P { d with GemmKPack := (NextTwoPower 1 8 d.GemmKPack).1 })
    (hwn : ∀ d, P d → P { d with GemmNPerWave := (NextTwoPower 4 128 d.GemmNPerWave).1 })
    (hwm : ∀ d, P d → P { d with GemmMPerWave := (NextTwoPower 4 128 d.GemmMPerWave).1 })
    (hbk : ∀ d, P d → P { d with GemmKPerBlock := (NextTwoPower 1 8 d.GemmKPerBlock).1 })
    (hbn : ∀ d, P d → P { d with GemmNPerBlock := (NextTwoPower 4 256 d.GemmNPerBlock).1 })
    (hbm : ∀ d, P d → P { d with GemmMPerBlock := (NextTwoPower 4 256 d.GemmMPerBlock).1 }) :
    P (SetNextValue ctx c).1 := by
  have p1 := ht _ h0
  have p2 := hfb _ p1
  have p3 := hfa _ p2
  have p4 := hkp _ p3
  have p5 := hwn _ p4
  have p6 := hwm _ p5
  have p7 := hbk _ p6
  have p8 := hbn _ p7
  have p9 := hbm _ p8
  unfold SetNextValue
  refine ite_fst P _ _ _ p1 ?_
  refine ite_fst P _ _ _ p2 ?_
  refine ite_fst P _ _ _ p3 ?_
  refine ite_fst P _ _ _ p4 ?_
  refine ite_fst P _ _ _ p5 ?_
  refine ite_fst P _ _ _ p6 ?_
  refine ite_fst P _ _ _ p7 ?_
  refine ite_fst P _ _ _ p8 ?_
  exact ite_fst P _ _ _ p9 p9

theorem IsValidValue_eq_true_iff (c : PerformanceImplicitGemmForwardV4R5Xdlops) :
    c.IsValidValue = true ↔
      IsTwoPower 4 256 c.GemmMPerBlock = true ∧ IsTwoPower 4 256 c.GemmNPerBlock = true ∧
      IsTwoPower 1 8 c.GemmKPerBlock = true ∧ IsTwoPower 4 128 c.GemmMPerWave = true ∧
      IsTwoPower 4 128 c.GemmNPerWave = true ∧ IsTwoPower 1 8 c.GemmKPack = true ∧
      IsTwoPower 1 8 c.GemmBThreadDataPerRead_GemmN = true := by
  unfold IsValidValue
  simp only [Bool.and_eq_true, and_assoc]

/-- C30: `SetNextValue` preserves `IsValidValue` and does not touch the spare flag: for a
config that satisfies `IsValidValue`, the config after one call (whatever the call returns,
tuning toggle on or off) satisfies `IsValidValue`, has the same `use_spare_set` and, when the
tuning toggle is off, the same `GemmBThreadDataPerRead_GemmN`. -/
theorem SetNextValue_preserves_IsValidValue (ctx : ConvolutionContext)
    (c : PerformanceImplicitGemmForwardV4R5Xdlops) (h : c.IsValidValue = true) :
    (SetNextValue ctx c).1.IsValidValue = true ∧
    (SetNextValue ctx c).1.use_spare_set = c.use_spare_set ∧
    (ctx.ADD_VECTOR_LOAD_GEMMN_TUNE_PARAM = false →
      (SetNextValue ctx c).1.GemmBThreadDataPerRead_GemmN = c.GemmBThreadDataPerRead_GemmN) := by
  apply SetNextValue_invariant (fun d => d.IsValidValue = true ∧
    d.use_spare_set = c.use_spare_set ∧
    (ctx.ADD_VECTOR_LOAD_GEMMN_TUNE_PARAM = false →
      d.GemmBThreadDataPerRead_GemmN = c.GemmBThreadDataPerRead_GemmN)) ctx c
    ⟨h, rfl, fun _ => rfl⟩
  · rintro d ⟨hv, hs, ht⟩
    obtain ⟨v1, v2, v3, v4, v5, v6, v7⟩ := (IsValidValue_eq_true_iff d).mp hv
    cases htune : ctx.ADD_VECTOR_LOAD_GEMMN_TUNE_PARAM
    · exact ⟨(IsValidValue_eq_true_iff _).mpr ⟨v1, v2, v3, v4, v5, v6, v7⟩, hs,
        fun _ => ht htune⟩
    · exact ⟨(IsValidValue_eq_true_iff _).mpr
        ⟨v1, v2, v3, v4, v5, v6, IsTwoPower_NextTwoPower_1_8 _ v7⟩, hs,
        fun hf => absurd hf (by decide)⟩
  · rintro d ⟨hv, hs, ht⟩
    exact ⟨(IsValidValue_eq_true_iff _).mpr ((IsValidValue_eq_true_iff d).mp hv), hs, ht⟩
  · rintro d ⟨hv, hs, ht⟩
    exact ⟨(IsValidValue_eq_true_iff _).mpr ((IsValidValue_eq_true_iff d).mp hv), hs, ht⟩
  · rintro d ⟨hv, hs, ht⟩
    obtain ⟨v1, v2, v3, v4, v5, v6, v7⟩ := (IsValidValue_eq_true_iff d).mp hv
    exact ⟨(IsValidValue_eq_true_iff _).mpr
      ⟨v1, v2, v3, v4, v5, IsTwoPower_NextTwoPower_1_8 _ v6, v7⟩, hs, ht⟩
  · rintro d ⟨hv, hs, ht⟩
    obtain ⟨v1, v2, v3, v4, v5, v6, v7⟩ := (IsValidValue_eq_true_iff d).mp hv
    exact ⟨(IsValidValue_eq_true_iff _).mpr
      ⟨v1, v2, v3, v4, IsTwoPower_NextTwoPower_4_128 _ v5, v6, v7⟩, hs, ht⟩
  · rintro d ⟨hv, hs, ht⟩
    obtain ⟨v1, v2, v3, v4, v5, v6, v7⟩ := (IsValidValue_eq_true_iff d).mp hv
    exact ⟨(IsValidValue_eq_true_iff _).mpr
      ⟨v1, v2, v3, IsTwoPower_NextTwoPower_4_128 _ v4, v5, v6, v7⟩, hs, ht⟩
  · rintro d ⟨hv, hs, ht⟩
    obtain ⟨v1, v2, v3, v4, v5, v6, v7⟩ := (IsValidValue_eq_true_iff d).mp hv
    exact ⟨(IsValidValue_eq_true_iff _).mpr
      ⟨v1, v2, IsTwoPower_NextTwoPower_1_8 _ v3, v4, v5, v6, v7⟩, hs, ht⟩
  · rintro d ⟨hv, hs, ht⟩
    obtain ⟨v1, v2, v3, v4, v5, v6, v7⟩ := (IsValidValue_eq_true_iff d).mp hv
    exact ⟨(IsValidValue_eq_true_iff _).mpr
      ⟨v1, IsTwoPower_NextTwoPower_4_256 _ v2, v3, v4, v5, v6, v7⟩, hs, ht⟩
  · rintro d ⟨hv, hs, ht⟩
    obtain ⟨v1, v2, v3, v4, v5, v6, v7⟩ := (IsValidValue_eq_true_iff d).mp hv
    exact ⟨(IsValidValue_eq_true_iff _).mpr
      ⟨IsTwoPower_NextTwoPower_4_256 _ v1, v2, v3, v4, v5, v6, v7⟩, hs, ht⟩

/-- Witness of C30: the last config of the search space with the spare flag set, toggle off:
the call wraps every field back to its minimum, returns `false`, and leaves a config that
satisfies `IsValidValue` with the spare flag and `GemmBThreadDataPerRead_GemmN` unchanged. -/
theorem SetNextValue_preserves_IsValidValue_witness :
    IsValidValue ⟨256, 256, 8, 128, 128, 8, false, true, 4, true⟩ = true ∧
    SetNextValue (sampleContext false) ⟨256, 256, 8, 128, 128, 8, false, true, 4, true⟩ =
      (⟨4, 4, 1, 4, 4, 1, false, false, 4, true⟩, false) ∧
    (SetNextValue (sampleContext false)
      ⟨256, 256, 8, 128, 128, 8, false, true, 4, true⟩).1.IsValidValue = true :=
  ⟨by decide, by decide,
    (SetNextValue_preserves_IsValidValue (sampleContext false)
      ⟨256, 256, 8, 128, 128, 8, false, true, 4, true⟩ (by decide)).1⟩

/-! ## Powers of two and integer division -/

theorem two_pow_tdiv (a b : Nat) :
    ((2 : Int) ^ a).tdiv (2 ^ b) = if b ≤ a then 2 ^ (a - b) else 0 := by
  split_ifs with h
  · have e : (2 : Int) ^ a = 2 ^ (a - b) * 2 ^ b := by
      rw [← pow_add]
      congr 1
      omega
    rw [e, Int.mul_tdiv_cancel _ (by positivity)]
  · apply Int.tdiv_eq_zero_of_lt (by positivity)
    exact pow_lt_pow_right₀ (by norm_num) (by omega)

theorem two_pow_tmod (a b : Nat) (h : b ≤ a) : ((2 : Int) ^ a).tmod (2 ^ b) = 0 := by
  have e : (2 : Int) ^ a = 2 ^ (a - b) * 2 ^ b := by
    rw [← pow_add]
    congr 1
    omega
  rw [e, Int.mul_tmod_left]

/-- C29: a config without the spare flag that satisfies `IsValidValue` and is accepted by
`IsFastToBeUsedForTuning` has `wave_m` dividing `block_m` and `wave_n` dividing `block_n`, so
`CalculateBlockSize` succeeds; the block size it returns is the `block_size`
`(block_m / wave_m) * (block_n / wave_n) * 64` of the heuristic, and it is 128 or 256. -/
theorem IsFastToBeUsedForTuning_block_size (ctx : ConvolutionContext)
    (c : PerformanceImplicitGemmForwardV4R5Xdlops) (p : ProblemDescription)
    (hs : c.use_spare_set = false) (hv : c.IsValidValue = true)
    (h : IsFastToBeUsedForTuning ctx c p = true) :
    c.GemmMPerBlock.tmod c.GemmMPerWave = 0 ∧ c.GemmNPerBlock.tmod c.GemmNPerWave = 0 ∧
    c.CalculateBlockSize.2 = true ∧
    c.CalculateBlockSize.1 =
      c.GemmMPerBlock.tdiv c.GemmMPerWave * c.GemmNPerBlock.tdiv c.GemmNPerWave * 64 ∧
    (c.CalculateBlockSize.1 = 128 ∨ c.CalculateBlockSize.1 = 256) := by
  obtain ⟨w1, w2⟩ := (IsFastToBeUsedForTuning_checks ctx c p hs hv h).2.2.1
  obtain ⟨v1, v2, -, v4, v5, -, -⟩ := (IsValidValue_eq_true_iff c).mp hv
  obtain ⟨⟨a, ha⟩, -, -⟩ := (IsTwoPower_iff 4 256 _ (by norm_num)).mp v1
  obtain ⟨⟨b, hb⟩, -, -⟩ := (IsTwoPower_iff 4 256 _ (by norm_num)).mp v2
  obtain ⟨⟨x, hx⟩, -, -⟩ := (IsTwoPower_iff 4 128 _ (by norm_num)).mp v4
  obtain ⟨⟨y, hy⟩, -, -⟩ := (IsTwoPower_iff 4 128 _ (by norm_num)).mp v5
  rw [ha, hx, hb, hy, two_pow_tdiv, two_pow_tdiv] at w1 w2
  have hxa : x ≤ a := by
    by_contra hn
    rw [if_neg hn] at w1
    simp at w1
  have hyb : y ≤ b := by
    by_contra hn
    rw [if_neg hn] at w1
    simp at w1
  rw [if_pos hxa, if_pos hyb, ← pow_add] at w1 w2
  have e1 : 1 ≤ a - x + (b - y) := by
    by_contra hn
    have : a - x + (b - y) = 0 := by omega
    rw [this] at w1
    simp at w1
  have e2 : a - x + (b - y) ≤ 2 :=
    (pow_le_pow_iff_right₀ (by norm_num : (1 : Int) < 2)).mp (by simpa using w2)
  have m1 : c.GemmMPerBlock.tmod c.GemmMPerWave = 0 := by
    rw [ha, hx]
    exact two_pow_tmod a x hxa
  have m2 : c.GemmNPerBlock.tmod c.GemmNPerWave = 0 := by
    rw [hb, hy]
    exact two_pow_tmod b y hyb
  have hval : c.CalculateBlockSize.2 = true := by
    unfold CalculateBlockSize
    simp [m1, m2]
  have hsize : c.CalculateBlockSize.1 =
      c.GemmMPerBlock.tdiv c.GemmMPerWave * c.GemmNPerBlock.tdiv c.GemmNPerWave * 64 := by
    rw [(CalculateBlockSize_eq_of_valid c hv hval).2.2,
      tdiv_mul_of_tmod_eq_zero (by rw [hx]; positivity) (by rw [hy]; positivity) m1 m2]
  refine ⟨m1, m2, hval, hsize, ?_⟩
  rw [hsize, ha, hx, hb, hy, two_pow_tdiv, two_pow_tdiv, if_pos hxa, if_pos hyb, ← pow_add]
  have : a - x + (b - y) = 1 ∨ a - x + (b - y) = 2 := by omega
  rcases this with e | e
  · left
    rw [e]
    norm_num
  · right
    rw [e]
    norm_num

/-- Witness of C29: `fastConfig` on `largestTileProblem`: block size
`(256 / 128) * (128 / 64) * 64 = 256`. -/
theorem IsFastToBeUsedForTuning_block_size_witness :
    fastConfig.use_spare_set = false ∧ fastConfig.IsValidValue = true ∧
    IsFastToBeUsedForTuning (sampleContext false) fastConfig largestTileProblem = true ∧
    fastConfig.CalculateBlockSize = (256, true) ∧
    (fastConfig.CalculateBlockSize.1 = 128 ∨ fastConfig.CalculateBlockSize.1 = 256) :=
  ⟨rfl, by decide, by decide, by decide,
    (IsFastToBeUsedForTuning_block_size (sampleContext false) fastConfig largestTileProblem rfl
      (by decide) (by decide)).2.2.2.2⟩

/-! ## Per-thread volumes of the block copies -/

/-- The checks passed by a successful operand-A block-copy calculation. -/
theorem A_checks_of_valid (ctx : ConvolutionContext)
    (c : PerformanceImplicitGemmForwardV4R5Xdlops) (p : ProblemDescription)
    (hv : c.IsValidValue = true)
    (h : (CalculateGemmABlockCopyPerformanceParameters ctx c p).valid = true) :
    GemmABlockCopy.tmp ctx c p ≠ 0 ∧
    (c.GemmKPerBlock.tmod (GemmABlockCopy.data_per_thread_copy_gemmk ctx c p) = 0 ∧
      c.GemmMPerBlock.tmod (GemmABlockCopy.data_per_thread_copy_gemmm ctx c p) = 0 ∧
      c.GemmKPack.tmod (GemmABlockCopy.SrcDataPerRead_GemmKPack ctx c p) = 0) ∧
    c.CalculateBlockSize.1 =
      GemmABlockCopy.ClusterLengths_GemmK ctx c p * GemmABlockCopy.ClusterLengths_GemmM ctx c p *
        GemmABlockCopy.ClusterLengths_GemmKPack ctx c p := by
  have e := A_cluster_product_exact ctx c p hv
  unfold CalculateGemmABlockCopyPerformanceParameters at h
  split_ifs at h with h1 h2 h3 h4
  all_goals first
    | exact absurd h (by decide)
    | exact ⟨h2, h3, e ▸ not_not.mp h4⟩

/-- For a config that satisfies `IsValidValue` and has a valid block size, `NWaves` is not zero,
`NWaves * wave_n = block_n` and `BPerBlock = wave_n`. -/
theorem B_NWaves_BPerBlock (c : PerformanceImplicitGemmForwardV4R5Xdlops)
    (hv : c.IsValidValue = true) (hbs : c.CalculateBlockSize.2 = true) :
    GemmBBlockCopy.NWaves c * c.GemmNPerWave = c.GemmNPerBlock ∧
    GemmBBlockCopy.NWaves c ≠ 0 ∧ GemmBBlockCopy.BPerBlock c = c.GemmNPerWave := by
  obtain ⟨-, ⟨b1, -⟩, -, -, -, -, -⟩ := IsValidValue_bounds c hv
  obtain ⟨-, hwn, -⟩ := CalculateBlockSize_eq_of_valid c hv hbs
  have hNW : GemmBBlockCopy.NWaves c * c.GemmNPerWave = c.GemmNPerBlock := by
    unfold GemmBBlockCopy.NWaves
    exact Int.tdiv_mul_cancel_of_tmod_eq_zero hwn
  have hNW0 : GemmBBlockCopy.NWaves c ≠ 0 := by
    intro h0
    rw [h0] at hNW
    simp at hNW
    omega
  refine ⟨hNW, hNW0, ?_⟩
  unfold GemmBBlockCopy.BPerBlock
  conv_lhs => rw [← hNW]
  exact Int.mul_tdiv_cancel_left _ hNW0

/-- For a config that satisfies `IsValidValue` and has a valid block size, the source vector
width of operand B is at most 128 in absolute value. -/
theorem B_SrcDataPerRead_abs (ctx : ConvolutionContext)
    (c : PerformanceImplicitGemmForwardV4R5Xdlops) (p : ProblemDescription)
    (hv : c.IsValidValue = true) (hbs : c.CalculateBlockSize.2 = true) :
    |GemmBBlockCopy.SrcDataPerRead_B ctx c p| ≤ 128 := by
  obtain ⟨-, -, -, -, ⟨n1, n2⟩, -, ⟨t1, t2⟩⟩ := IsValidValue_bounds c hv
  obtain ⟨-, -, hBP⟩ := B_NWaves_BPerBlock c hv hbs
  unfold GemmBBlockCopy.SrcDataPerRead_B
  split_ifs
  · exact abs_le.mpr ⟨by omega, by omega⟩
  · unfold GemmBBlockCopy.SrcDataPerRead_B_bounded
    rw [hBP]
    have g0 : 0 ≤ gcd (GemmBBlockCopy.SrcDataPerRead_B_layout ctx p) c.GemmNPerWave :=
      Int.natCast_nonneg _
    have g1 : gcd (GemmBBlockCopy.SrcDataPerRead_B_layout ctx p) c.GemmNPerWave ≤
        c.GemmNPerWave := Int.le_of_dvd (by omega) Int.gcd_dvd_right
    exact abs_le.mpr ⟨by omega, by omega⟩

/-- For a config that satisfies `IsValidValue` and has a valid block size, the product
`SrcDataPerRead_B * NWaves` is exact. -/
theorem B_read_product_exact (ctx : ConvolutionContext)
    (c : PerformanceImplicitGemmForwardV4R5Xdlops) (p : ProblemDescription)
    (hv : c.IsValidValue = true) (hbs : c.CalculateBlockSize.2 = true) :
    wrapInt (GemmBBlockCopy.SrcDataPerRead_B ctx c p * GemmBBlockCopy.NWaves c) =
      GemmBBlockCopy.SrcDataPerRead_B ctx c p * GemmBBlockCopy.NWaves c := by
  obtain ⟨-, a2, -, -, -, -⟩ := IsValidValue_abs c hv
  exact wrapInt_mul_of_abs (B_SrcDataPerRead_abs ctx c p hv hbs)
    (le_trans (abs_tdiv_le _ _) a2) (by norm_num)

/-- For a config that satisfies `IsValidValue` the product
`block_k * NWaves * BPerBlock * k_pack` is exact. -/
theorem B_data_per_thread_copy_exact (ctx : ConvolutionContext)
    (c : PerformanceImplicitGemmForwardV4R5Xdlops) (p : ProblemDescription)
    (hv : c.IsValidValue = true) :
    GemmBBlockCopy.data_per_thread_copy ctx c p =
      lcm (max 1 ((c.GemmKPerBlock * GemmBBlockCopy.NWaves c * GemmBBlockCopy.BPerBlock c *
        c.GemmKPack).tdiv c.CalculateBlockSize.1)) (GemmBBlockCopy.SrcDataPerRead_B ctx c p) := by
  obtain ⟨-, a2, a3, -, -, a6⟩ := IsValidValue_abs c hv
  have n1 : |GemmBBlockCopy.NWaves c| ≤ 256 := le_trans (abs_tdiv_le _ _) a2
  have n2 : |GemmBBlockCopy.BPerBlock c| ≤ 256 := le_trans (abs_tdiv_le _ _) a2
  have e1 : wrapInt (wrapInt (c.GemmKPerBlock * GemmBBlockCopy.NWaves c) *
      GemmBBlockCopy.BPerBlock c) =
      c.GemmKPerBlock * GemmBBlockCopy.NWaves c * GemmBBlockCopy.BPerBlock c :=
    wrapInt_mul_mul_of_abs a3 n1 n2 (by norm_num)
  have e2 : |c.GemmKPerBlock * GemmBBlockCopy.NWaves c * GemmBBlockCopy.BPerBlock c| ≤
      8 * 256 * 256 := by
    rw [abs_mul, abs_mul]
    exact mul_le_mul (mul_le_mul a3 n1 (abs_nonneg _) (by norm_num)) n2 (abs_nonneg _)
      (by norm_num)
  unfold GemmBBlockCopy.data_per_thread_copy
  rw [e1, wrapInt_mul_of_abs e2 a6 (by norm_num)]

/-- The checks passed by a successful operand-B block-copy calculation. -/
theorem B_checks_of_valid (ctx : ConvolutionContext)
    (c : PerformanceImplicitGemmForwardV4R5Xdlops) (p : ProblemDescription)
    (hv : c.IsValidValue = true)
    (h : (CalculateGemmBBlockCopyPerformanceParameters ctx c p).valid = true) :
    (GemmBBlockCopy.SrcDataPerRead_B ctx c p * GemmBBlockCopy.NWaves c ≠ 0 ∧
      (GemmBBlockCopy.data_per_thread_copy ctx c p).tmod
        (GemmBBlockCopy.SrcDataPerRead_B ctx c p * GemmBBlockCopy.NWaves c) = 0) ∧
    (GemmBBlockCopy.data_per_thread_copy_gemmkpack ctx c p > 0 ∧
      GemmBBlockCopy.data_per_thread_copy_gemmk ctx c p > 0 ∧
      GemmBBlockCopy.SrcDataPerRead_B ctx c p > 0) ∧
    (c.GemmKPerBlock.tmod (GemmBBlockCopy.data_per_thread_copy_gemmk ctx c p) = 0 ∧
      (GemmBBlockCopy.BPerBlock c).tmod (GemmBBlockCopy.SrcDataPerRead_B ctx c p) = 0 ∧
      c.GemmKPack.tmod (GemmBBlockCopy.data_per_thread_copy_gemmkpack ctx c p) = 0) ∧
    c.CalculateBlockSize.1 =
      GemmBBlockCopy.ClusterLengths_GemmK ctx c p * GemmBBlockCopy.ClusterLengths_B ctx c p *
        GemmBBlockCopy.ClusterLengths_GemmKPack ctx c p := by
  have e := B_cluster_product_exact ctx c p hv
  have r := B_read_product_exact ctx c p hv (B_valid_CalculateBlockSize ctx c p h)
  unfold CalculateGemmBBlockCopyPerformanceParameters at h
  rw [r] at h
  split_ifs at h with h1 h2 h3 h4 h5 h6
  all_goals first
    | exact absurd h (by decide)
    | exact ⟨by simpa [not_or] using h3, h4, h5, e ▸ not_not.mp h6⟩

theorem gcd_dvd_right (x y : Int) : gcd x y ∣ y := by
  unfold gcd
  exact Int.gcd_dvd_right

theorem gcd_nonneg (x y : Int) : 0 ≤ gcd x y := by
  unfold gcd
  exact Int.natCast_nonneg _

theorem dvd_lcm_right (x y : Int) : y ∣ lcm x y := by
  unfold lcm
  exact Int.dvd_lcm_right

/-- Fields of a config that satisfies `IsValidValue` are positive. -/
theorem IsValidValue_pos (c : PerformanceImplicitGemmForwardV4R5Xdlops)
    (h : c.IsValidValue = true) :
    0 < c.GemmMPerBlock ∧ 0 < c.GemmNPerBlock ∧ 0 < c.GemmKPerBlock ∧ 0 < c.GemmMPerWave ∧
    0 < c.GemmNPerWave ∧ 0 < c.GemmKPack := by
  simp only [IsValidValue, IsTwoPower, Bool.and_eq_true, decide_eq_true_eq] at h
  obtain ⟨⟨⟨⟨⟨⟨⟨⟨-, a1⟩, -⟩, ⟨⟨-, a2⟩, -⟩⟩, ⟨⟨-, a3⟩, -⟩⟩, ⟨⟨-, a4⟩, -⟩⟩, ⟨⟨-, a5⟩, -⟩⟩,
    ⟨⟨-, a6⟩, -⟩⟩, -⟩ := h
  exact ⟨by omega, by omega, by omega, by omega, by omega, by omega⟩

/-- C28: for a config that satisfies `IsValidValue` and for which the operand-A block-copy
calculation succeeds, the block size divides `block_k * block_m * k_pack`, and the per-thread
extents multiply to the per-thread volume: `dk * dm * srcWidth =
block_k * block_m * k_pack / BlockSize`, where `dk = block_k / ClusterLengths_GemmK`,
`dm = block_m / ClusterLengths_GemmM` and `srcWidth` is the returned source vector width. -/
theorem A_block_copy_volume (ctx : ConvolutionContext)
    (c : PerformanceImplicitGemmForwardV4R5Xdlops) (p : ProblemDescription)
    (hv : c.IsValidValue = true)
    (h : (CalculateGemmABlockCopyPerformanceParameters ctx c p).valid = true) :
    c.CalculateBlockSize.1 ∣ c.GemmKPerBlock * c.GemmMPerBlock * c.GemmKPack ∧
    c.GemmKPerBlock.tdiv
        (CalculateGemmABlockCopyPerformanceParameters ctx c p).ClusterLengths_GemmK *
      c.GemmMPerBlock.tdiv
        (CalculateGemmABlockCopyPerformanceParameters ctx c p).ClusterLengths_GemmMOrB *
      (CalculateGemmABlockCopyPerformanceParameters ctx c p).SrcDataPerRead =
    (c.GemmKPerBlock * c.GemmMPerBlock * c.GemmKPack).tdiv c.CalculateBlockSize.1 := by
  obtain ⟨bm0, -, bk0, -, -, kp0⟩ := IsValidValue_pos c hv
  obtain ⟨ht, ⟨c1, c2, c3⟩, hB⟩ := A_checks_of_valid ctx c p hv h
  rw [A_outputs_of_valid ctx c p h]
  simp only
  unfold GemmABlockCopy.ClusterLengths_GemmK GemmABlockCopy.ClusterLengths_GemmM
    GemmABlockCopy.ClusterLengths_GemmKPack at hB
  unfold GemmABlockCopy.ClusterLengths_GemmK GemmABlockCopy.ClusterLengths_GemmM
  have hprod : GemmABlockCopy.data_per_thread_copy_gemmk ctx c p *
      GemmABlockCopy.data_per_thread_copy_gemmm ctx c p = GemmABlockCopy.tmp ctx c p := by
    unfold GemmABlockCopy.data_per_thread_copy_gemmk GemmABlockCopy.data_per_thread_copy_gemmm
    cases c.GemmAThreadCopyMoreGemmK
    · simp only [Bool.false_eq_true, if_false]
      exact Int.tdiv_mul_cancel (gcd_dvd_right _ _)
    · simp only [if_true]
      exact Int.mul_tdiv_cancel' (gcd_dvd_right _ _)
  generalize GemmABlockCopy.data_per_thread_copy_gemmk ctx c p = dk at c1 hB hprod ⊢
  generalize GemmABlockCopy.data_per_thread_copy_gemmm ctx c p = dm at c2 hB hprod ⊢
  generalize GemmABlockCopy.SrcDataPerRead_GemmKPack ctx c p = s at c3 hB ⊢
  generalize GemmABlockCopy.tmp ctx c p = t at ht hprod
  generalize c.CalculateBlockSize.1 = B at hB ⊢
  obtain ⟨qk, hqk⟩ := Int.dvd_of_tmod_eq_zero c1
  obtain ⟨qm, hqm⟩ := Int.dvd_of_tmod_eq_zero c2
  obtain ⟨qp, hqp⟩ := Int.dvd_of_tmod_eq_zero c3
  have dk0 : dk ≠ 0 := by
    rintro rfl
    simp at hprod
    exact ht hprod.symm
  have dm0 : dm ≠ 0 := by
    rintro rfl
    simp at hprod
    exact ht hprod.symm
  have s0 : s ≠ 0 := by
    rintro rfl
    simp at hqp
    omega
  have qk0 : qk ≠ 0 := by
    rintro rfl
    simp at hqk
    omega
  have qm0 : qm ≠ 0 := by
    rintro rfl
    simp at hqm
    omega
  have qp0 : qp ≠ 0 := by
    rintro rfl
    simp at hqp
    omega
  rw [hqk, hqm, hqp, Int.mul_tdiv_cancel_left _ dk0, Int.mul_tdiv_cancel_left _ dm0,
    Int.mul_tdiv_cancel_left _ s0] at hB
  have hB0 : B ≠ 0 := by
    rw [hB]
    exact mul_ne_zero (mul_ne_zero qk0 qm0) qp0
  have hV : c.GemmKPerBlock * c.GemmMPerBlock * c.GemmKPack = B * (dk * dm * s) := by
    rw [hqk, hqm, hqp, hB]
    ring
  rw [hV, Int.mul_tdiv_cancel_left _ hB0]
  refine ⟨Dvd.intro _ rfl, ?_⟩
  rw [hqk, hqm, Int.mul_tdiv_cancel_left _ dk0, Int.mul_tdiv_cancel_left _ dm0,
    Int.mul_tdiv_cancel _ qk0, Int.mul_tdiv_cancel _ qm0]

/-- Witness of C28: `fastConfig` on `largestTileProblem` (block size 256, cluster extents
`(4, 64, 1)`, source width 4): `(4 / 4) * (256 / 64) * 4 = 16 = 4 * 256 * 4 / 256`. -/
theorem A_block_copy_volume_witness :
    fastConfig.IsValidValue = true ∧
    (CalculateGemmABlockCopyPerformanceParameters (sampleContext false) fastConfig
      largestTileProblem).valid = true ∧
    fastConfig.CalculateBlockSize.1 ∣
      fastConfig.GemmKPerBlock * fastConfig.GemmMPerBlock * fastConfig.GemmKPack ∧
    fastConfig.GemmKPerBlock.tdiv
        (CalculateGemmABlockCopyPerformanceParameters (sampleContext false) fastConfig
          largestTileProblem).ClusterLengths_GemmK *
      fastConfig.GemmMPerBlock.tdiv
        (CalculateGemmABlockCopyPerformanceParameters (sampleContext false) fastConfig
          largestTileProblem).ClusterLengths_GemmMOrB *
      (CalculateGemmABlockCopyPerformanceParameters (sampleContext false) fastConfig
        largestTileProblem).SrcDataPerRead = 16 :=
  ⟨by decide, by decide,
    (A_block_copy_volume (sampleContext false) fastConfig largestTileProblem (by decide)
      (by decide)).1,
    (A_block_copy_volume (sampleContext false) fastConfig largestTileProblem (by decide)
      (by decide)).2.trans (by decide)⟩

/-- C27: for a config that satisfies `IsValidValue` and for which the operand-B block-copy
calculation succeeds, the block size divides `block_k * block_n * k_pack`, the `lcm` with the
source vector width leaves `data_per_thread_copy` at the per-thread volume
`block_k * block_n * k_pack / BlockSize`, and the returned source vector width divides that
volume. -/
theorem B_block_copy_volume (ctx : ConvolutionContext)
    (c : PerformanceImplicitGemmForwardV4R5Xdlops) (p : ProblemDescription)
    (hv : c.IsValidValue = true)
    (h : (CalculateGemmBBlockCopyPerformanceParameters ctx c p).valid = true) :
    c.CalculateBlockSize.1 ∣ c.GemmKPerBlock * c.GemmNPerBlock * c.GemmKPack ∧
    (CalculateGemmBBlockCopyPerformanceParameters ctx c p).SrcDataPerRead ∣
      (c.GemmKPerBlock * c.GemmNPerBlock * c.GemmKPack).tdiv c.CalculateBlockSize.1 ∧
    GemmBBlockCopy.data_per_thread_copy ctx c p =
      (c.GemmKPerBlock * c.GemmNPerBlock * c.GemmKPack).tdiv c.CalculateBlockSize.1 ∧
    max 1 ((c.GemmKPerBlock * GemmBBlockCopy.NWaves c * GemmBBlockCopy.BPerBlock c *
        c.GemmKPack).tdiv c.CalculateBlockSize.1) =
      (c.GemmKPerBlock * c.GemmNPerBlock * c.GemmKPack).tdiv c.CalculateBlockSize.1 := by
  obtain ⟨-, bn0, bk0, -, wn0, kp0⟩ := IsValidValue_pos c hv
  obtain ⟨⟨n0, c0⟩, ⟨p1, p2, p3⟩, ⟨c1, c2, c3⟩, hB⟩ := B_checks_of_valid ctx c p hv h
  have hbs := B_valid_CalculateBlockSize ctx c p h
  obtain ⟨hNW, hNW0, hBP⟩ := B_NWaves_BPerBlock c hv hbs
  rw [(B_SrcDataPerRead_of_valid ctx c p h).1]
  have hprod : GemmBBlockCopy.data_per_thread_copy_gemmk ctx c p *
      GemmBBlockCopy.data_per_thread_copy_gemmkpack ctx c p = GemmBBlockCopy.tmp ctx c p := by
    unfold GemmBBlockCopy.data_per_thread_copy_gemmk
      GemmBBlockCopy.data_per_thread_copy_gemmkpack
    cases c.GemmBThreadCopyMoreGemmKPack
    · simp only [Bool.false_eq_true, if_false]
      exact Int.mul_tdiv_cancel' (gcd_dvd_right _ _)
    · simp only [if_true]
      exact Int.tdiv_mul_cancel (gcd_dvd_right _ _)
  have htmp : GemmBBlockCopy.tmp ctx c p *
      (GemmBBlockCopy.SrcDataPerRead_B ctx c p * GemmBBlockCopy.NWaves c) =
      GemmBBlockCopy.data_per_thread_copy ctx c p := by
    unfold GemmBBlockCopy.tmp
    rw [B_read_product_exact ctx c p hv hbs]
    exact Int.tdiv_mul_cancel_of_tmod_eq_zero c0
  have hs : GemmBBlockCopy.SrcDataPerRead_B ctx c p ∣
      GemmBBlockCopy.data_per_thread_copy ctx c p := by
    unfold GemmBBlockCopy.data_per_thread_copy
    exact dvd_lcm_right _ _
  have hdata : GemmBBlockCopy.data_per_thread_copy ctx c p =
      lcm (max 1 ((c.GemmKPerBlock * GemmBBlockCopy.NWaves c * GemmBBlockCopy.BPerBlock c *
        c.GemmKPack).tdiv c.CalculateBlockSize.1)) (GemmBBlockCopy.SrcDataPerRead_B ctx c p) :=
    B_data_per_thread_copy_exact ctx c p hv
  unfold GemmBBlockCopy.ClusterLengths_GemmK GemmBBlockCopy.ClusterLengths_B
    GemmBBlockCopy.ClusterLengths_GemmKPack at hB
  rw [hBP] at hB c2 hdata ⊢
  generalize GemmBBlockCopy.data_per_thread_copy ctx c p = data at htmp hs hdata ⊢
  generalize GemmBBlockCopy.data_per_thread_copy_gemmk ctx c p = dk at c1 p2 hB hprod
  generalize GemmBBlockCopy.data_per_thread_copy_gemmkpack ctx c p = dkp at c3 p1 hB hprod
  generalize GemmBBlockCopy.SrcDataPerRead_B ctx c p = s at c2 p3 hB htmp hs hdata ⊢
  generalize GemmBBlockCopy.tmp ctx c p = t at hprod htmp
  generalize GemmBBlockCopy.NWaves c = nw at hNW hNW0 htmp hdata ⊢
  generalize c.CalculateBlockSize.1 = B at hB hdata ⊢
  obtain ⟨qk, hqk⟩ := Int.dvd_of_tmod_eq_zero c1
  obtain ⟨qb, hqb⟩ := Int.dvd_of_tmod_eq_zero c2
  obtain ⟨qp, hqp⟩ := Int.dvd_of_tmod_eq_zero c3
  rw [hqk, hqb, hqp, Int.mul_tdiv_cancel_left _ (ne_of_gt p2),
    Int.mul_tdiv_cancel_left _ (ne_of_gt p3), Int.mul_tdiv_cancel_left _ (ne_of_gt p1)] at hB
  have hV : c.GemmKPerBlock * c.GemmNPerBlock * c.GemmKPack = B * data := by
    rw [← hNW, hqk, hqb, hqp, hB, ← htmp, ← hprod]
    ring
  have hVpos : 0 < c.GemmKPerBlock * c.GemmNPerBlock * c.GemmKPack := by positivity
  have hB0 : B ≠ 0 := by
    rintro rfl
    rw [zero_mul] at hV
    omega
  have hV2 : c.GemmKPerBlock * nw * c.GemmNPerWave * c.GemmKPack = B * data := by
    rw [← hV, ← hNW]
    ring
  have hdpos : 0 ≤ data := by
    rw [hdata]
    unfold lcm
    exact Int.natCast_nonneg _
  have hd1 : 1 ≤ data := by
    rcases eq_or_lt_of_le hdpos with h0 | h0
    · rw [← h0, mul_zero] at hV
      omega
    · omega
  rw [hV, hV2, Int.mul_tdiv_cancel_left _ hB0]
  exact ⟨Dvd.intro _ rfl, hs, rfl, max_eq_right hd1⟩

/-- Witness of C27: `fastConfig` on `largestTileProblem` (block size 256, source width 4):
`4 * 128 * 4 / 256 = 8` elements per thread. -/
theorem B_block_copy_volume_witness :
    fastConfig.IsValidValue = true ∧
    (CalculateGemmBBlockCopyPerformanceParameters (sampleContext false) fastConfig
      largestTileProblem).valid = true ∧
    (fastConfig.GemmKPerBlock * fastConfig.GemmNPerBlock * fastConfig.GemmKPack).tdiv
      fastConfig.CalculateBlockSize.1 = 8 ∧
    (CalculateGemmBBlockCopyPerformanceParameters (sampleContext false) fastConfig
      largestTileProblem).SrcDataPerRead = 4 ∧
    fastConfig.CalculateBlockSize.1 ∣
      fastConfig.GemmKPerBlock * fastConfig.GemmNPerBlock * fastConfig.GemmKPack ∧
    (CalculateGemmBBlockCopyPerformanceParameters (sampleContext false) fastConfig
      largestTileProblem).SrcDataPerRead ∣
      (fastConfig.GemmKPerBlock * fastConfig.GemmNPerBlock * fastConfig.GemmKPack).tdiv
        fastConfig.CalculateBlockSize.1 :=
  ⟨by decide, by decide, by decide, by decide,
    (B_block_copy_volume (sampleContext false) fastConfig largestTileProblem (by decide)
      (by decide)).1,
    (B_block_copy_volume (sampleContext false) fastConfig largestTileProblem (by decide)
      (by decide)).2.1⟩

/-! ## Invariants of the config produced by `HeuristicInit` -/

/-- Every config of the descent is in the descent lattice of its precision. -/
theorem inDescentLattice_descentAt (p : ProblemDescription) (i : Nat) :
    inDescentLattice p
      (descentAt (descentKPackLow p.dataType) (descentKPackSpan p.dataType) i) = true := by
  have hk := descentKPack_lt p.dataType
  unfold descentAt
  rw [digits_descentRadices]
  simp only [descentConfig, inDescentLattice, Bool.and_eq_true, Bool.not_eq_true', and_true,
    Bool.not_false]
  have r7 : ∀ x : Nat, x % 7 < 7 := fun x => Nat.mod_lt _ (by norm_num)
  have r6 : ∀ x : Nat, x % 6 < 6 := fun x => Nat.mod_lt _ (by norm_num)
  have r4 : ∀ x : Nat, x % 4 < 4 := fun x => Nat.mod_lt _ (by norm_num)
  have rn : ∀ x : Nat, x % (descentKPackSpan p.dataType + 1) < descentKPackSpan p.dataType + 1 :=
    fun x => Nat.mod_lt _ (by omega)
  have e8 : ∀ x : Nat, x < 7 → IsTwoPower 4 256 (2 ^ (8 - x)) = true := by
    intro x hx
    have := IsTwoPower_two_pow (L := 4) (H := 256) 2 6 (6 - x) (by norm_num) (by norm_num)
      (by norm_num) (by omega)
    rwa [show 2 + (6 - x) = 8 - x by omega] at this
  have e7 : ∀ x : Nat, x < 6 → IsTwoPower 4 128 (2 ^ (7 - x)) = true := by
    intro x hx
    have := IsTwoPower_two_pow (L := 4) (H := 128) 2 5 (5 - x) (by norm_num) (by norm_num)
      (by norm_num) (by omega)
    rwa [show 2 + (5 - x) = 7 - x by omega] at this
  have e3 : ∀ x : Nat, x < 4 → IsTwoPower 1 8 (2 ^ (3 - x)) = true := by
    intro x hx
    have := IsTwoPower_two_pow (L := 1) (H := 8) 0 3 (3 - x) (by norm_num) (by norm_num)
      (by norm_num) (by omega)
    rwa [show 0 + (3 - x) = 3 - x by omega] at this
  have ek : ∀ x : Nat, x < descentKPackSpan p.dataType + 1 →
      IsTwoPower (2 ^ descentKPackLow p.dataType)
        (2 ^ (descentKPackLow p.dataType + descentKPackSpan p.dataType))
        (2 ^ (descentKPackLow p.dataType + descentKPackSpan p.dataType - x)) = true := by
    intro x hx
    have := IsTwoPower_two_pow (L := 2 ^ descentKPackLow p.dataType)
      (H := 2 ^ (descentKPackLow p.dataType + descentKPackSpan p.dataType))
      (descentKPackLow p.dataType) (descentKPackSpan p.dataType)
      (descentKPackSpan p.dataType - x) rfl rfl hk (by omega)
    rwa [show descentKPackLow p.dataType + (descentKPackSpan p.dataType - x) =
      descentKPackLow p.dataType + descentKPackSpan p.dataType - x by omega] at this
  exact ⟨⟨⟨⟨⟨⟨e8 _ (r7 _), e8 _ (r7 _)⟩, e3 _ (r4 _)⟩, e7 _ (r6 _)⟩, e7 _ (r6 _)⟩,
    ek _ (rn _)⟩, e3 _ (r4 _)⟩

/-- A config of the descent lattice of a supported precision satisfies `IsValidValue`, has the
A flag false and the B flag true, and its `GemmKPack` is within the bounds of the descent. -/
theorem inDescentLattice_spec (p : ProblemDescription) (hp : p.dataType ≠ DataType.other)
    (c : PerformanceImplicitGemmForwardV4R5Xdlops) (h : inDescentLattice p c = true) :
    c.IsValidValue = true ∧ c.GemmAThreadCopyMoreGemmK = false ∧
    c.GemmBThreadCopyMoreGemmKPack = true ∧
    (heuristicKPackBounds p.dataType).1 ≤ c.GemmKPack ∧
    c.GemmKPack ≤ (heuristicKPackBounds p.dataType).2 := by
  simp only [inDescentLattice, Bool.and_eq_true, Bool.not_eq_true', and_assoc] at h
  obtain ⟨h1, h2, h3, h4, h5, h6, h7, h8, h9⟩ := h
  have hk := descentKPack_lt p.dataType
  have hH : (2 : Int) ^ (descentKPackLow p.dataType + descentKPackSpan p.dataType) < 2 ^ 31 :=
    (pow_lt_pow_iff_right₀ (by norm_num : (1 : Int) < 2)).mpr hk
  obtain ⟨hpow, hlo, hhi⟩ := (IsTwoPower_iff _ _ _ hH).mp h6
  have hb := heuristicKPackBounds_eq p.dataType hp
  have b1 : (1 : Int) ≤ 2 ^ descentKPackLow p.dataType := one_le_pow₀ (by norm_num)
  have b2 : (2 : Int) ^ (descentKPackLow p.dataType + descentKPackSpan p.dataType) ≤ 8 := by
    have : descentKPackLow p.dataType + descentKPackSpan p.dataType ≤ 3 := by
      cases p.dataType <;> decide
    calc (2 : Int) ^ (descentKPackLow p.dataType + descentKPackSpan p.dataType)
        ≤ 2 ^ 3 := (pow_le_pow_iff_right₀ (by norm_num : (1 : Int) < 2)).mpr this
      _ = 8 := by norm_num
  have h6b : IsTwoPower 1 8 c.GemmKPack = true :=
    (IsTwoPower_iff 1 8 _ (by norm_num)).mpr ⟨hpow, by omega, by omega⟩
  refine ⟨(IsValidValue_eq_true_iff c).mpr ⟨h1, h2, h3, h4, h5, h6b, h7⟩, h8, h9, ?_, ?_⟩
  · rw [hb]
    exact hlo
  · rw [hb]
    exact hhi

/-- For a supported precision `HeuristicInit` returns, and the config it produces is one of the
configs tested by the descent. -/
theorem HeuristicInit_eq_descentVisit (ctx : ConvolutionContext) (p : ProblemDescription)
    (hp : p.dataType ≠ DataType.other) :
    ∃ k, 1 ≤ k ∧ k ≤ descentTests p.dataType ∧
      HeuristicInit ctx p = some (descentVisit p.dataType k) := by
  obtain ⟨k, k1, k2, k3, -, -⟩ := get_euristic_config_spec p hp
    (fun config => IsReallyValid ctx config p && IsFastToBeUsedForTuning ctx config p)
  obtain ⟨m, m1, m2, m3, -, -⟩ := get_euristic_config_spec p hp
    (fun config => IsReallyValid ctx config p)
  rw [HeuristicInit_of_first_pass ctx p _ k3]
  by_cases hv : IsReallyValid ctx (descentVisit p.dataType k) p = true
  · exact ⟨k, k1, k2, by rw [if_pos hv]⟩
  · exact ⟨m, m1, m2, by rw [if_neg hv, m3]⟩

/-- C31: for a problem of a supported precision `HeuristicInit` returns, and, whether or not a
valid point was found, the config it produces satisfies `IsValidValue`, has the A
copy-priority flag false, the B copy-priority flag true and the spare flag false, and has
`k_pack` within the descent range of the precision (1 to 4 for fp32, 4 to 8 for fp16, 2 to 8 for
bf16; in particular at most 4 for fp32, at least 4 for fp16, at least 2 for bf16). -/
theorem HeuristicInit_invariants (ctx : ConvolutionContext) (p : ProblemDescription)
    (hp : p.dataType ≠ DataType.other) :
    ∃ r, HeuristicInit ctx p = some r ∧ r.IsValidValue = true ∧
      r.GemmAThreadCopyMoreGemmK = false ∧ r.GemmBThreadCopyMoreGemmKPack = true ∧
      r.use_spare_set = false ∧
      (heuristicKPackBounds p.dataType).1 ≤ r.GemmKPack ∧
      r.GemmKPack ≤ (heuristicKPackBounds p.dataType).2 ∧
      (p.dataType = DataType.fp32 → r.GemmKPack ≤ 4) ∧
      (p.dataType = DataType.fp16 → 4 ≤ r.GemmKPack) ∧
      (p.dataType = DataType.bfp16 → 2 ≤ r.GemmKPack) := by
  obtain ⟨k, -, -, hk⟩ := HeuristicInit_eq_descentVisit ctx p hp
  have hl : inDescentLattice p (descentVisit p.dataType k) = true := by
    rw [descentVisit_eq _ hp]
    exact inDescentLattice_descentAt p _
  obtain ⟨v, fa, fb, lo, hi⟩ := inDescentLattice_spec p hp _ hl
  refine ⟨_, hk, v, fa, fb, descentVisit_use_spare_set _ hp k, lo, hi, ?_, ?_, ?_⟩
  · intro hd
    have e : (heuristicKPackBounds p.dataType).2 = 4 := by rw [hd]; rfl
    rw [e] at hi
    exact hi
  · intro hd
    have e : (heuristicKPackBounds p.dataType).1 = 4 := by rw [hd]; rfl
    rw [e] at lo
    exact lo
  · intro hd
    have e : (heuristicKPackBounds p.dataType).1 = 2 := by rw [hd]; rfl
    rw [e] at lo
    exact lo

/-- Witness of C31: Scenario A (fp32). -/
theorem HeuristicInit_invariants_witness :
    sampleProblem.dataType ≠ DataType.other ∧
    ∃ r, HeuristicInit (sampleContext false) sampleProblem = some r ∧ r.IsValidValue = true ∧
      r.GemmAThreadCopyMoreGemmK = false ∧ r.GemmBThreadCopyMoreGemmKPack = true ∧
      r.use_spare_set = false ∧
      (heuristicKPackBounds sampleProblem.dataType).1 ≤ r.GemmKPack ∧
      r.GemmKPack ≤ (heuristicKPackBounds sampleProblem.dataType).2 ∧
      (sampleProblem.dataType = DataType.fp32 → r.GemmKPack ≤ 4) ∧
      (sampleProblem.dataType = DataType.fp16 → 4 ≤ r.GemmKPack) ∧
      (sampleProblem.dataType = DataType.bfp16 → 2 ≤ r.GemmKPack) :=
  ⟨by decide, HeuristicInit_invariants (sampleContext false) sampleProblem (by decide)⟩

/-! ## Validity does not depend on the tunable or the spare flag when the toggle is off -/

/-- The operand-A block-copy calculation reads neither `GemmBThreadDataPerRead_GemmN` nor the
spare flag. -/
theorem CalculateGemmABlockCopyPerformanceParameters_congr (ctx : ConvolutionContext)
    (p : ProblemDescription) (c : PerformanceImplicitGemmForwardV4R5Xdlops) (t : Int)
    (s : Bool) :
    CalculateGemmABlockCopyPerformanceParameters ctx
      { c with GemmBThreadDataPerRead_GemmN := t, use_spare_set := s } p =
    CalculateGemmABlockCopyPerformanceParameters ctx c p :=
  rfl

/-- With the tuning toggle off the operand-B block-copy calculation reads neither
`GemmBThreadDataPerRead_GemmN` nor the spare flag. -/
theorem CalculateGemmBBlockCopyPerformanceParameters_congr (ctx : ConvolutionContext)
    (p : ProblemDescription) (c : PerformanceImplicitGemmForwardV4R5Xdlops) (t : Int)
    (s : Bool) (h : ctx.ADD_VECTOR_LOAD_GEMMN_TUNE_PARAM = false) :
    CalculateGemmBBlockCopyPerformanceParameters ctx
      { c with GemmBThreadDataPerRead_GemmN := t, use_spare_set := s } p =
    CalculateGemmBBlockCopyPerformanceParameters ctx c p := by
  simp only [CalculateGemmBBlockCopyPerformanceParameters, CalculateBlockSize,
    GemmBBlockCopy.tuneParamMismatch, GemmBBlockCopy.SrcDataPerRead_B,
    GemmBBlockCopy.NWaves, GemmBBlockCopy.data_per_thread_copy,
    GemmBBlockCopy.data_per_thread_copy_gemmkpack, GemmBBlockCopy.data_per_thread_copy_gemmk,
    GemmBBlockCopy.BPerBlock, GemmBBlockCopy.ClusterLengths_GemmK,
    GemmBBlockCopy.ClusterLengths_B, GemmBBlockCopy.ClusterLengths_GemmKPack,
    GemmBBlockCopy.DstDataPerWrite_GemmKPack, GemmBBlockCopy.tmp,
    GemmBBlockCopy.SrcDataPerRead_B_bounded, h, Bool.false_and]
  rfl

/-- C32: with the tuning toggle off, for two configs that agree on every field except
`GemmBThreadDataPerRead_GemmN` (both values in `{1, 2, 4, 8}`) and `use_spare_set`,
`IsReallyValid` returns the same answer and each of the two block-copy calculations returns the
same tuple. -/
theorem IsReallyValid_independent_of_tunable (ctx : ConvolutionContext)
    (p : ProblemDescription) (c1 c2 : PerformanceImplicitGemmForwardV4R5Xdlops)
    (htune : ctx.ADD_VECTOR_LOAD_GEMMN_TUNE_PARAM = false)
    (hbm : c1.GemmMPerBlock = c2.GemmMPerBlock) (hbn : c1.GemmNPerBlock = c2.GemmNPerBlock)
    (hbk : c1.GemmKPerBlock = c2.GemmKPerBlock) (hwm : c1.GemmMPerWave = c2.GemmMPerWave)
    (hwn : c1.GemmNPerWave = c2.GemmNPerWave) (hkp : c1.GemmKPack = c2.GemmKPack)
    (hfa : c1.GemmAThreadCopyMoreGemmK = c2.GemmAThreadCopyMoreGemmK)
    (hfb : c1.GemmBThreadCopyMoreGemmKPack = c2.GemmBThreadCopyMoreGemmKPack)
    (ht1 : c1.GemmBThreadDataPerRead_GemmN = 1 ∨ c1.GemmBThreadDataPerRead_GemmN = 2 ∨
      c1.GemmBThreadDataPerRead_GemmN = 4 ∨ c1.GemmBThreadDataPerRead_GemmN = 8)
    (ht2 : c2.GemmBThreadDataPerRead_GemmN = 1 ∨ c2.GemmBThreadDataPerRead_GemmN = 2 ∨
      c2.GemmBThreadDataPerRead_GemmN = 4 ∨ c2.GemmBThreadDataPerRead_GemmN = 8) :
    IsReallyValid ctx c1 p = IsReallyValid ctx c2 p ∧
    CalculateGemmABlockCopyPerformanceParameters ctx c1 p =
      CalculateGemmABlockCopyPerformanceParameters ctx c2 p ∧
    CalculateGemmBBlockCopyPerformanceParameters ctx c1 p =
      CalculateGemmBBlockCopyPerformanceParameters ctx c2 p := by
  have e : c2 =
      { c1 with
        GemmBThreadDataPerRead_GemmN := c2.GemmBThreadDataPerRead_GemmN
        use_spare_set := c2.use_spare_set } := by
    obtain ⟨a1, a2, a3, a4, a5, a6, a7, a8, a9, a10⟩ := c1
    obtain ⟨b1, b2, b3, b4, b5, b6, b7, b8, b9, b10⟩ := c2
    simp only at hbm hbn hbk hwm hwn hkp hfa hfb
    subst hbm hbn hbk hwm hwn hkp hfa hfb
    rfl
  have hT : IsTwoPower 1 8 c2.GemmBThreadDataPerRead_GemmN =
      IsTwoPower 1 8 c1.GemmBThreadDataPerRead_GemmN := by
    have v1 : IsTwoPower 1 8 c1.GemmBThreadDataPerRead_GemmN = true := by
      rcases ht1 with h | h | h | h <;> rw [h] <;> decide
    have v2 : IsTwoPower 1 8 c2.GemmBThreadDataPerRead_GemmN = true := by
      rcases ht2 with h | h | h | h <;> rw [h] <;> decide
    rw [v1, v2]
  rw [e]
  exact ⟨(IsReallyValid_congr ctx p c1 _ _ hT (Or.inl htune)).symm,
    (CalculateGemmABlockCopyPerformanceParameters_congr ctx p c1 _ _).symm,
    (CalculateGemmBBlockCopyPerformanceParameters_congr ctx p c1 _ _ htune).symm⟩

/-- Witness of C32: the sample config (tunable 8, spare flag off) against the same config with
tunable 1 and the spare flag on, for Scenario A with the toggle off: both are valid. -/
theorem IsReallyValid_independent_of_tunable_witness :
    (sampleContext false).ADD_VECTOR_LOAD_GEMMN_TUNE_PARAM = false ∧
    IsReallyValid (sampleContext false) sampleConfig sampleProblem = true ∧
    (IsReallyValid (sampleContext false) sampleConfig sampleProblem =
        IsReallyValid (sampleContext false) ⟨64, 256, 2, 64, 128, 4, false, true, 1, true⟩
          sampleProblem ∧
      CalculateGemmABlockCopyPerformanceParameters (sampleContext false) sampleConfig
          sampleProblem =
        CalculateGemmABlockCopyPerformanceParameters (sampleContext false)
          ⟨64, 256, 2, 64, 128, 4, false, true, 1, true⟩ sampleProblem ∧
      CalculateGemmBBlockCopyPerformanceParameters (sampleContext false) sampleConfig
          sampleProblem =
        CalculateGemmBBlockCopyPerformanceParameters (sampleContext false)
          ⟨64, 256, 2, 64, 128, 4, false, true, 1, true⟩ sampleProblem) :=
  ⟨rfl, by decide,
    IsReallyValid_independent_of_tunable (sampleContext false) sampleProblem sampleConfig
      ⟨64, 256, 2, 64, 128, 4, false, true, 1, true⟩ rfl rfl rfl rfl rfl rfl rfl rfl rfl
      (by decide) (by decide)⟩

end solver
end miopen
